import Mathlib

/-!
# A shallow embedding of the Pokémon sprite-animation engine

This file embeds the per-frame animation state machine of
`src/pokemon_animation.c` (the "digi-emerald" repository) in Lean 4 and
proves properties of it.

Modelling conventions:

* The sprite's scratch registers `sprite->data[0..7]` become the fields
  `d0 .. d7` of `Sprite`; `sprite->x2`/`sprite->y2` become `x2`/`y2`.
  All of these are `s16` in the source, so every store goes through the
  16-bit signed wrap `s16w`.
* C's `/` and `%` on signed ints truncate toward zero; they are modelled by
  `Int.tdiv` / `Int.tmod` (written `cdiv` / `cmod` below).  C's `x & 0xFF`
  on a (possibly negative) two's-complement int is `Int.emod x 256`.
* A sprite's callback pointer is modelled by the enumeration `Cb`;
  `stepCb` is the dispatcher that executes one frame of the installed
  callback, exactly following the C function of the same name.
* The file-scope C statics `sAnims` (context pool), `sAnimIdx` (round-robin
  cursor) and `sIsSummaryAnim` are the fields of `St` next to the sprite.
* External renderer/palette calls that write no engine-visible state
  (`BlendPalette`, `ObjAffineSet`, `FreeOamMatrix`, `InitSpriteAffineAnim`,
  `PlaySE`) are modelled as no-ops, except that the affine parameters
  handed to `ObjAffineSet` are recorded in the fields
  `lastXScale`/`lastYScale`/`lastRotation` and the sprite-sheet metadata
  recomputation `CalcCenterToCornerVec` records the affine mode it was
  called with in `centerVecMode`.
-/

namespace PokeAnim

set_option maxRecDepth 200000

/-- Wrap an integer to signed 16-bit two's-complement (every store to an
`s16` field of the sprite or of a context slot goes through this). -/
def s16w (x : Int) : Int := (x + 32768).emod 65536 - 32768

/-- Wrap to unsigned 8-bit (C cast `(u8)x`). -/
def u8w (x : Int) : Int := x.emod 256

/-- Wrap to unsigned 16-bit (C cast `(u16)x`). -/
def u16w (x : Int) : Int := x.emod 65536

/-- Wrap to unsigned 32-bit (C cast `(u32)x`). -/
def u32w (x : Int) : Int := x.emod 4294967296

/-- Sign-extend the low 8 bits (C cast `(s8)x` of a `u8` value, as on the
target ABI). -/
def s8w (x : Int) : Int := (x.emod 256 + 128) % 256 - 128

/-- C signed division: truncation toward zero. -/
def cdiv (a b : Int) : Int := Int.tdiv a b

/-- C signed remainder: sign of the dividend. -/
def cmod (a b : Int) : Int := Int.tmod a b

/-- Modelled from the spec: the trigonometric-lookup collaborator's sine
table (`gSineTable` of the external `trig.c`, which is not part of the
sources; per the spec it is a "periodic function over a 256-step circular
domain" scaled so that 256 = 1.0, here `round (256 * sin (2*π*i/256))`). -/
def sineTable : List Int :=
  [0, 6, 13, 19, 25, 31, 38, 44, 50, 56, 62, 68, 74, 80, 86, 92,
   98, 104, 109, 115, 121, 126, 132, 137, 142, 147, 152, 157, 162, 167, 172, 177,
   181, 185, 190, 194, 198, 202, 206, 209, 213, 216, 220, 223, 226, 229, 231, 234,
   237, 239, 241, 243, 245, 247, 248, 250, 251, 252, 253, 254, 255, 255, 256, 256,
   256, 256, 256, 255, 255, 254, 253, 252, 251, 250, 248, 247, 245, 243, 241, 239,
   237, 234, 231, 229, 226, 223, 220, 216, 213, 209, 206, 202, 198, 194, 190, 185,
   181, 177, 172, 167, 162, 157, 152, 147, 142, 137, 132, 126, 121, 115, 109, 104,
   98, 92, 86, 80, 74, 68, 62, 56, 50, 44, 38, 31, 25, 19, 13, 6,
   0, -6, -13, -19, -25, -31, -38, -44, -50, -56, -62, -68, -74, -80, -86, -92,
   -98, -104, -109, -115, -121, -126, -132, -137, -142, -147, -152, -157, -162, -167, -172, -177,
   -181, -185, -190, -194, -198, -202, -206, -209, -213, -216, -220, -223, -226, -229, -231, -234,
   -237, -239, -241, -243, -245, -247, -248, -250, -251, -252, -253, -254, -255, -255, -256, -256,
   -256, -256, -256, -255, -255, -254, -253, -252, -251, -250, -248, -247, -245, -243, -241, -239,
   -237, -234, -231, -229, -226, -223, -220, -216, -213, -209, -206, -202, -198, -194, -190, -185,
   -181, -177, -172, -167, -162, -157, -152, -147, -142, -137, -132, -126, -121, -115, -109, -104,
   -98, -92, -86, -80, -74, -68, -62, -56, -50, -44, -38, -31, -25, -19, -13, -6]

/-- Modelled from the spec: `Sin(index, amplitude)` of the external trig
collaborator — the sine-table entry scaled by `amplitude` in 256 = 1.0
fixed point (an arithmetic right shift by 8, i.e. floor division).  The
index is reduced mod 256 (the callers of this file stay in range). -/
def Sin (index amplitude : Int) : Int :=
  s16w (Int.ediv (amplitude * sineTable.getD (index.emod 256).toNat 0) 256)

/-- Modelled from the spec: `Cos(index, amplitude) = Sin(index + 64, amplitude)`
on the 256-step circular domain. -/
def Cos (index amplitude : Int) : Int := Sin (index + 64) amplitude

/-- The sprite-callback pointers that ever appear in `sprite->callback`
in `pokemon_animation.c`, as an enumeration: the 154 catalog entries of
`sMonAnimFunctions`, the shared inner loop callbacks they re-arm, the
terminal `WaitAnimEnd`, and the two external dummy callbacks. -/
inductive Cb where
  | Anim_VerticalSquishBounce
  | Anim_CircularStretchTwice
  | Anim_HorizontalVibrate
  | Anim_HorizontalSlide
  | Anim_VerticalSlide
  | Anim_BounceRotateToSides
  | Anim_VerticalJumpsHorizontalJumps
  | Anim_RotateToSides
  | Anim_RotateToSides_Twice
  | Anim_GrowVibrate
  | Anim_ZigzagFast
  | Anim_SwingConcave
  | Anim_SwingConcave_Fast
  | Anim_SwingConvex
  | Anim_SwingConvex_Fast
  | Anim_HorizontalShake
  | Anim_VerticalShake
  | Anim_CircularVibrate
  | Anim_Twist
  | Anim_ShrinkGrow
  | Anim_CircleCounterclockwise
  | Anim_GlowBlack
  | Anim_HorizontalStretch
  | Anim_VerticalStretch
  | Anim_RisingWobble
  | Anim_VerticalShakeTwice
  | Anim_TipMoveForward
  | Anim_HorizontalPivot
  | Anim_VerticalSlideWobble
  | Anim_HorizontalSlideWobble
  | Anim_VerticalJumps_Big
  | Anim_Spin_Long
  | Anim_GlowOrange
  | Anim_GlowRed
  | Anim_GlowBlue
  | Anim_GlowYellow
  | Anim_GlowPurple
  | Anim_BackAndLunge
  | Anim_BackFlip
  | Anim_Flicker
  | Anim_BackFlipBig
  | Anim_FrontFlip
  | Anim_TumblingFrontFlip
  | Anim_Figure8
  | Anim_FlashYellow
  | Anim_SwingConcave_FastShort
  | Anim_SwingConvex_FastShort
  | Anim_RotateUpSlamDown
  | Anim_DeepVerticalSquishBounce
  | Anim_HorizontalJumps
  | Anim_HorizontalJumpsVerticalStretch
  | Anim_RotateToSides_Fast
  | Anim_RotateUpToSides
  | Anim_FlickerIncreasing
  | Anim_TipHopForward
  | Anim_PivotShake
  | Anim_TipAndShake
  | Anim_VibrateToCorners
  | Anim_GrowInStages
  | Anim_VerticalSpring
  | Anim_VerticalRepeatedSpring
  | Anim_SpringRising
  | Anim_HorizontalSpring
  | Anim_HorizontalRepeatedSpring_Slow
  | Anim_HorizontalSlideShrink
  | Anim_LungeGrow
  | Anim_CircleIntoBackground
  | Anim_RapidHorizontalHops
  | Anim_FourPetal
  | Anim_VerticalSquishBounce_Slow
  | Anim_HorizontalSlide_Slow
  | Anim_VerticalSlide_Slow
  | Anim_BounceRotateToSides_Small
  | Anim_BounceRotateToSides_Slow
  | Anim_BounceRotateToSides_SmallSlow
  | Anim_ZigzagSlow
  | Anim_HorizontalShake_Slow
  | Anim_VertialShake_Slow
  | Anim_Twist_Twice
  | Anim_CircleCounterclockwise_Slow
  | Anim_VerticalShakeTwice_Slow
  | Anim_VerticalSlideWobble_Small
  | Anim_VerticalJumps_Small
  | Anim_Spin
  | Anim_TumblingFrontFlip_Twice
  | Anim_DeepVerticalSquishBounce_Twice
  | Anim_HorizontalJumpsVerticalStretch_Twice
  | Anim_VerticalShakeBack
  | Anim_VerticalShakeBack_Slow
  | Anim_VerticalShakeHorizontalSlide_Slow
  | Anim_VerticalStretchBothEnds_Slow
  | Anim_HorizontalStretchFar_Slow
  | Anim_VerticalShakeLowTwice
  | Anim_HorizontalShake_Fast
  | Anim_HorizontalSlide_Fast
  | Anim_HorizontalVibrate_Fast
  | Anim_HorizontalVibrate_Fastest
  | Anim_VerticalShakeBack_Fast
  | Anim_VerticalShakeLowTwice_Slow
  | Anim_VerticalShakeLowTwice_Fast
  | Anim_CircleCounterclockwise_Long
  | Anim_GrowStutter_Slow
  | Anim_VerticalShakeHorizontalSlide
  | Anim_VerticalShakeHorizontalSlide_Fast
  | Anim_TriangleDown_Slow
  | Anim_TriangleDown
  | Anim_TriangleDown_Fast
  | Anim_Grow
  | Anim_Grow_Twice
  | Anim_HorizontalSpring_Fast
  | Anim_HorizontalSpring_Slow
  | Anim_HorizontalRepeatedSpring_Fast
  | Anim_HorizontalRepeatedSpring
  | Anim_ShrinkGrow_Fast
  | Anim_ShrinkGrow_Slow
  | Anim_VerticalStretchBothEnds
  | Anim_VerticalStretchBothEnds_Twice
  | Anim_HorizontalStretchFar_Twice
  | Anim_HorizontalStretchFar
  | Anim_GrowStutter_Twice
  | Anim_GrowStutter
  | Anim_ConcaveArcLarge_Slow
  | Anim_ConcaveArcLarge
  | Anim_ConcaveArcLarge_Twice
  | Anim_ConvexDoubleArc_Slow
  | Anim_ConvexDoubleArc
  | Anim_ConvexDoubleArc_Twice
  | Anim_ConcaveArcSmall_Slow
  | Anim_ConcaveArcSmall
  | Anim_ConcaveArcSmall_Twice
  | Anim_HorizontalDip
  | Anim_HorizontalDip_Fast
  | Anim_HorizontalDip_Twice
  | Anim_ShrinkGrowVibrate_Fast
  | Anim_ShrinkGrowVibrate
  | Anim_ShrinkGrowVibrate_Slow
  | Anim_JoltRight_Fast
  | Anim_JoltRight
  | Anim_JoltRight_Slow
  | Anim_ShakeFlashYellow_Fast
  | Anim_ShakeFlashYellow
  | Anim_ShakeFlashYellow_Slow
  | Anim_ShakeGlowRed_Fast
  | Anim_ShakeGlowRed
  | Anim_ShakeGlowRed_Slow
  | Anim_ShakeGlowGreen_Fast
  | Anim_ShakeGlowGreen
  | Anim_ShakeGlowGreen_Slow
  | Anim_ShakeGlowBlue_Fast
  | Anim_ShakeGlowBlue
  | Anim_ShakeGlowBlue_Slow
  | Anim_ShakeGlowBlack_Slow
  | Anim_ShakeGlowWhite_Slow
  | Anim_ShakeGlowPurple_Slow
  | HorizontalSlide
  | VerticalSlide
  | VerticalJumps
  | Zigzag
  | HorizontalShake
  | VerticalShake
  | Twist
  | Spin
  | CircleCounterclockwise
  | VerticalShakeTwice
  | VerticalSlideWobble
  | RisingWobble
  | VerticalSquishBounce
  | BounceRotateToSides
  | BackAndLunge_0
  | BackAndLunge_1
  | BackAndLunge_2
  | BackAndLunge_3
  | BackAndLunge_4
  | BackFlip_0
  | BackFlip_1
  | BackFlip_2
  | BackFlipBig_0
  | BackFlipBig_1
  | BackFlipBig_2
  | FrontFlip_0
  | FrontFlip_1
  | FrontFlip_2
  | TumblingFrontFlip
  | Figure8
  | SwingConcave
  | SwingConvex
  | RotateUpSlamDown_0
  | RotateUpSlamDown_1
  | RotateUpSlamDown_2
  | DeepVerticalSquishBounce
  | HorizontalJumpsVerticalStretch_0
  | HorizontalJumpsVerticalStretch_1
  | HorizontalJumpsVerticalStretch_2
  | RotateToSides
  | TipHopForward_0
  | TipHopForward_1
  | TipHopForward_2
  | TipAndShake_0
  | TipAndShake_1
  | TipAndShake_2
  | TipAndShake_3
  | SpringRising_0
  | SpringRising_1
  | SpringRising_2
  | TriangleDown
  | VerticalShakeBack
  | VerticalShakeLowTwice
  | JoltRight
  | JoltRight_0
  | JoltRight_1
  | JoltRight_2
  | JoltRight_3
  | WaitAnimEnd
  | SpriteCallbackDummy
  | MonAnimDummySpriteCallback
  deriving DecidableEq, Repr

/-- One slot of the animation context pool (`struct PokemonAnimData`). -/
structure AnimData where
  delay : Int
  speed : Int
  runs : Int
  rotation : Int
  data : Int
  deriving DecidableEq, Repr

/-- The fixed pool `static struct PokemonAnimData sAnims[MAX_BATTLERS_COUNT]`.
`MAX_BATTLERS_COUNT` is an external battle constant; modelled from the spec
("sized to the maximum simultaneously-animating sprite count, e.g. 2–4 for
a battle formation") as 4. -/
structure Pool where
  a0 : AnimData
  a1 : AnimData
  a2 : AnimData
  a3 : AnimData
  deriving DecidableEq, Repr

def MAX_BATTLERS_COUNT : Nat := 4

/-- The engine-visible state of one sprite (the fields of `struct Sprite`
that `pokemon_animation.c` reads or writes). -/
structure Sprite where
  d0 : Int
  d1 : Int
  d2 : Int
  d3 : Int
  d4 : Int
  d5 : Int
  d6 : Int
  d7 : Int
  x2 : Int
  y2 : Int
  callback : Cb
  affineMode : Nat
  matrixNum : Nat
  paletteNum : Int
  hFlip : Bool
  invisible : Bool
  animEnded : Bool
  affineAnimPaused : Bool
  affineAnimsTag : Nat
  affineAnimNum : Nat
  centerToCornerVecX : Int
  centerVecMode : Nat
  lastXScale : Int
  lastYScale : Int
  lastRotation : Int
  deriving DecidableEq, Repr

/-- Whole machine state: the sprite plus the file-scope statics of
`pokemon_animation.c` (`sAnims`, `sAnimIdx`, `sIsSummaryAnim`). -/
structure St where
  sprite : Sprite
  anims : Pool
  animIdx : Nat
  isSummaryAnim : Bool
  deriving DecidableEq, Repr

/-- OAM affine-mode constants (external `ST_OAM_AFFINE_*`). -/
def ST_OAM_AFFINE_OFF : Nat := 0

def ST_OAM_AFFINE_NORMAL : Nat := 1

def ST_OAM_AFFINE_DOUBLE : Nat := 3

/-- Read `sAnims[i]` (callers always pass an id returned by `AddNewAnim`,
so 0..3; other values are out of bounds in C and folded to slot 3 here). -/
def getAnim (st : St) (i : Int) : AnimData :=
  match i.toNat with
  | 0 => st.anims.a0
  | 1 => st.anims.a1
  | 2 => st.anims.a2
  | _ => st.anims.a3

/-- Write `sAnims[i]`. -/
def setAnim (st : St) (i : Int) (a : AnimData) : St :=
  match i.toNat with
  | 0 => { st with anims := { st.anims with a0 := a } }
  | 1 => { st with anims := { st.anims with a1 := a } }
  | 2 => { st with anims := { st.anims with a2 := a } }
  | _ => { st with anims := { st.anims with a3 := a } }

/-- `InitAnimData`: reset one pool slot to its defaults. -/
def InitAnimData (st : St) (id : Nat) : St :=
  if id ≥ MAX_BATTLERS_COUNT then st
  else setAnim st id ⟨0, 0, 1, 0, 0⟩

/-- `AddNewAnim`: advance the round-robin cursor, reset that slot, return
its id (`Claim()` of the spec's Animation Context Pool). -/
def AddNewAnim (st : St) : Nat × St :=
  let idx := (st.animIdx + 1) % MAX_BATTLERS_COUNT
  let st := { st with animIdx := idx }
  (idx, InitAnimData st idx)

/-- `TryFlipX`: negate the x offset when the sprite is mirrored
(`sDontFlip` is scratch register 1; mirrored means it is zero). -/
def TryFlipX (s : Sprite) : Sprite :=
  if s.d1 = 0 then { s with x2 := s16w (-s.x2) } else s

/-- `SetAffineData`: compose an affine matrix via the external
`ObjAffineSet`; the model records the parameters handed over. -/
def SetAffineData (s : Sprite) (xScale yScale rotation : Int) : Sprite :=
  { s with lastXScale := s16w xScale, lastYScale := s16w yScale,
           lastRotation := u16w rotation }

/-- `HandleSetAffineData`: negate x scale and rotation for a mirrored
sprite, then set the affine data. -/
def HandleSetAffineData (s : Sprite) (xScale yScale rotation : Int) : Sprite :=
  if s.d1 = 0 then SetAffineData s (-xScale) yScale (-rotation)
  else SetAffineData s xScale yScale rotation

/-- `HandleStartAffineAnim`: switch the sprite into affine (double) mode,
attach the engine's affine-anim table, pick the plain or pre-mirrored base
orientation, recompute the center-to-corner vector, pause the affine anim.
(`InitSpriteAffineAnim` is external and engine-state free.) -/
def HandleStartAffineAnim (st : St) : St :=
  let s := st.sprite
  let s := { s with affineMode := ST_OAM_AFFINE_DOUBLE, affineAnimsTag := 1 }
  let s := if s.d1 = 0 then { s with affineAnimNum := 1 }
           else { s with affineAnimNum := 0 }
  let s := { s with centerVecMode := s.affineMode, affineAnimPaused := true }
  { st with sprite := s }

/-- `ResetSpriteAfterAnim`: on the terminal frame, drop back to single-size
affine mode and recompute the center-to-corner vector; for summary-screen
playback additionally bake the horizontal flip into the OAM matrix number
and switch affine mode off entirely.  (The `#ifdef BUGFIX` branch of the
source, which only restores the `affineAnims` pointer, is configuration
dependent and not modelled.) -/
def ResetSpriteAfterAnim (st : St) : St :=
  let s := st.sprite
  let s := { s with affineMode := ST_OAM_AFFINE_NORMAL }
  let s := { s with centerVecMode := s.affineMode }
  let s :=
    if st.isSummaryAnim then
      let s := { s with hFlip := s.d1 = 0 }
      let s := { s with matrixNum := s.matrixNum ||| (if s.hFlip then 8 else 0) }
      { s with affineMode := ST_OAM_AFFINE_OFF }
    else s
  { st with sprite := s }

/-- `SetPosForRotation`. -/
def SetPosForRotation (s : Sprite) (index amplitudeX amplitudeY : Int) : Sprite :=
  let negX := -amplitudeX
  let negY := -amplitudeY
  let xAdder := Cos index negX - Sin index negY
  let yAdder := Cos index negY + Sin index negX
  { s with x2 := s16w (xAdder + amplitudeX), y2 := s16w (yAdder + amplitudeY) }

/-- `WaitAnimEnd`: the terminal callback — wait for the sprite's frame
animation to end, then hand over to the external dummy callback. -/
def WaitAnimEnd (st : St) : St :=
  if st.sprite.animEnded then
    { st with sprite := { st.sprite with callback := Cb.SpriteCallbackDummy } }
  else st

def Anim_CircularStretchTwice (st : St) : St :=
  let st := if st.sprite.d2 = 0 then HandleStartAffineAnim st else st
  let st :=
    if st.sprite.d2 > 40 then
      let st := { st with sprite := HandleSetAffineData st.sprite 256 256 0 }
      let st := ResetSpriteAfterAnim st
      { st with sprite := { st.sprite with callback := Cb.WaitAnimEnd } }
    else
      let s := st.sprite
      let v := s16w (cmod (cdiv (s.d2 * 512) 40) 256)
      let s := { s with d4 := s16w (Sin v 32 + 256), d5 := s16w (Cos v 32 + 256) }
      { st with sprite := HandleSetAffineData s s.d4 s.d5 0 }
  { st with sprite := { st.sprite with d2 := s16w (st.sprite.d2 + 1) } }

def Anim_HorizontalVibrate (st : St) : St :=
  let s := st.sprite
  let s :=
    if s.d2 > 40 then { s with callback := Cb.WaitAnimEnd, x2 := 0 }
    else
      let sign : Int := if s.d2.emod 2 = 0 then 1 else -1
      { s with x2 := s16w (Sin (cmod (cdiv (s.d2 * 128) 40) 256) 6 * sign) }
  { st with sprite := { s with d2 := s16w (s.d2 + 1) } }

def HorizontalSlide (st : St) : St :=
  let s := TryFlipX st.sprite
  let s :=
    if s.d2 > s.d0 then { s with callback := Cb.WaitAnimEnd, x2 := 0 }
    else { s with x2 := s16w (Sin (cmod (cdiv (s.d2 * 384) s.d0) 256) 6) }
  let s := { s with d2 := s16w (s.d2 + 1) }
  { st with sprite := TryFlipX s }

def Anim_HorizontalSlide (st : St) : St :=
  let st := { st with sprite := { st.sprite with d0 := 40 } }
  let st := HorizontalSlide st
  { st with sprite := { st.sprite with callback := Cb.HorizontalSlide } }

def VerticalSlide (st : St) : St :=
  let s := TryFlipX st.sprite
  let s :=
    if s.d2 > s.d0 then { s with callback := Cb.WaitAnimEnd, y2 := 0 }
    else { s with y2 := s16w (-(Sin (cmod (cdiv (s.d2 * 384) s.d0) 256) 6)) }
  let s := { s with d2 := s16w (s.d2 + 1) }
  { st with sprite := TryFlipX s }

def Anim_VerticalSlide (st : St) : St :=
  let st := { st with sprite := { st.sprite with d0 := 40 } }
  let st := VerticalSlide st
  { st with sprite := { st.sprite with callback := Cb.VerticalSlide } }

def VerticalJumps (st : St) : St :=
  let s := st.sprite
  let counter := s.d2
  let s :=
    if counter > 384 then { s with callback := Cb.WaitAnimEnd, x2 := 0, y2 := 0 }
    else
      let divCounter := cdiv counter 128
      if divCounter = 0 ∨ divCounter = 1 then
        { s with y2 := s16w (-(Sin (cmod counter 128) (s.d0 * 2))) }
      else if divCounter = 2 ∨ divCounter = 3 then
        { s with y2 := s16w (-(Sin (counter - 256) (s.d0 * 3))) }
      else s
  { st with sprite := { s with d2 := s16w (s.d2 + 12) } }

def Anim_VerticalJumps_Big (st : St) : St :=
  let st := { st with sprite := { st.sprite with d0 := 4 } }
  let st := VerticalJumps st
  { st with sprite := { st.sprite with callback := Cb.VerticalJumps } }

def Anim_VerticalJumpsHorizontalJumps (st : St) : St :=
  let s := st.sprite
  let counter := s.d2
  let s :=
    if counter > 768 then { s with callback := Cb.WaitAnimEnd, x2 := 0, y2 := 0 }
    else
      let divCounter := cdiv counter 128
      let sc : Sprite × Int :=
        if divCounter = 0 ∨ divCounter = 1 then ({ s with x2 := 0 }, counter)
        else if divCounter = 2 then (s, 0)
        else if divCounter = 3 then
          ({ s with x2 := s16w (cdiv (-(cmod counter 128 * 8)) 128) }, counter)
        else if divCounter = 4 then
          ({ s with x2 := s16w (cdiv (cmod counter 128) 8 - 8) }, counter)
        else if divCounter = 5 then
          ({ s with x2 := s16w (cdiv (-(cmod counter 128 * 8)) 128 + 8) }, counter)
        else (s, counter)
      { sc.1 with y2 := s16w (-(Sin (cmod sc.2 128) 8)) }
  { st with sprite := { s with d2 := s16w (s.d2 + 12) } }

def Anim_GrowVibrate (st : St) : St :=
  let st := if st.sprite.d2 = 0 then HandleStartAffineAnim st else st
  let st :=
    if st.sprite.d2 > 40 then
      let st := { st with sprite := HandleSetAffineData st.sprite 256 256 0 }
      let st := ResetSpriteAfterAnim st
      { st with sprite := { st.sprite with callback := Cb.WaitAnimEnd } }
    else
      let s := st.sprite
      let index := s16w (cmod (cdiv (s.d2 * 256) 40) 256)
      let s :=
        if cmod s.d2 2 = 0 then
          { s with d4 := s16w (Sin index 32 + 256), d5 := s16w (Sin index 32 + 256) }
        else
          { s with d4 := s16w (Sin index 8 + 256), d5 := s16w (Sin index 8 + 256) }
      { st with sprite := HandleSetAffineData s s.d4 s.d5 0 }
  { st with sprite := { st.sprite with d2 := s16w (st.sprite.d2 + 1) } }

/-- `sZigzagData`: (x delta, y delta, time) rows. -/
def sZigzagData : List (Int × Int × Int) :=
  [(-1, -1, 6), (2, 0, 6), (-2, 2, 6), (2, 0, 6), (-2, -2, 6),
   (2, 0, 6), (-2, 2, 6), (2, 0, 6), (-1, -1, 6), (0, 0, 0)]

def zigzagAt (i : Int) : Int × Int × Int := sZigzagData.getD i.toNat (0, 0, 0)

def Zigzag (st : St) : St :=
  let s := TryFlipX st.sprite
  let s := if s.d2 = 0 then { s with d3 := 0 } else s
  let s :=
    if (zigzagAt s.d3).2.2 = s.d2 then
      if (zigzagAt s.d3).2.2 = 0 then { s with callback := Cb.WaitAnimEnd }
      else { s with d3 := s16w (s.d3 + 1), d2 := 0 }
    else s
  if (zigzagAt s.d3).2.2 = 0 then
    { st with sprite := { s with callback := Cb.WaitAnimEnd } }
  else
    let s := { s with x2 := s16w (s.x2 + (zigzagAt s.d3).1),
                      y2 := s16w (s.y2 + (zigzagAt s.d3).2.1),
                      d2 := s16w (s.d2 + 1) }
    { st with sprite := TryFlipX s }

def Anim_ZigzagFast (st : St) : St :=
  let st := Zigzag st
  { st with sprite := { st.sprite with callback := Cb.Zigzag } }

def HorizontalShake (st : St) : St :=
  let s := st.sprite
  let counter := s.d2
  let s :=
    if counter > 2304 then { s with callback := Cb.WaitAnimEnd, x2 := 0 }
    else { s with x2 := s16w (Sin (cmod counter 256) s.d7) }
  { st with sprite := { s with d2 := s16w (s.d2 + s.d0) } }

def Anim_HorizontalShake (st : St) : St :=
  let st := { st with sprite := { st.sprite with d0 := 60, d7 := 3 } }
  let st := HorizontalShake st
  { st with sprite := { st.sprite with callback := Cb.HorizontalShake } }

def VerticalShake (st : St) : St :=
  let s := st.sprite
  let counter := s.d2
  let s :=
    if counter > 2304 then { s with callback := Cb.WaitAnimEnd, y2 := 0 }
    else { s with y2 := s16w (Sin (cmod counter 256) 3) }
  { st with sprite := { s with d2 := s16w (s.d2 + s.d0) } }

def Anim_VerticalShake (st : St) : St :=
  let st := { st with sprite := { st.sprite with d0 := 60 } }
  let st := VerticalShake st
  { st with sprite := { st.sprite with callback := Cb.VerticalShake } }

def Anim_CircularVibrate (st : St) : St :=
  let s := st.sprite
  let s :=
    if s.d2 > 512 then { s with callback := Cb.WaitAnimEnd, x2 := 0, y2 := 0 }
    else
      let sign : Int := if s.d2.emod 2 = 0 then 1 else -1
      let amplitude := Sin (cdiv s.d2 4) 8
      let index := cmod s.d2 256
      { s with y2 := s16w (Sin index amplitude * sign),
               x2 := s16w (Cos index amplitude * sign) }
  { st with sprite := { s with d2 := s16w (s.d2 + 9) } }

def Twist (st : St) : St :=
  let id := st.sprite.d0
  if (getAnim st id).delay ≠ 0 then
    setAnim st id { getAnim st id with delay := u16w ((getAnim st id).delay - 1) }
  else
    let st :=
      if st.sprite.d2 = 0 ∧ (getAnim st id).data = 0 then
        let st := HandleStartAffineAnim st
        setAnim st id { getAnim st id with data := s16w ((getAnim st id).data + 1) }
      else st
    let st :=
      if st.sprite.d2 > (getAnim st id).rotation then
        let st := { st with sprite := HandleSetAffineData st.sprite 256 256 0 }
        if (getAnim st id).runs > 1 then
          let st := setAnim st id
            { getAnim st id with runs := s16w ((getAnim st id).runs - 1), delay := 10 }
          { st with sprite := { st.sprite with d2 := 0 } }
        else
          let st := ResetSpriteAfterAnim st
          { st with sprite := { st.sprite with callback := Cb.WaitAnimEnd } }
      else
        let s := st.sprite
        let s := { s with d6 := s16w (Sin (cmod s.d2 256) 4096) }
        { st with sprite := HandleSetAffineData s 256 256 s.d6 }
    { st with sprite := { st.sprite with d2 := s16w (st.sprite.d2 + 16) } }

def Anim_Twist (st : St) : St :=
  let p := AddNewAnim st
  let id := p.1
  let st := { p.2 with sprite := { p.2.sprite with d0 := s16w id } }
  let st := setAnim st id { getAnim st id with rotation := 512, delay := 0 }
  let st := Twist st
  { st with sprite := { st.sprite with callback := Cb.Twist } }

def Spin (st : St) : St :=
  let id := st.sprite.d0
  let st := if st.sprite.d2 = 0 then HandleStartAffineAnim st else st
  let st :=
    if st.sprite.d2 > (getAnim st id).delay then
      let st := { st with sprite := HandleSetAffineData st.sprite 256 256 0 }
      let st := ResetSpriteAfterAnim st
      { st with sprite := { st.sprite with callback := Cb.WaitAnimEnd } }
    else
      let s := st.sprite
      let s := { s with d6 := s16w (cdiv 65536 (getAnim st id).data * s.d2) }
      { st with sprite := HandleSetAffineData s 256 256 s.d6 }
  { st with sprite := { st.sprite with d2 := s16w (st.sprite.d2 + 1) } }

def Anim_Spin_Long (st : St) : St :=
  let p := AddNewAnim st
  let id := p.1
  let st := { p.2 with sprite := { p.2.sprite with d0 := s16w id } }
  let st := setAnim st id { getAnim st id with delay := 60, data := 20 }
  let st := Spin st
  { st with sprite := { st.sprite with callback := Cb.Spin } }

def CircleCounterclockwise (st : St) : St :=
  let id := st.sprite.d0
  let s := TryFlipX st.sprite
  let s :=
    if s.d2 > (getAnim st id).rotation then
      { s with x2 := 0, y2 := 0, callback := Cb.WaitAnimEnd }
    else
      let index := cmod (s.d2 + 192) 256
      { s with x2 := s16w (-(Cos index ((getAnim st id).data * 2))),
               y2 := s16w (Sin index (getAnim st id).data + (getAnim st id).data) }
  let s := { s with d2 := s16w (s.d2 + (getAnim st id).speed) }
  { st with sprite := TryFlipX s }

def Anim_CircleCounterclockwise (st : St) : St :=
  let p := AddNewAnim st
  let id := p.1
  let st := { p.2 with sprite := { p.2.sprite with d0 := s16w id } }
  let st := setAnim st id { getAnim st id with rotation := 512, data := 6, speed := 24 }
  let st := CircleCounterclockwise st
  { st with sprite := { st.sprite with callback := Cb.CircleCounterclockwise } }

/-- The `GlowColor(color, colorIncrement, speed)` macro body; the palette
blend itself is an external effect, so the color argument is dropped. -/
def GlowColor (colorIncrement speed : Int) (st : St) : St :=
  let s := st.sprite
  let s := if s.d2 = 0 then { s with d7 := s16w (s.paletteNum * 16 + 256) } else s
  let s :=
    if s.d2 > 128 then { s with callback := Cb.WaitAnimEnd }
    else { s with d6 := s16w (Sin s.d2 colorIncrement) }
  { st with sprite := { s with d2 := s16w (s.d2 + speed) } }

def Anim_GlowBlack (st : St) : St := GlowColor 16 1 st

def Anim_HorizontalStretch (st : St) : St :=
  let st := if st.sprite.d2 = 0 then HandleStartAffineAnim st else st
  let st :=
    if st.sprite.d2 > 40 then
      let st := { st with sprite := HandleSetAffineData st.sprite 256 256 0 }
      let st := ResetSpriteAfterAnim st
      { st with sprite := { st.sprite with callback := Cb.WaitAnimEnd } }
    else
      let s := st.sprite
      let index2 := s16w (cdiv (s.d2 * 128) 40)
      let si : Sprite × Int :=
        if s.d2 ≥ 10 ∧ s.d2 ≤ 29 then
          let s := { s with d7 := s16w (s.d7 + 51) }
          (s, s.d7.emod 256)
        else (s, 0)
      let s := si.1
      let index1 := si.2
      let s :=
        if s.d1 = 0 then { s with d4 := s16w ((Sin index2 40 - 256) + Sin index1 16) }
        else { s with d4 := s16w ((256 - Sin index2 40) - Sin index1 16) }
      let s := { s with d5 := s16w (Sin index2 16 + 256) }
      { st with sprite := SetAffineData s s.d4 s.d5 0 }
  { st with sprite := { st.sprite with d2 := s16w (st.sprite.d2 + 1) } }

def Anim_VerticalStretch (st : St) : St :=
  let st := if st.sprite.d2 = 0 then HandleStartAffineAnim st else st
  let st :=
    if st.sprite.d2 > 40 then
      let st := { st with sprite := HandleSetAffineData st.sprite 256 256 0 }
      let st := ResetSpriteAfterAnim st
      { st with sprite := { st.sprite with callback := Cb.WaitAnimEnd, y2 := 0 } }
    else
      let s := st.sprite
      let index2 := s16w (cdiv (s.d2 * 128) 40)
      let si : Sprite × Int :=
        if s.d2 ≥ 10 ∧ s.d2 ≤ 29 then
          let s := { s with d7 := s16w (s.d7 + 51) }
          (s, s.d7.emod 256)
        else (s, 0)
      let s := si.1
      let index1 := si.2
      let s :=
        if s.d1 = 0 then { s with d4 := s16w (-(Sin index2 16) - 256) }
        else { s with d4 := s16w (Sin index2 16 + 256) }
      let s := { s with d5 := s16w ((256 - Sin index2 40) - Sin index1 8) }
      let posY : Int := if s.d5 ≠ 256 then cdiv (256 - s.d5) 8 else 0
      let s := { s with y2 := s16w (-posY) }
      { st with sprite := SetAffineData s s.d4 s.d5 0 }
  { st with sprite := { st.sprite with d2 := s16w (st.sprite.d2 + 1) } }

/-- `sVerticalShakeData` rows, with the `s8` initializers read back as `u8`
exactly as the C code does (`-2` is 254, `-1` is 255). -/
def sVerticalShakeData : List (Int × Int) := [(6, 30), (254, 15), (6, 30), (255, 0)]

def VerticalShakeTwice (st : St) : St :=
  let s := st.sprite
  let index := u8w s.d2
  let var7 := u8w s.d6
  let row := sVerticalShakeData.getD s.d5.toNat (0, 0)
  let var5 := row.1
  let var6 := row.2
  let amplitude := if var5 ≠ 254 then u8w (cdiv ((var6 - var7) * var5) var6) else 0
  if var5 = 255 then
    { st with sprite := { s with callback := Cb.WaitAnimEnd, y2 := 0 } }
  else
    let s := { s with y2 := s16w (Sin index amplitude) }
    let s :=
      if var7 = var6 then { s with d5 := s16w (s.d5 + 1), d6 := 0 }
      else { s with d2 := s16w (s.d2 + s.d0), d6 := s16w (s.d6 + 1) }
    { st with sprite := s }

def Anim_VerticalShakeTwice (st : St) : St :=
  let st := { st with sprite := { st.sprite with d0 := 48 } }
  let st := VerticalShakeTwice st
  { st with sprite := { st.sprite with callback := Cb.VerticalShakeTwice } }

def Anim_TipMoveForward (st : St) : St :=
  let st := { st with sprite := TryFlipX st.sprite }
  let counter := u8w st.sprite.d2
  let st := if st.sprite.d2 = 0 then HandleStartAffineAnim st else st
  let st :=
    if st.sprite.d2 > 35 then
      let st := { st with sprite := HandleSetAffineData st.sprite 256 256 0 }
      let st := ResetSpriteAfterAnim st
      { st with sprite := { st.sprite with callback := Cb.WaitAnimEnd, x2 := 0 } }
    else
      let index := s16w (cdiv ((counter - 10) * 128) 20)
      let s := st.sprite
      let s :=
        if counter < 10 then HandleSetAffineData s 256 256 (cdiv counter 2 * 512)
        else if counter ≥ 10 ∧ counter ≤ 29 then { s with x2 := s16w (-(Sin index 5)) }
        else HandleSetAffineData s 256 256 (cdiv (35 - counter) 2 * 1024)
      { st with sprite := s }
  { st with sprite :=
      TryFlipX { st.sprite with d2 := s16w (st.sprite.d2 + 1) } }

def Anim_HorizontalPivot (st : St) : St :=
  let st := if st.sprite.d2 = 0 then HandleStartAffineAnim st else st
  let st :=
    if st.sprite.d2 > 100 then
      let st := { st with sprite := HandleSetAffineData st.sprite 256 256 0 }
      let st := { st with sprite := { st.sprite with y2 := 0 } }
      let st := ResetSpriteAfterAnim st
      { st with sprite := { st.sprite with callback := Cb.WaitAnimEnd } }
    else
      let s := st.sprite
      let index := s16w (cdiv (s.d2 * 256) 100)
      let s := { s with y2 := s16w (Sin index 10) }
      { st with sprite := HandleSetAffineData s 256 256 (Sin index 3276) }
  { st with sprite := { st.sprite with d2 := s16w (st.sprite.d2 + 1) } }

def VerticalSlideWobble (st : St) : St :=
  let st := if st.sprite.d2 = 0 then HandleStartAffineAnim st else st
  let st :=
    if st.sprite.d2 > 100 then
      let st := { st with sprite := HandleSetAffineData st.sprite 256 256 0 }
      let st := { st with sprite := { st.sprite with y2 := 0 } }
      let st := ResetSpriteAfterAnim st
      { st with sprite := { st.sprite with callback := Cb.WaitAnimEnd } }
    else
      let s := st.sprite
      let index := s16w (cdiv (s.d2 * 256) 100)
      let v := (cdiv (s.d2 * 512) 100).emod 256
      let s := { s with y2 := s16w (Sin index s.d0) }
      { st with sprite := HandleSetAffineData s 256 256 (Sin v 3276) }
  { st with sprite := { st.sprite with d2 := s16w (st.sprite.d2 + 1) } }

def Anim_VerticalSlideWobble (st : St) : St :=
  let st := { st with sprite := { st.sprite with d0 := 10 } }
  let st := VerticalSlideWobble st
  { st with sprite := { st.sprite with callback := Cb.VerticalSlideWobble } }

def RisingWobble (st : St) : St :=
  let st := if st.sprite.d2 = 0 then HandleStartAffineAnim st else st
  let st :=
    if st.sprite.d2 > 100 then
      let st := { st with sprite := HandleSetAffineData st.sprite 256 256 0 }
      let st := { st with sprite := { st.sprite with y2 := 0 } }
      let st := ResetSpriteAfterAnim st
      { st with sprite := { st.sprite with callback := Cb.WaitAnimEnd } }
    else
      let s := st.sprite
      let index := s16w (cdiv (s.d2 * 256) 100)
      let v := (cdiv (s.d2 * 512) 100).emod 256
      let s := { s with y2 := s16w (-(Sin (cdiv index 2) (s.d0 * 2))) }
      { st with sprite := HandleSetAffineData s 256 256 (Sin v 3276) }
  { st with sprite := { st.sprite with d2 := s16w (st.sprite.d2 + 1) } }

def Anim_RisingWobble (st : St) : St :=
  let st := { st with sprite := { st.sprite with d0 := 5 } }
  let st := RisingWobble st
  { st with sprite := { st.sprite with callback := Cb.RisingWobble } }

def Anim_HorizontalSlideWobble (st : St) : St :=
  let st := { st with sprite := TryFlipX st.sprite }
  let st := if st.sprite.d2 = 0 then HandleStartAffineAnim st else st
  let st :=
    if st.sprite.d2 > 100 then
      let st := { st with sprite := HandleSetAffineData st.sprite 256 256 0 }
      let st := { st with sprite := { st.sprite with x2 := 0 } }
      let st := ResetSpriteAfterAnim st
      { st with sprite := { st.sprite with callback := Cb.WaitAnimEnd } }
    else
      let s := st.sprite
      let index := s16w (cdiv (s.d2 * 256) 100)
      let v := (cdiv (s.d2 * 512) 100).emod 256
      let s := { s with x2 := s16w (Sin index 8) }
      { st with sprite := HandleSetAffineData s 256 256 (Sin v 3276) }
  { st with sprite :=
      TryFlipX { st.sprite with d2 := s16w (st.sprite.d2 + 1) } }

def VerticalSquishBounce (st : St) : St :=
  let st :=
    if st.sprite.d2 = 0 then
      let st := HandleStartAffineAnim st
      { st with sprite := { st.sprite with d3 := 0 } }
    else st
  let st := { st with sprite := TryFlipX st.sprite }
  let st :=
    if st.sprite.d2 > st.sprite.d0 * 3 then
      let st := { st with sprite := HandleSetAffineData st.sprite 256 256 0 }
      let st := { st with sprite := { st.sprite with y2 := 0 } }
      let st := ResetSpriteAfterAnim st
      { st with sprite := { st.sprite with callback := Cb.WaitAnimEnd } }
    else
      let s := st.sprite
      let yScale := s16w (Sin s.d4 32 + 256)
      let s :=
        if s.d2 > s.d0 ∧ s.d2 < s.d0 * 2 then
          { s with d3 := s16w (s.d3 + cdiv 128 s.d0) }
        else s
      let posY : Int := if yScale > 256 then cdiv (256 - yScale) 8 else 0
      let s := { s with y2 := s16w (-(Sin s.d3 10) - posY) }
      let s := HandleSetAffineData s (256 - Sin s.d4 32) yScale 0
      let s := { s with d2 := s16w (s.d2 + 1) }
      { st with sprite := { s with d4 := (s.d4 + cdiv 128 s.d0).emod 256 } }
  { st with sprite := TryFlipX st.sprite }

def Anim_VerticalSquishBounce (st : St) : St :=
  let st := { st with sprite := { st.sprite with d0 := 16 } }
  let st := VerticalSquishBounce st
  { st with sprite := { st.sprite with callback := Cb.VerticalSquishBounce } }

def ShrinkGrow (st : St) : St :=
  let s := st.sprite
  if s.d2 > cdiv 128 s.d6 * s.d7 then
    let st := { st with sprite := HandleSetAffineData s 256 256 0 }
    let st := { st with sprite := { st.sprite with y2 := 0 } }
    let st := ResetSpriteAfterAnim st
    { st with sprite := { st.sprite with callback := Cb.WaitAnimEnd } }
  else
    let yScale := s16w (Sin s.d4 32 + 256)
    let posY : Int := if yScale > 256 then cdiv (256 - yScale) 8 else 0
    let s := { s with y2 := s16w (-posY) }
    let s := HandleSetAffineData s (Sin s.d4 48 + 256) yScale 0
    let s := { s with d2 := s16w (s.d2 + 1) }
    { st with sprite := { s with d4 := (s.d4 + s.d6).emod 256 } }

def Anim_ShrinkGrow (st : St) : St :=
  let st :=
    if st.sprite.d2 = 0 then
      let st := HandleStartAffineAnim st
      { st with sprite := { st.sprite with d7 := 3, d6 := 8 } }
    else st
  ShrinkGrow st

/-- `sBounceRotateToSidesData`: two tables of (x start, x end, time) rows. -/
def sBounceRotateToSidesData : List (List (Int × Int × Int)) :=
  [[(0, 8, 8), (8, -8, 12), (-8, 8, 12), (8, -8, 12),
    (-8, 8, 12), (8, -8, 12), (-8, 0, 12), (0, 0, 0)],
   [(0, 8, 16), (8, -8, 24), (-8, 8, 24), (8, -8, 24),
    (-8, 8, 24), (8, -8, 24), (-8, 0, 24), (0, 0, 0)]]

def brtsAt (arr row : Int) : Int × Int × Int :=
  (sBounceRotateToSidesData.getD arr.toNat []).getD row.toNat (0, 0, 0)

def BounceRotateToSides (st : St) : St :=
  let st := { st with sprite := TryFlipX st.sprite }
  let structId := st.sprite.d0
  let rot := (getAnim st structId).rotation
  let arrId := (getAnim st structId).data
  let r9 := (brtsAt arrId st.sprite.d4).1
  let r10 := (brtsAt arrId st.sprite.d4).2.1 - r9
  let r7 := st.sprite.d3
  let st :=
    if st.sprite.d2 = 0 then
      let st := HandleStartAffineAnim st
      { st with sprite := { st.sprite with d2 := s16w (st.sprite.d2 + 1) } }
    else st
  let st :=
    if (brtsAt arrId st.sprite.d4).2.2 = 0 then
      let st := { st with sprite := HandleSetAffineData st.sprite 256 256 0 }
      let st := { st with sprite := { st.sprite with x2 := 0, y2 := 0 } }
      let st := ResetSpriteAfterAnim st
      { st with sprite := { st.sprite with callback := Cb.WaitAnimEnd } }
    else
      let time := (brtsAt arrId st.sprite.d4).2.2
      let s := st.sprite
      let s := { s with y2 := s16w (-(Sin (cdiv (r7 * 128) time) 10)) }
      let s := { s with x2 := s16w (cdiv (r10 * r7) time + r9) }
      let rotation := u16w (cdiv (-(rot * s.x2)) 8)
      let s := HandleSetAffineData s 256 256 rotation
      let s :=
        if r7 = time then { s with d4 := s16w (s.d4 + 1), d3 := 0 }
        else { s with d3 := s16w (s.d3 + 1) }
      { st with sprite := s }
  { st with sprite := TryFlipX st.sprite }

def Anim_BounceRotateToSides (st : St) : St :=
  let p := AddNewAnim st
  let id := p.1
  let st := { p.2 with sprite := { p.2.sprite with d0 := s16w id } }
  let st := setAnim st id
    { getAnim st id with rotation := 4096, data := st.sprite.d6 }
  let st := BounceRotateToSides st
  { st with sprite := { st.sprite with callback := Cb.BounceRotateToSides } }

def Anim_GlowOrange (st : St) : St := GlowColor 12 2 st

def Anim_GlowRed (st : St) : St := GlowColor 12 2 st

def Anim_GlowBlue (st : St) : St := GlowColor 12 2 st

def Anim_GlowYellow (st : St) : St := GlowColor 12 2 st

def Anim_GlowPurple (st : St) : St := GlowColor 12 2 st

def Anim_BackAndLunge (st : St) : St :=
  let st := HandleStartAffineAnim st
  { st with sprite := { st.sprite with callback := Cb.BackAndLunge_0 } }

def BackAndLunge_0 (st : St) : St :=
  let s := TryFlipX st.sprite
  let s := { s with x2 := s16w (s.x2 + 1) }
  let s :=
    if s.x2 > 7 then { s with x2 := 8, d7 := 2, callback := Cb.BackAndLunge_1 }
    else s
  { st with sprite := TryFlipX s }

/-- The bounded `do { subResult -= var; data[6]++; var++; } while (subResult > -8)`
loop of `BackAndLunge_1`; a fuel of 64 covers every state the engine can
reach (there `var ≥ 3`, so at most four iterations run). -/
def backAndLungeLoop : Nat → Int → Int → Int → Int × Int
  | 0, subResult, d6, _ => (subResult, d6)
  | fuel+1, subResult, d6, var =>
    let subResult := s16w (subResult - var)
    let d6 := s16w (d6 + 1)
    let var := u8w (var + 1)
    if subResult > -8 then backAndLungeLoop fuel subResult d6 var
    else (subResult, d6)

def BackAndLunge_1 (st : St) : St :=
  let s := TryFlipX st.sprite
  let s := { s with x2 := s16w (s.x2 - s.d7), d7 := s16w (s.d7 + 1) }
  let s :=
    if s.x2 ≤ 0 then
      let var := u8w s.d7
      let r := backAndLungeLoop 64 s.x2 0 var
      { s with d6 := r.2, d5 := 1, callback := Cb.BackAndLunge_2 }
    else s
  { st with sprite := TryFlipX s }

def BackAndLunge_2 (st : St) : St :=
  let s := TryFlipX st.sprite
  let s := { s with x2 := s16w (s.x2 - s.d7), d7 := s16w (s.d7 + 1) }
  let rotation := u8w (cdiv (s.d5 * 6) s.d6)
  let s := { s with d5 := s16w (s.d5 + 1) }
  let s := if s.d5 > s.d6 then { s with d5 := s.d6 } else s
  let s := HandleSetAffineData s 256 256 (rotation * 256)
  let s :=
    if s.x2 < -8 then
      { s with x2 := -8, d4 := 2, d3 := 0, d2 := rotation,
               callback := Cb.BackAndLunge_3 }
    else s
  { st with sprite := TryFlipX s }

def BackAndLunge_3 (st : St) : St :=
  let s := TryFlipX st.sprite
  let s :=
    if s.d3 > 11 then
      let s := { s with d2 := s16w (s.d2 - 2) }
      let s := if s.d2 < 0 then { s with d2 := 0 } else s
      let s := HandleSetAffineData s 256 256 (s.d2 * 256)
      if s.d2 = 0 then { s with callback := Cb.BackAndLunge_4 } else s
    else
      { s with x2 := s16w (s.x2 + s.d4), d4 := s16w (-s.d4),
               d3 := s16w (s.d3 + 1) }
  { st with sprite := TryFlipX s }

def BackAndLunge_4 (st : St) : St :=
  let s := TryFlipX st.sprite
  let s := { s with x2 := s16w (s.x2 + 2) }
  if s.x2 > 0 then
    let st := { st with sprite := { s with x2 := 0 } }
    let st := ResetSpriteAfterAnim st
    { st with sprite :=
        TryFlipX { st.sprite with callback := Cb.WaitAnimEnd } }
  else
    { st with sprite := TryFlipX s }

def Anim_BackFlip (st : St) : St :=
  let st := HandleStartAffineAnim st
  { st with sprite := { st.sprite with d3 := 0, callback := Cb.BackFlip_0 } }

def BackFlip_0 (st : St) : St :=
  let s := TryFlipX st.sprite
  let s := { s with x2 := s16w (s.x2 + 1), y2 := s16w (s.y2 - 1) }
  let s := if cmod s.x2 2 = 0 ∧ s.d3 ≤ 0 then { s with d3 := 10 } else s
  let s :=
    if s.x2 > 7 then
      { s with x2 := 8, y2 := -8, d4 := 0, callback := Cb.BackFlip_1 }
    else s
  { st with sprite := TryFlipX s }

def BackFlip_1 (st : St) : St :=
  let s := TryFlipX st.sprite
  let s := { s with x2 := s16w (Cos s.d4 16 - 8), y2 := s16w (Sin s.d4 16 - 8) }
  let s :=
    if s.d4 > 63 then { s with d2 := 160, d3 := 10, callback := Cb.BackFlip_2 }
    else s
  let s := { s with d4 := s16w (s.d4 + 8) }
  let s := if s.d4 > 64 then { s with d4 := 64 } else s
  { st with sprite := TryFlipX s }

def BackFlip_2 (st : St) : St :=
  let s := TryFlipX st.sprite
  if s.d3 > 0 then
    { st with sprite := TryFlipX { s with d3 := s16w (s.d3 - 1) } }
  else
    let s := { s with x2 := s16w (Cos s.d2 5 - 4), y2 := s16w (-(Sin s.d2 5) + 4) }
    let s := { s with d2 := s16w (s.d2 - 4) }
    let rotation := u32w (s.d2 - 32)
    let s := HandleSetAffineData s 256 256 (rotation * 512)
    if s.d2 ≤ 32 then
      let st := { st with sprite := { s with x2 := 0, y2 := 0 } }
      let st := ResetSpriteAfterAnim st
      { st with sprite :=
          TryFlipX { st.sprite with callback := Cb.WaitAnimEnd } }
    else
      { st with sprite := TryFlipX s }

def Anim_Flicker (st : St) : St :=
  let s := st.sprite
  if s.d3 > 0 then
    { st with sprite := { s with d3 := s16w (s.d3 - 1) } }
  else
    let s := { s with d4 := if s.d4 = 0 then 1 else 0 }
    let s := { s with invisible := s.d4 ≠ 0 }
    let s := { s with d2 := s16w (s.d2 + 1) }
    let s :=
      if s.d2 > 19 then
        { s with invisible := false, callback := Cb.WaitAnimEnd }
      else s
    { st with sprite := { s with d3 := 2 } }

def Anim_BackFlipBig (st : St) : St :=
  let st := HandleStartAffineAnim st
  { st with sprite := { st.sprite with callback := Cb.BackFlipBig_0 } }

def BackFlipBig_0 (st : St) : St :=
  let s := TryFlipX st.sprite
  let s := { s with x2 := s16w (s.x2 - 1), y2 := s16w (s.y2 + 1) }
  let s :=
    if s.x2 ≤ -16 then
      { s with x2 := -16, y2 := 16, callback := Cb.BackFlipBig_1, d2 := 160 }
    else s
  { st with sprite := TryFlipX s }

def BackFlipBig_1 (st : St) : St :=
  let s := TryFlipX st.sprite
  let s := { s with d2 := s16w (s.d2 - 4) }
  let s := { s with x2 := s16w (Cos s.d2 22), y2 := s16w (-(Sin s.d2 22)) }
  let rotation := u32w (s.d2 - 32)
  let s := HandleSetAffineData s 256 256 (rotation * 512)
  let s := if s.d2 ≤ 32 then { s with callback := Cb.BackFlipBig_2 } else s
  { st with sprite := TryFlipX s }

def BackFlipBig_2 (st : St) : St :=
  let s := TryFlipX st.sprite
  let s := { s with x2 := s16w (s.x2 - 1), y2 := s16w (s.y2 + 1) }
  if s.x2 ≤ 0 then
    let st := ResetSpriteAfterAnim { st with sprite := s }
    { st with sprite :=
        TryFlipX { st.sprite with callback := Cb.WaitAnimEnd } }
  else
    { st with sprite := TryFlipX s }

def Anim_FrontFlip (st : St) : St :=
  let st := HandleStartAffineAnim st
  { st with sprite := { st.sprite with callback := Cb.FrontFlip_0 } }

def FrontFlip_0 (st : St) : St :=
  let s := TryFlipX st.sprite
  let s := { s with x2 := s16w (s.x2 + 1), y2 := s16w (s.y2 - 1) }
  let s :=
    if s.x2 > 15 then { s with d2 := 0, callback := Cb.FrontFlip_1 }
    else s
  { st with sprite := TryFlipX s }

def FrontFlip_1 (st : St) : St :=
  let s := TryFlipX st.sprite
  let s := { s with d2 := s16w (s.d2 + 16) }
  let s :=
    if s.x2 ≤ -16 then
      { s with x2 := -16, y2 := 16, d2 := 0, callback := Cb.FrontFlip_2 }
    else
      { s with x2 := s16w (s.x2 - 2), y2 := s16w (s.y2 + 2) }
  let s := HandleSetAffineData s 256 256 (s.d2 * 256)
  { st with sprite := TryFlipX s }

def FrontFlip_2 (st : St) : St :=
  let s := TryFlipX st.sprite
  let s := { s with x2 := s16w (s.x2 + 1), y2 := s16w (s.y2 - 1) }
  if s.x2 ≥ 0 then
    let st := { st with sprite := { s with x2 := 0, y2 := 0 } }
    let st := ResetSpriteAfterAnim st
    { st with sprite :=
        TryFlipX { st.sprite with callback := Cb.WaitAnimEnd } }
  else
    { st with sprite := TryFlipX s }

def TumblingFrontFlip (st : St) : St :=
  if (getAnim st st.sprite.d0).delay ≠ 0 then
    setAnim st st.sprite.d0
      { getAnim st st.sprite.d0 with
          delay := u16w ((getAnim st st.sprite.d0).delay - 1) }
  else
    let st := { st with sprite := TryFlipX st.sprite }
    let st :=
      if st.sprite.d2 = 0 then
        let st := { st with sprite := { st.sprite with d2 := s16w (st.sprite.d2 + 1) } }
        let st := HandleStartAffineAnim st
        { st with sprite :=
            { st.sprite with d7 := (getAnim st st.sprite.d0).speed,
                             d3 := -1, d4 := -1, d5 := 0, d6 := 0 } }
      else st
    let s := st.sprite
    let s := { s with x2 := s16w (s.x2 + s.d7 * 2 * s.d3),
                      y2 := s16w (s.y2 + s.d7 * s.d4),
                      d6 := s16w (s.d6 + 8) }
    let s : Sprite :=
      if s.x2 ≤ -16 ∨ s.x2 ≥ 16 then
        { s with x2 := s16w (s.d3 * 16), d3 := s16w (-s.d3), d5 := s16w (s.d5 + 1) }
      else if s.y2 ≤ -16 ∨ s.y2 ≥ 16 then
        { s with y2 := s16w (s.d4 * 16), d4 := s16w (-s.d4), d5 := s16w (s.d5 + 1) }
      else s
    let st := { st with sprite := s }
    let st : St :=
      if st.sprite.d5 > 5 ∧ st.sprite.x2 ≤ 0 then
        let st := { st with sprite := { st.sprite with x2 := 0, y2 := 0 } }
        if (getAnim st st.sprite.d0).runs > 1 then
          let st := setAnim st st.sprite.d0
            { getAnim st st.sprite.d0 with
                runs := s16w ((getAnim st st.sprite.d0).runs - 1), delay := 10 }
          { st with sprite := { st.sprite with d5 := 0, d6 := 0 } }
        else
          let st := ResetSpriteAfterAnim st
          { st with sprite := { st.sprite with callback := Cb.WaitAnimEnd } }
      else st
    let s := HandleSetAffineData st.sprite 256 256 (st.sprite.d6 * 256)
    { st with sprite := TryFlipX s }

def Anim_TumblingFrontFlip (st : St) : St :=
  let p := AddNewAnim st
  let id := p.1
  let st := { p.2 with sprite := { p.2.sprite with d0 := s16w id } }
  let st := setAnim st id { getAnim st id with speed := 2 }
  let st := TumblingFrontFlip st
  { st with sprite := { st.sprite with callback := Cb.TumblingFrontFlip } }

def Anim_Figure8 (st : St) : St :=
  let st := HandleStartAffineAnim st
  { st with sprite :=
      { st.sprite with d6 := 0, d7 := 0, callback := Cb.Figure8 } }

def Figure8 (st : St) : St :=
  let s := TryFlipX st.sprite
  let s := { s with d6 := s16w (s.d6 + 4) }
  let s := { s with x2 := s16w (-(Sin s.d6 16)),
                    y2 := s16w (-(Sin ((s.d6 * 2).emod 256) 8)) }
  let s :=
    if s.d6 > 192 ∧ s.d7 = 1 then
      let s := HandleSetAffineData s 256 256 0
      { s with d7 := s16w (s.d7 + 1) }
    else if s.d6 > 64 ∧ s.d7 = 0 then
      let s := HandleSetAffineData s (-256) 256 0
      { s with d7 := s16w (s.d7 + 1) }
    else s
  if s.d6 > 255 then
    let s := { s with x2 := 0, y2 := 0 }
    let s := HandleSetAffineData s 256 256 0
    let st := ResetSpriteAfterAnim { st with sprite := s }
    { st with sprite :=
        TryFlipX { st.sprite with callback := Cb.WaitAnimEnd } }
  else
    { st with sprite := TryFlipX s }

/-- `sYellowFlashData`, with `(u8)-1` read as 255. -/
def sYellowFlashData : List (Int × Int) :=
  [(0, 5), (1, 1), (0, 15), (1, 4), (0, 2), (1, 2), (0, 2),
   (1, 2), (0, 2), (1, 2), (0, 2), (1, 2), (0, 2), (0, 255)]

def Anim_FlashYellow (st : St) : St :=
  let s := { st.sprite with d2 := s16w (st.sprite.d2 + 1) }
  let s :=
    if s.d2 = 1 then
      { s with d7 := s16w (s.paletteNum * 16 + 256), d6 := 0, d5 := 0, d4 := 0 }
    else s
  if (sYellowFlashData.getD s.d6.toNat (0, 0)).2 = 255 then
    { st with sprite := { s with callback := Cb.WaitAnimEnd } }
  else
    let s := if s.d4 = 1 then { s with d4 := 0 } else s
    let s :=
      if (sYellowFlashData.getD s.d6.toNat (0, 0)).2 = s.d5 then
        { s with d4 := 1, d5 := 0, d6 := s16w (s.d6 + 1) }
      else { s with d5 := s16w (s.d5 + 1) }
    { st with sprite := s }

def SwingConcave (st : St) : St :=
  let st := if st.sprite.d2 = 0 then HandleStartAffineAnim st else st
  let st := { st with sprite := TryFlipX st.sprite }
  let st :=
    if st.sprite.d2 > (getAnim st st.sprite.d0).data then
      let st := { st with sprite := HandleSetAffineData st.sprite 256 256 0 }
      let st := { st with sprite := { st.sprite with x2 := 0 } }
      if (getAnim st st.sprite.d0).runs > 1 then
        let st := setAnim st st.sprite.d0
          { getAnim st st.sprite.d0 with
              runs := s16w ((getAnim st st.sprite.d0).runs - 1) }
        { st with sprite := { st.sprite with d2 := 0 } }
      else
        let st := ResetSpriteAfterAnim st
        { st with sprite := { st.sprite with callback := Cb.WaitAnimEnd } }
    else
      let s := st.sprite
      let index := s16w (cdiv (s.d2 * 256) (getAnim st s.d0).data)
      let s := { s with x2 := s16w (-(Sin index 10)) }
      { st with sprite := HandleSetAffineData s 256 256 (Sin index 3276) }
  let s := { st.sprite with d2 := s16w (st.sprite.d2 + 1) }
  { st with sprite := TryFlipX s }

def Anim_SwingConcave_FastShort (st : St) : St :=
  let p := AddNewAnim st
  let id := p.1
  let st := { p.2 with sprite := { p.2.sprite with d0 := s16w id } }
  let st := setAnim st id { getAnim st id with data := 50 }
  let st := SwingConcave st
  { st with sprite := { st.sprite with callback := Cb.SwingConcave } }

def SwingConvex (st : St) : St :=
  let st := if st.sprite.d2 = 0 then HandleStartAffineAnim st else st
  let st := { st with sprite := TryFlipX st.sprite }
  let st :=
    if st.sprite.d2 > (getAnim st st.sprite.d0).data then
      let st := { st with sprite := HandleSetAffineData st.sprite 256 256 0 }
      let st := { st with sprite := { st.sprite with x2 := 0 } }
      if (getAnim st st.sprite.d0).runs > 1 then
        let st := setAnim st st.sprite.d0
          { getAnim st st.sprite.d0 with
              runs := s16w ((getAnim st st.sprite.d0).runs - 1) }
        { st with sprite := { st.sprite with d2 := 0 } }
      else
        let st := ResetSpriteAfterAnim st
        { st with sprite := { st.sprite with callback := Cb.WaitAnimEnd } }
    else
      let s := st.sprite
      let index := s16w (cdiv (s.d2 * 256) (getAnim st s.d0).data)
      let s := { s with x2 := s16w (-(Sin index 10)) }
      { st with sprite := HandleSetAffineData s 256 256 (-(Sin index 3276)) }
  let s := { st.sprite with d2 := s16w (st.sprite.d2 + 1) }
  { st with sprite := TryFlipX s }

def Anim_SwingConvex_FastShort (st : St) : St :=
  let p := AddNewAnim st
  let id := p.1
  let st := { p.2 with sprite := { p.2.sprite with d0 := s16w id } }
  let st := setAnim st id { getAnim st id with data := 50 }
  let st := SwingConvex st
  { st with sprite := { st.sprite with callback := Cb.SwingConvex } }

def Anim_RotateUpSlamDown (st : St) : St :=
  let st := HandleStartAffineAnim st
  { st with sprite :=
      { st.sprite with
          d6 := s16w (-(cdiv (14 * st.sprite.centerToCornerVecX) 10)),
          d7 := 128, callback := Cb.RotateUpSlamDown_0 } }

def RotateUpSlamDown_0 (st : St) : St :=
  let s := TryFlipX st.sprite
  let s := { s with d7 := s16w (s.d7 - 1) }
  let s := { s with x2 := s16w (s.d6 + Cos s.d7 s.d6),
                    y2 := s16w (-(Sin s.d7 s.d6)) }
  let s := HandleSetAffineData s 256 256 ((s.d7 - 128) * 256)
  let s :=
    if s.d7 ≤ 120 then
      { s with d7 := 120, d3 := 0, callback := Cb.RotateUpSlamDown_1 }
    else s
  { st with sprite := TryFlipX s }

def RotateUpSlamDown_1 (st : St) : St :=
  let s := st.sprite
  let s :=
    if s.d3 = 20 then { s with callback := Cb.RotateUpSlamDown_2, d3 := 0 }
    else s
  { st with sprite := { s with d3 := s16w (s.d3 + 1) } }

def RotateUpSlamDown_2 (st : St) : St :=
  let s := TryFlipX st.sprite
  let s := { s with d7 := s16w (s.d7 + 2) }
  let s := { s with x2 := s16w (s.d6 + Cos s.d7 s.d6),
                    y2 := s16w (-(Sin s.d7 s.d6)) }
  let s := HandleSetAffineData s 256 256 ((s.d7 - 128) * 256)
  if s.d7 ≥ 128 then
    let s := { s with x2 := 0, y2 := 0 }
    let s := HandleSetAffineData s 256 256 0
    let s := { s with d2 := 0 }
    let st := ResetSpriteAfterAnim { st with sprite := s }
    { st with sprite :=
        TryFlipX { st.sprite with callback := Cb.Anim_VerticalShake } }
  else
    { st with sprite := TryFlipX s }

def DeepVerticalSquishBounce (st : St) : St :=
  if (getAnim st st.sprite.d0).delay ≠ 0 then
    setAnim st st.sprite.d0
      { getAnim st st.sprite.d0 with
          delay := u16w ((getAnim st st.sprite.d0).delay - 1) }
  else
    let st :=
      if st.sprite.d2 = 0 then
        let st := HandleStartAffineAnim st
        { st with sprite := { st.sprite with d4 := 0, d5 := 0, d2 := 1 } }
      else st
    let st : St :=
      if st.sprite.d5 = 0 then
        let s := st.sprite
        let s := { s with d7 := s16w (Sin s.d4 256), y2 := s16w (Sin s.d4 16),
                          d6 := s16w (Sin s.d4 32) }
        let s := HandleSetAffineData s (256 - s.d6) (256 + s.d7) 0
        let s := if s.d4 = 128 then { s with d4 := 0, d5 := 1 } else s
        { st with sprite := s }
      else if st.sprite.d5 = 1 then
        let s := st.sprite
        let s := { s with d7 := s16w (Sin s.d4 32), y2 := s16w (-(Sin s.d4 8)),
                          d6 := s16w (Sin s.d4 128) }
        let s := HandleSetAffineData s (256 + s.d6) (256 - s.d7) 0
        let st := { st with sprite := s }
        if st.sprite.d4 = 128 then
          if (getAnim st st.sprite.d0).runs > 1 then
            let st := setAnim st st.sprite.d0
              { getAnim st st.sprite.d0 with
                  runs := s16w ((getAnim st st.sprite.d0).runs - 1), delay := 10 }
            { st with sprite := { st.sprite with d4 := 0, d5 := 0 } }
          else
            let st := { st with sprite := HandleSetAffineData st.sprite 256 256 0 }
            let st := ResetSpriteAfterAnim st
            { st with sprite := { st.sprite with callback := Cb.WaitAnimEnd } }
        else st
      else st
    { st with sprite :=
        { st.sprite with
            d4 := s16w (st.sprite.d4 + (getAnim st st.sprite.d0).rotation) } }

def Anim_DeepVerticalSquishBounce (st : St) : St :=
  let p := AddNewAnim st
  let id := p.1
  let st := { p.2 with sprite := { p.2.sprite with d0 := s16w id } }
  let st := setAnim st id { getAnim st id with rotation := 4 }
  let st := DeepVerticalSquishBounce st
  { st with sprite := { st.sprite with callback := Cb.DeepVerticalSquishBounce } }

def Anim_HorizontalJumps (st : St) : St :=
  let s := TryFlipX st.sprite
  let counter := s.d2
  let s :=
    if counter > 512 then { s with callback := Cb.WaitAnimEnd, x2 := 0, y2 := 0 }
    else
      let divCounter := cdiv s.d2 128
      let s : Sprite :=
        if divCounter = 0 then
          { s with x2 := s16w (cdiv (-(cmod counter 128 * 8)) 128) }
        else if divCounter = 1 then
          { s with x2 := s16w (cdiv (cmod counter 128) 16 - 8) }
        else if divCounter = 2 then
          { s with x2 := s16w (cdiv (cmod counter 128) 16) }
        else if divCounter = 3 then
          { s with x2 := s16w (cdiv (-(cmod counter 128 * 8)) 128 + 8) }
        else s
      { s with y2 := s16w (-(Sin (cmod counter 128) 8)) }
  let s := { s with d2 := s16w (s.d2 + 12) }
  { st with sprite := TryFlipX s }

def HorizontalJumpsVerticalStretch_0 (st : St) : St :=
  if (getAnim st st.sprite.d0).delay ≠ 0 then
    setAnim st st.sprite.d0
      { getAnim st st.sprite.d0 with
          delay := u16w ((getAnim st st.sprite.d0).delay - 1) }
  else
    let s := TryFlipX st.sprite
    let counter := s.d2
    let s : Sprite :=
      if s.d2 > 128 then
        { s with d2 := 0, callback := Cb.HorizontalJumpsVerticalStretch_1 }
      else
        let v := 8 * (getAnim st st.sprite.d0).data
        let s := { s with x2 := s16w (cdiv (v * cmod counter 128) 128),
                          y2 := s16w (-(Sin (cmod counter 128) 8)) }
        { s with d2 := s16w (s.d2 + 12) }
    { st with sprite := TryFlipX s }

def HorizontalJumpsVerticalStretch_1 (st : St) : St :=
  let st := { st with sprite := TryFlipX st.sprite }
  let st : St :=
    if st.sprite.d2 > 48 then
      let st := { st with sprite := HandleSetAffineData st.sprite 256 256 0 }
      { st with sprite :=
          { st.sprite with y2 := 0, d2 := 0,
                           callback := Cb.HorizontalJumpsVerticalStretch_2 } }
    else
      let s := st.sprite
      let yScale := s16w (Sin s.d4 64 + 256)
      let s :=
        if s.d2 ≥ 16 ∧ s.d2 ≤ 31 then
          { s with d3 := s16w (s.d3 + 8),
                   x2 := s16w (s.x2 - (getAnim st st.sprite.d0).data) }
        else s
      let yDelta : Int := if yScale > 256 then cdiv (256 - yScale) 8 else 0
      let s := { s with y2 := s16w (-(Sin s.d3 20) - yDelta) }
      let s := HandleSetAffineData s (256 - Sin s.d4 32) yScale 0
      let s := { s with d2 := s16w (s.d2 + 1) }
      { st with sprite := { s with d4 := (s.d4 + 8).emod 256 } }
  { st with sprite := TryFlipX st.sprite }

def HorizontalJumpsVerticalStretch_2 (st : St) : St :=
  let st := { st with sprite := TryFlipX st.sprite }
  let counter := st.sprite.d2
  let st : St :=
    if counter > 128 then
      let st : St :=
        if (getAnim st st.sprite.d0).runs > 1 then
          let st := setAnim st st.sprite.d0
            { getAnim st st.sprite.d0 with
                runs := s16w ((getAnim st st.sprite.d0).runs - 1), delay := 10 }
          { st with sprite :=
              { st.sprite with d3 := 0, d2 := 0, d4 := 0,
                               callback := Cb.HorizontalJumpsVerticalStretch_0 } }
        else
          let st := ResetSpriteAfterAnim st
          { st with sprite := { st.sprite with callback := Cb.WaitAnimEnd } }
      { st with sprite := { st.sprite with x2 := 0, y2 := 0 } }
    else
      let v := (getAnim st st.sprite.d0).data
      let s := st.sprite
      let s := { s with x2 := s16w (cdiv (v * (cmod counter 128 * 8)) 128 + 8 * (-v)),
                        y2 := s16w (-(Sin (cmod counter 128) 8)) }
      { st with sprite := s }
  let s := { st.sprite with d2 := s16w (st.sprite.d2 + 12) }
  { st with sprite := TryFlipX s }

def RotateToSides (st : St) : St :=
  let st :=
    if st.sprite.d2 = 0 then
      let st := HandleStartAffineAnim st
      { st with sprite := { st.sprite with d2 := s16w (st.sprite.d2 + 1) } }
    else st
  let st := { st with sprite := TryFlipX st.sprite }
  if st.sprite.d7 > 254 then
    let st := { st with sprite := { st.sprite with x2 := 0, y2 := 0 } }
    let st := { st with sprite := HandleSetAffineData st.sprite 256 256 0 }
    let st : St :=
      if (getAnim st st.sprite.d0).runs > 1 then
        let st := setAnim st st.sprite.d0
          { getAnim st st.sprite.d0 with
              runs := s16w ((getAnim st st.sprite.d0).runs - 1) }
        { st with sprite := { st.sprite with d2 := 0, d7 := 0 } }
      else
        let st := ResetSpriteAfterAnim st
        { st with sprite := { st.sprite with callback := Cb.WaitAnimEnd } }
    { st with sprite := TryFlipX st.sprite }
  else
    let s := st.sprite
    let s := { s with x2 := s16w (-(Sin s.d7 16)) }
    let rotation := u16w (Sin s.d7 32)
    let s := HandleSetAffineData s 256 256 (rotation * 256)
    let s := { s with d7 := s16w (s.d7 + (getAnim st st.sprite.d0).rotation) }
    { st with sprite := TryFlipX s }

def Anim_RotateToSides_Fast (st : St) : St :=
  let p := AddNewAnim st
  let id := p.1
  let st := { p.2 with sprite := { p.2.sprite with d0 := s16w id } }
  let st := setAnim st id { getAnim st id with rotation := 4 }
  let st := RotateToSides st
  { st with sprite := { st.sprite with callback := Cb.RotateToSides } }

def Anim_RotateUpToSides (st : St) : St :=
  let st :=
    if st.sprite.d2 = 0 then
      let st := HandleStartAffineAnim st
      { st with sprite := { st.sprite with d2 := s16w (st.sprite.d2 + 1) } }
    else st
  let st := { st with sprite := TryFlipX st.sprite }
  if st.sprite.d7 > 254 then
    let st := { st with sprite := { st.sprite with x2 := 0, y2 := 0 } }
    let st := { st with sprite := HandleSetAffineData st.sprite 256 256 0 }
    let st := ResetSpriteAfterAnim st
    { st with sprite :=
        TryFlipX { st.sprite with callback := Cb.WaitAnimEnd } }
  else
    let s := st.sprite
    let s := { s with x2 := s16w (-(Sin s.d7 16)),
                      y2 := s16w (-(Sin (cmod s.d7 128) 16)) }
    let rotation := u16w (Sin s.d7 32)
    let s := HandleSetAffineData s 256 256 (rotation * 256)
    let s := { s with d7 := s16w (s.d7 + 8) }
    { st with sprite := TryFlipX s }

def Anim_FlickerIncreasing (st : St) : St :=
  let s := st.sprite
  let s := if s.d2 = 0 then { s with d7 := 0 } else s
  let s :=
    if s.d2 = s.d7 then
      { s with d7 := 0, d2 := s16w (s.d2 + 1), invisible := false }
    else
      { s with d7 := s16w (s.d7 + 1), invisible := true }
  let s :=
    if s.d2 > 10 then { s with invisible := false, callback := Cb.WaitAnimEnd }
    else s
  { st with sprite := s }

def Anim_TipHopForward (st : St) : St :=
  let st := HandleStartAffineAnim st
  { st with sprite := { st.sprite with d7 := 0, callback := Cb.TipHopForward_0 } }

def TipHopForward_0 (st : St) : St :=
  let s := st.sprite
  let s :=
    if s.d7 > 31 then { s with d7 := 32, d2 := 0, callback := Cb.TipHopForward_1 }
    else { s with d7 := s16w (s.d7 + 4) }
  { st with sprite := HandleSetAffineData s 256 256 (s.d7 * 256) }

def TipHopForward_1 (st : St) : St :=
  let s := TryFlipX st.sprite
  let s :=
    if s.d2 > 512 then { s with callback := Cb.TipHopForward_2, d6 := 0 }
    else
      let s := { s with x2 := s16w (cdiv (-(s.d2 * 16)) 512),
                        y2 := s16w (-(Sin (cmod s.d2 128) 4)) }
      { s with d2 := s16w (s.d2 + 12) }
  { st with sprite := TryFlipX s }

def TipHopForward_2 (st : St) : St :=
  let s := TryFlipX st.sprite
  let s := { s with d7 := s16w (s.d7 - 2) }
  if s.d7 < 0 then
    let s := { s with d7 := 0, x2 := 0 }
    let st := ResetSpriteAfterAnim { st with sprite := s }
    let s := { st.sprite with callback := Cb.WaitAnimEnd }
    let s := HandleSetAffineData s 256 256 (s.d7 * 256)
    { st with sprite := TryFlipX s }
  else
    let s := { s with x2 := s16w (-(Sin (s.d7 * 2) 16)) }
    let s := HandleSetAffineData s 256 256 (s.d7 * 256)
    { st with sprite := TryFlipX s }

def Anim_PivotShake (st : St) : St :=
  let st :=
    if st.sprite.d2 = 0 then
      let st := HandleStartAffineAnim st
      { st with sprite := { st.sprite with d2 := s16w (st.sprite.d2 + 1), d7 := 0 } }
    else st
  let st := { st with sprite := TryFlipX st.sprite }
  let st : St :=
    if st.sprite.d7 > 255 then
      let st := { st with sprite := { st.sprite with x2 := 0, y2 := 0, d7 := 0 } }
      let st := ResetSpriteAfterAnim st
      { st with sprite := { st.sprite with callback := Cb.WaitAnimEnd } }
    else
      let s := { st.sprite with d7 := s16w (st.sprite.d7 + 16) }
      { st with sprite :=
          { s with x2 := s16w (-(Sin (cmod s.d7 128) 8)),
                   y2 := s16w (-(Sin (cmod s.d7 128) 8)) } }
  let rotation := u16w (Sin (cmod st.sprite.d7 128) 16)
  let s := HandleSetAffineData st.sprite 256 256 (rotation * 256)
  { st with sprite := TryFlipX s }

def Anim_TipAndShake (st : St) : St :=
  let st := HandleStartAffineAnim st
  { st with sprite :=
      { st.sprite with d7 := 0, d4 := 0, callback := Cb.TipAndShake_0 } }

def TipAndShake_0 (st : St) : St :=
  let s := TryFlipX st.sprite
  let s :=
    if s.d7 > 24 then
      let s := { s with d4 := s16w (s.d4 + 1) }
      if s.d4 > 4 then { s with d4 := 0, callback := Cb.TipAndShake_1 } else s
    else
      let s := { s with d7 := s16w (s.d7 + 2) }
      { s with x2 := s16w (Sin s.d7 8), y2 := s16w (-(Sin s.d7 8)) }
  let s := HandleSetAffineData s 256 256 (-s.d7 * 256)
  { st with sprite := TryFlipX s }

def TipAndShake_1 (st : St) : St :=
  let s := TryFlipX st.sprite
  let s :=
    if s.d7 > 32 then { s with d6 := 1, callback := Cb.TipAndShake_2 }
    else
      let s := { s with d7 := s16w (s.d7 + 2) }
      { s with x2 := s16w (Sin s.d7 8), y2 := s16w (-(Sin s.d7 8)) }
  let s := HandleSetAffineData s 256 256 (-s.d7 * 256)
  { st with sprite := TryFlipX s }

def TipAndShake_2 (st : St) : St :=
  let s := TryFlipX st.sprite
  let s := { s with d7 := s16w (s.d7 + s.d6 * 4) }
  let s :=
    if s.d5 > 9 then { s with d7 := 32, callback := Cb.TipAndShake_3 }
    else s
  let s := { s with x2 := s16w (Sin s.d7 8), y2 := s16w (-(Sin s.d7 8)) }
  let s :=
    if s.d7 ≤ 28 ∨ s.d7 ≥ 36 then
      { s with d6 := s16w (-s.d6), d5 := s16w (s.d5 + 1) }
    else s
  let s := HandleSetAffineData s 256 256 (-s.d7 * 256)
  { st with sprite := TryFlipX s }

def TipAndShake_3 (st : St) : St :=
  let s := TryFlipX st.sprite
  if s.d7 ≤ 0 then
    let s := { s with d7 := 0 }
    let st := ResetSpriteAfterAnim { st with sprite := s }
    let s := { st.sprite with callback := Cb.WaitAnimEnd }
    let s := HandleSetAffineData s 256 256 (-s.d7 * 256)
    { st with sprite := TryFlipX s }
  else
    let s := { s with d7 := s16w (s.d7 - 2) }
    let s := { s with x2 := s16w (Sin s.d7 8), y2 := s16w (-(Sin s.d7 8)) }
    let s := HandleSetAffineData s 256 256 (-s.d7 * 256)
    { st with sprite := TryFlipX s }

def Anim_VibrateToCorners (st : St) : St :=
  let s := TryFlipX st.sprite
  let s :=
    if s.d2 > 40 then { s with callback := Cb.WaitAnimEnd, x2 := 0 }
    else
      let sign : Int := if s.d2.emod 2 = 0 then 1 else -1
      if cdiv (cmod s.d2 4) 2 = 0 then
        let s := { s with x2 := s16w (Sin (cmod (cdiv (s.d2 * 128) 40) 256) 16 * sign) }
        { s with y2 := s16w (-s.x2) }
      else
        let s := { s with x2 := s16w (-(Sin (cmod (cdiv (s.d2 * 128) 40) 256) 16) * sign) }
        { s with y2 := s.x2 }
  let s := { s with d2 := s16w (s.d2 + 1) }
  { st with sprite := TryFlipX s }

def Anim_GrowInStages (st : St) : St :=
  let st := { st with sprite := TryFlipX st.sprite }
  let st :=
    if st.sprite.d2 = 0 then
      let st := HandleStartAffineAnim st
      { st with sprite :=
          { st.sprite with d5 := 0, d6 := 0, d7 := 0,
                           d2 := s16w (st.sprite.d2 + 1) } }
    else st
  let st : St :=
    if st.sprite.d6 > 0 then
      let s := { st.sprite with d6 := s16w (st.sprite.d6 - 1) }
      let s :=
        if s.d5 ≠ 3 then
          let scale := Sin (s.d7 - cdiv (8 * s.d6) 20) 64
          HandleSetAffineData s (256 - scale) (256 - scale) 0
        else s
      { st with sprite := s }
    else
      let st : St :=
        if st.sprite.d5 = 3 then
          if st.sprite.d7 > 63 then
            let st := { st with sprite := { st.sprite with d7 := 64 } }
            let st := { st with sprite := HandleSetAffineData st.sprite 256 256 0 }
            let st := ResetSpriteAfterAnim st
            { st with sprite := { st.sprite with callback := Cb.WaitAnimEnd } }
          else st
        else st
      let v : Int :=
        if st.sprite.d5 = 3 then Cos st.sprite.d7 64 else Sin st.sprite.d7 64
      let st : St :=
        if st.sprite.d5 = 3 then st
        else if st.sprite.d7 > 63 then
          { st with sprite := { st.sprite with d5 := 3, d6 := 10, d7 := 0 } }
        else if v > 48 ∧ st.sprite.d5 = 1 then
          { st with sprite := { st.sprite with d5 := 2, d6 := 20 } }
        else if v > 16 ∧ st.sprite.d5 = 0 then
          { st with sprite := { st.sprite with d5 := 1, d6 := 20 } }
        else st
      let s := { st.sprite with d7 := s16w (st.sprite.d7 + 2) }
      { st with sprite := HandleSetAffineData s (256 - v) (256 - v) 0 }
  { st with sprite := TryFlipX st.sprite }

def Anim_VerticalSpring (st : St) : St :=
  let st :=
    if st.sprite.d2 = 0 then
      let st := HandleStartAffineAnim st
      { st with sprite := { st.sprite with d2 := s16w (st.sprite.d2 + 1), d7 := 0 } }
    else st
  if st.sprite.d7 > 512 then
    let st := { st with sprite := { st.sprite with y2 := 0 } }
    let st := { st with sprite := HandleSetAffineData st.sprite 256 256 0 }
    let st := ResetSpriteAfterAnim st
    { st with sprite := { st.sprite with callback := Cb.WaitAnimEnd } }
  else
    let s := st.sprite
    let s := { s with y2 := s16w (Sin (cmod s.d7 256) 8) }
    let s := { s with d7 := s16w (s.d7 + 8) }
    let yScale := Sin (cmod s.d7 128) 96
    { st with sprite := HandleSetAffineData s 256 (yScale + 256) 0 }

def Anim_VerticalRepeatedSpring (st : St) : St :=
  let st :=
    if st.sprite.d2 = 0 then
      let st := HandleStartAffineAnim st
      { st with sprite := { st.sprite with d2 := s16w (st.sprite.d2 + 1), d7 := 0 } }
    else st
  if st.sprite.d7 > 256 then
    let st := { st with sprite := { st.sprite with y2 := 0 } }
    let st := { st with sprite := HandleSetAffineData st.sprite 256 256 0 }
    let st := ResetSpriteAfterAnim st
    { st with sprite := { st.sprite with callback := Cb.WaitAnimEnd } }
  else
    let s := st.sprite
    let s := { s with y2 := s16w (Sin s.d7 16) }
    let s := { s with d7 := s16w (s.d7 + 4) }
    let yScale := Sin (cmod s.d7 64 * 2) 128
    { st with sprite := HandleSetAffineData s 256 (yScale + 256) 0 }

def Anim_SpringRising (st : St) : St :=
  let st := HandleStartAffineAnim st
  { st with sprite :=
      { st.sprite with callback := Cb.SpringRising_0, d7 := 0 } }

def SpringRising_0 (st : St) : St :=
  let s := st.sprite
  let s := { s with d7 := s16w (s.d7 + 8) }
  let sy : Sprite × Int :=
    if s.d7 > 63 then
      ({ s with d7 := 0, d6 := 0, callback := Cb.SpringRising_1 }, Sin 64 128)
    else (s, Sin s.d7 128)
  { st with sprite := HandleSetAffineData sy.1 256 (256 + sy.2) 0 }

def SpringRising_1 (st : St) : St :=
  let s := st.sprite
  let s := { s with d7 := s16w (s.d7 + 4) }
  let sy : Sprite × Int :=
    if s.d7 > 95 then
      ({ s with d7 := 0, d6 := s16w (s.d6 + 1) }, Cos 0 128)
    else
      let s := { s with y2 := s16w (-(s.d6 * 4) - Sin s.d7 8) }
      let sign : Int := if s.d7 > 63 then -1 else 1
      let index : Int := if s.d7 > 63 then s.d7 - 64 else 0
      (s, Cos (index * 2 + s.d7) 128 * sign)
  let s := HandleSetAffineData sy.1 256 (256 + sy.2) 0
  let s := if s.d6 = 3 then { s with d7 := 0, callback := Cb.SpringRising_2 } else s
  { st with sprite := s }

def SpringRising_2 (st : St) : St :=
  let s := st.sprite
  let s := { s with d7 := s16w (s.d7 + 8) }
  let yScale := Cos s.d7 128
  let s := { s with y2 := s16w (-(Cos s.d7 12)) }
  if s.d7 > 63 then
    let st := ResetSpriteAfterAnim { st with sprite := s }
    let s := { st.sprite with callback := Cb.WaitAnimEnd, y2 := 0 }
    let s := HandleSetAffineData s 256 256 0
    { st with sprite := HandleSetAffineData s 256 (256 + yScale) 0 }
  else
    { st with sprite := HandleSetAffineData s 256 (256 + yScale) 0 }

def HorizontalSpring (st : St) : St :=
  let s := st.sprite
  if s.d7 > s.d5 then
    let st := { st with sprite := { s with x2 := 0 } }
    let st := ResetSpriteAfterAnim st
    let s := { st.sprite with callback := Cb.WaitAnimEnd }
    { st with sprite := HandleSetAffineData s 256 256 0 }
  else
    let s := { s with x2 := s16w (Sin (cmod s.d7 256) s.d4) }
    let s := { s with d7 := s16w (s.d7 + s.d6) }
    let xScale := Sin (cmod s.d7 128) 96
    { st with sprite := HandleSetAffineData s (256 + xScale) 256 0 }

def Anim_HorizontalSpring (st : St) : St :=
  let st :=
    if st.sprite.d2 = 0 then
      let st := HandleStartAffineAnim st
      { st with sprite :=
          { st.sprite with d2 := s16w (st.sprite.d2 + 1),
                           d7 := 0, d6 := 8, d5 := 512, d4 := 8 } }
    else st
  HorizontalSpring st

def HorizontalRepeatedSpring (st : St) : St :=
  let s := st.sprite
  if s.d7 > s.d5 then
    let st := { st with sprite := { s with x2 := 0 } }
    let st := ResetSpriteAfterAnim st
    let s := { st.sprite with callback := Cb.WaitAnimEnd }
    { st with sprite := HandleSetAffineData s 256 256 0 }
  else
    let s := { s with x2 := s16w (Sin (cmod s.d7 256) s.d4) }
    let s := { s with d7 := s16w (s.d7 + s.d6) }
    let xScale := Sin (cmod s.d7 64 * 2) 128
    { st with sprite := HandleSetAffineData s (256 + xScale) 256 0 }

def Anim_HorizontalRepeatedSpring_Slow (st : St) : St :=
  let st :=
    if st.sprite.d2 = 0 then
      let st := HandleStartAffineAnim st
      { st with sprite :=
          { st.sprite with d2 := s16w (st.sprite.d2 + 1),
                           d7 := 0, d6 := 4, d5 := 256, d4 := 16 } }
    else st
  HorizontalRepeatedSpring st

def Anim_HorizontalSlideShrink (st : St) : St :=
  let st := { st with sprite := TryFlipX st.sprite }
  let st :=
    if st.sprite.d2 = 0 then
      let st := HandleStartAffineAnim st
      { st with sprite := { st.sprite with d2 := s16w (st.sprite.d2 + 1), d7 := 0 } }
    else st
  if st.sprite.d7 > 512 then
    let st := { st with sprite := { st.sprite with x2 := 0 } }
    let st := ResetSpriteAfterAnim st
    let s := HandleSetAffineData st.sprite 256 256 0
    { st with sprite := TryFlipX { s with callback := Cb.WaitAnimEnd } }
  else
    let s := st.sprite
    let s := { s with x2 := s16w (Sin (cmod s.d7 256) 8) }
    let s := { s with d7 := s16w (s.d7 + 8) }
    let scale := Sin (cmod s.d7 128) 96
    let s := HandleSetAffineData s (256 + scale) (256 + scale) 0
    { st with sprite := TryFlipX s }

def Anim_LungeGrow (st : St) : St :=
  let st := { st with sprite := TryFlipX st.sprite }
  let st :=
    if st.sprite.d2 = 0 then
      let st := HandleStartAffineAnim st
      { st with sprite := { st.sprite with d2 := s16w (st.sprite.d2 + 1), d7 := 0 } }
    else st
  if st.sprite.d7 > 512 then
    let st := { st with sprite := { st.sprite with x2 := 0 } }
    let st := ResetSpriteAfterAnim st
    let s := HandleSetAffineData st.sprite 256 256 0
    { st with sprite := TryFlipX { s with callback := Cb.WaitAnimEnd } }
  else
    let s := st.sprite
    let s := { s with x2 := s16w (-(Sin (cdiv (cmod s.d7 256) 2) 16)) }
    let s := { s with d7 := s16w (s.d7 + 8) }
    let scale := -(Sin (cdiv (cmod s.d7 256) 2) 64)
    let s := HandleSetAffineData s (256 + scale) (256 + scale) 0
    { st with sprite := TryFlipX s }

def Anim_CircleIntoBackground (st : St) : St :=
  let st := { st with sprite := TryFlipX st.sprite }
  let st :=
    if st.sprite.d2 = 0 then
      let st := HandleStartAffineAnim st
      { st with sprite := { st.sprite with d2 := s16w (st.sprite.d2 + 1), d7 := 0 } }
    else st
  if st.sprite.d7 > 512 then
    let st := { st with sprite := { st.sprite with x2 := 0 } }
    let st := ResetSpriteAfterAnim st
    let s := HandleSetAffineData st.sprite 256 256 0
    { st with sprite := TryFlipX { s with callback := Cb.WaitAnimEnd } }
  else
    let s := st.sprite
    let s := { s with x2 := s16w (-(Sin (cmod s.d7 256) 8)) }
    let s := { s with d7 := s16w (s.d7 + 8) }
    let scale := Sin (cdiv (cmod s.d7 256) 2) 96
    let s := HandleSetAffineData s (256 + scale) (256 + scale) 0
    { st with sprite := TryFlipX s }

def Anim_RapidHorizontalHops (st : St) : St :=
  let s := TryFlipX st.sprite
  let s :=
    if s.d2 > 2048 then { s with callback := Cb.WaitAnimEnd, d6 := 0 }
    else
      let caseVar := cmod (cdiv s.d2 512) 4
      let s : Sprite :=
        if caseVar = 0 then
          { s with x2 := s16w (cdiv (-(cmod s.d2 512 * 16)) 512) }
        else if caseVar = 1 then
          { s with x2 := s16w (cdiv (cmod s.d2 512) 32 - 16) }
        else if caseVar = 2 then
          { s with x2 := s16w (cdiv (cmod s.d2 512) 32) }
        else
          { s with x2 := s16w (cdiv (-(cmod s.d2 512 * 16)) 512 + 16) }
      let s := { s with y2 := s16w (-(Sin (cmod s.d2 128) 4)) }
      { s with d2 := s16w (s.d2 + 24) }
  { st with sprite := TryFlipX s }

def Anim_FourPetal (st : St) : St :=
  let s := TryFlipX st.sprite
  let s :=
    if s.d2 = 0 then { s with d6 := 0, d7 := 64, d2 := s16w (s.d2 + 1) }
    else s
  let s := { s with d7 := s16w (s.d7 + 8) }
  let s :=
    if s.d6 = 4 then
      if s.d7 > 63 then { s with d7 := 0, d6 := s16w (s.d6 + 1) } else s
    else
      if s.d7 > 127 then { s with d7 := 0, d6 := s16w (s.d6 + 1) } else s
  let s : Sprite :=
    if s.d6 = 1 then
      { s with x2 := s16w (-(Cos s.d7 8)), y2 := s16w (Sin s.d7 8 - 8) }
    else if s.d6 = 2 then
      { s with x2 := s16w (Sin (s.d7 + 128) 8 + 8), y2 := s16w (-(Cos s.d7 8)) }
    else if s.d6 = 3 then
      { s with x2 := s16w (Cos s.d7 8), y2 := s16w (Sin (s.d7 + 128) 8 + 8) }
    else if s.d6 = 0 ∨ s.d6 = 4 then
      { s with x2 := s16w (Sin s.d7 8 - 8), y2 := s16w (Cos s.d7 8) }
    else
      { s with x2 := 0, y2 := 0, callback := Cb.WaitAnimEnd }
  { st with sprite := TryFlipX s }

def Anim_VerticalSquishBounce_Slow (st : St) : St :=
  let st := { st with sprite := { st.sprite with d0 := 32 } }
  let st := VerticalSquishBounce st
  { st with sprite := { st.sprite with callback := Cb.VerticalSquishBounce } }

def Anim_HorizontalSlide_Slow (st : St) : St :=
  let st := { st with sprite := { st.sprite with d0 := 80 } }
  let st := HorizontalSlide st
  { st with sprite := { st.sprite with callback := Cb.HorizontalSlide } }

def Anim_VerticalSlide_Slow (st : St) : St :=
  let st := { st with sprite := { st.sprite with d0 := 80 } }
  let st := VerticalSlide st
  { st with sprite := { st.sprite with callback := Cb.VerticalSlide } }

def Anim_BounceRotateToSides_Small (st : St) : St :=
  let p := AddNewAnim st
  let id := p.1
  let st := { p.2 with sprite := { p.2.sprite with d0 := s16w id } }
  let st := setAnim st id
    { getAnim st id with rotation := 2048, data := st.sprite.d6 }
  let st := BounceRotateToSides st
  { st with sprite := { st.sprite with callback := Cb.BounceRotateToSides } }

def Anim_BounceRotateToSides_Slow (st : St) : St :=
  let st := { st with sprite := { st.sprite with d6 := 1 } }
  Anim_BounceRotateToSides st

def Anim_BounceRotateToSides_SmallSlow (st : St) : St :=
  let st := { st with sprite := { st.sprite with d6 := 1 } }
  Anim_BounceRotateToSides_Small st

def Anim_ZigzagSlow (st : St) : St :=
  let st :=
    if st.sprite.d2 = 0 then
      { st with sprite := { st.sprite with d0 := 0 } }
    else st
  if st.sprite.d0 ≤ 0 then
    let st := Zigzag st
    { st with sprite := { st.sprite with d0 := 1 } }
  else
    { st with sprite := { st.sprite with d0 := s16w (st.sprite.d0 - 1) } }

def Anim_HorizontalShake_Slow (st : St) : St :=
  let st := { st with sprite := { st.sprite with d0 := 30, d7 := 3 } }
  let st := HorizontalShake st
  { st with sprite := { st.sprite with callback := Cb.HorizontalShake } }

def Anim_VertialShake_Slow (st : St) : St :=
  let st := { st with sprite := { st.sprite with d0 := 30 } }
  let st := VerticalShake st
  { st with sprite := { st.sprite with callback := Cb.VerticalShake } }

def Anim_Twist_Twice (st : St) : St :=
  let p := AddNewAnim st
  let id := p.1
  let st := { p.2 with sprite := { p.2.sprite with d0 := s16w id } }
  let st := setAnim st id
    { getAnim st id with rotation := 1024, delay := 0, runs := 2 }
  let st := Twist st
  { st with sprite := { st.sprite with callback := Cb.Twist } }

def Anim_CircleCounterclockwise_Slow (st : St) : St :=
  let p := AddNewAnim st
  let id := p.1
  let st := { p.2 with sprite := { p.2.sprite with d0 := s16w id } }
  let st := setAnim st id
    { getAnim st id with rotation := 512, data := 3, speed := 12 }
  let st := CircleCounterclockwise st
  { st with sprite := { st.sprite with callback := Cb.CircleCounterclockwise } }

def Anim_VerticalShakeTwice_Slow (st : St) : St :=
  let st := { st with sprite := { st.sprite with d0 := 24 } }
  let st := VerticalShakeTwice st
  { st with sprite := { st.sprite with callback := Cb.VerticalShakeTwice } }

def Anim_VerticalSlideWobble_Small (st : St) : St :=
  let st := { st with sprite := { st.sprite with d0 := 5 } }
  let st := VerticalSlideWobble st
  { st with sprite := { st.sprite with callback := Cb.VerticalSlideWobble } }

def Anim_VerticalJumps_Small (st : St) : St :=
  let st := { st with sprite := { st.sprite with d0 := 3 } }
  let st := VerticalJumps st
  { st with sprite := { st.sprite with callback := Cb.VerticalJumps } }

def Anim_Spin (st : St) : St :=
  let p := AddNewAnim st
  let id := p.1
  let st := { p.2 with sprite := { p.2.sprite with d0 := s16w id } }
  let st := setAnim st id { getAnim st id with delay := 60, data := 30 }
  let st := Spin st
  { st with sprite := { st.sprite with callback := Cb.Spin } }

def Anim_TumblingFrontFlip_Twice (st : St) : St :=
  let p := AddNewAnim st
  let id := p.1
  let st := { p.2 with sprite := { p.2.sprite with d0 := s16w id } }
  let st := setAnim st id { getAnim st id with speed := 1, runs := 2 }
  let st := TumblingFrontFlip st
  { st with sprite := { st.sprite with callback := Cb.TumblingFrontFlip } }

def Anim_DeepVerticalSquishBounce_Twice (st : St) : St :=
  let p := AddNewAnim st
  let id := p.1
  let st := { p.2 with sprite := { p.2.sprite with d0 := s16w id } }
  let st := setAnim st id { getAnim st id with rotation := 4, runs := 2 }
  let st := DeepVerticalSquishBounce st
  { st with sprite := { st.sprite with callback := Cb.DeepVerticalSquishBounce } }

def Anim_HorizontalJumpsVerticalStretch_Twice (st : St) : St :=
  let p := AddNewAnim st
  let id := p.1
  let st := { p.2 with sprite := { p.2.sprite with d0 := s16w id } }
  let st := setAnim st id { getAnim st id with data := 1, runs := 2 }
  let st := HandleStartAffineAnim st
  let st := { st with sprite := { st.sprite with d3 := 0 } }
  let st := HorizontalJumpsVerticalStretch_0 st
  { st with sprite :=
      { st.sprite with callback := Cb.HorizontalJumpsVerticalStretch_0 } }

def Anim_RotateToSides (st : St) : St :=
  let p := AddNewAnim st
  let id := p.1
  let st := { p.2 with sprite := { p.2.sprite with d0 := s16w id } }
  let st := setAnim st id { getAnim st id with rotation := 2 }
  let st := RotateToSides st
  { st with sprite := { st.sprite with callback := Cb.RotateToSides } }

def Anim_RotateToSides_Twice (st : St) : St :=
  let p := AddNewAnim st
  let id := p.1
  let st := { p.2 with sprite := { p.2.sprite with d0 := s16w id } }
  let st := setAnim st id { getAnim st id with rotation := 4, runs := 2 }
  let st := RotateToSides st
  { st with sprite := { st.sprite with callback := Cb.RotateToSides } }

def Anim_SwingConcave (st : St) : St :=
  let p := AddNewAnim st
  let id := p.1
  let st := { p.2 with sprite := { p.2.sprite with d0 := s16w id } }
  let st := setAnim st id { getAnim st id with data := 100 }
  let st := SwingConcave st
  { st with sprite := { st.sprite with callback := Cb.SwingConcave } }

def Anim_SwingConcave_Fast (st : St) : St :=
  let p := AddNewAnim st
  let id := p.1
  let st := { p.2 with sprite := { p.2.sprite with d0 := s16w id } }
  let st := setAnim st id { getAnim st id with data := 50, runs := 2 }
  let st := SwingConcave st
  { st with sprite := { st.sprite with callback := Cb.SwingConcave } }

def Anim_SwingConvex (st : St) : St :=
  let p := AddNewAnim st
  let id := p.1
  let st := { p.2 with sprite := { p.2.sprite with d0 := s16w id } }
  let st := setAnim st id { getAnim st id with data := 100 }
  let st := SwingConvex st
  { st with sprite := { st.sprite with callback := Cb.SwingConvex } }

def Anim_SwingConvex_Fast (st : St) : St :=
  let p := AddNewAnim st
  let id := p.1
  let st := { p.2 with sprite := { p.2.sprite with d0 := s16w id } }
  let st := setAnim st id { getAnim st id with data := 50, runs := 2 }
  let st := SwingConvex st
  { st with sprite := { st.sprite with callback := Cb.SwingConvex } }

def VerticalShakeBack (st : St) : St :=
  let s := st.sprite
  let counter := s.d2
  let s :=
    if counter > 2304 then { s with callback := Cb.WaitAnimEnd, y2 := 0 }
    else { s with y2 := s16w (Sin (cmod (counter + 192) 256) s.d7 + s.d7) }
  { st with sprite := { s with d2 := s16w (s.d2 + s.d0) } }

def Anim_VerticalShakeBack (st : St) : St :=
  let st := { st with sprite := { st.sprite with d0 := 60, d7 := 3 } }
  let st := VerticalShakeBack st
  { st with sprite := { st.sprite with callback := Cb.VerticalShakeBack } }

def Anim_VerticalShakeBack_Slow (st : St) : St :=
  let st := { st with sprite := { st.sprite with d0 := 30, d7 := 3 } }
  let st := VerticalShakeBack st
  { st with sprite := { st.sprite with callback := Cb.VerticalShakeBack } }

def Anim_VerticalShakeHorizontalSlide_Slow (st : St) : St :=
  let s := TryFlipX st.sprite
  let s :=
    if s.d2 > 2048 then { s with callback := Cb.WaitAnimEnd, d6 := 0 }
    else
      let divCase := cmod (cdiv s.d2 512) 4
      let s : Sprite :=
        if divCase = 0 then
          { s with x2 := s16w (cdiv (cmod s.d2 512) 32) }
        else if divCase = 2 then
          { s with x2 := s16w (cdiv (-(cmod s.d2 512 * 16)) 512) }
        else if divCase = 1 then
          { s with x2 := s16w (cdiv (-(cmod s.d2 512 * 16)) 512 + 16) }
        else
          { s with x2 := s16w (cdiv (cmod s.d2 512) 32 - 16) }
      let s := { s with y2 := s16w (Sin (cmod s.d2 128) 4) }
      { s with d2 := s16w (s.d2 + 24) }
  { st with sprite := TryFlipX s }

def VerticalStretchBothEnds (st : St) : St :=
  let s := st.sprite
  if s.d5 > s.d6 then
    let s := { s with y2 := 0, d5 := 0 }
    let s := HandleSetAffineData s 256 256 0
    if s.d4 ≤ 1 then
      let st := ResetSpriteAfterAnim { st with sprite := s }
      { st with sprite := { st.sprite with callback := Cb.WaitAnimEnd } }
    else
      { st with sprite := { s with d4 := s16w (s.d4 - 1), d7 := 0 } }
  else
    let index2 := cdiv (s.d5 * 128) s.d6
    let cmpVal1 := u8w (cdiv s.d6 4)
    let cmpVal2 := u8w (cmpVal1 * 3)
    let si : Sprite × Int :=
      if s.d5 ≥ cmpVal1 ∧ s.d5 < cmpVal2 then
        let s := { s with d7 := s16w (s.d7 + 51) }
        (s, s.d7.emod 256)
      else (s, 0)
    let s := si.1
    let index1 := si.2
    let xScale : Int :=
      if s.d1 = 0 then -256 - Sin index2 16 else 256 + Sin index2 16
    let amplitude := u8w s.d3
    let yScale := 256 - Sin index2 amplitude - Sin index1 (cdiv amplitude 5)
    let s := SetAffineData s xScale yScale 0
    { st with sprite := { s with d5 := s16w (s.d5 + 1) } }

def Anim_VerticalStretchBothEnds_Slow (st : St) : St :=
  let st :=
    if st.sprite.d2 = 0 then
      let st := { st with sprite := { st.sprite with d2 := 1 } }
      let st := HandleStartAffineAnim st
      { st with sprite :=
          { st.sprite with d4 := 1, d6 := 40, d3 := 40, d5 := 0, d7 := 0 } }
    else st
  VerticalStretchBothEnds st

def HorizontalStretchFar (st : St) : St :=
  let s := st.sprite
  if s.d5 > s.d6 then
    let s := { s with d5 := 0 }
    let s := HandleSetAffineData s 256 256 0
    if s.d4 ≤ 1 then
      let st := ResetSpriteAfterAnim { st with sprite := s }
      { st with sprite := { st.sprite with callback := Cb.WaitAnimEnd } }
    else
      { st with sprite := { s with d4 := s16w (s.d4 - 1), d7 := 0 } }
  else
    let index2 := cdiv (s.d5 * 128) s.d6
    let cmpVal1 := u8w (cdiv s.d6 4)
    let cmpVal2 := u8w (cmpVal1 * 3)
    let si : Sprite × Int :=
      if s.d5 ≥ cmpVal1 ∧ s.d5 < cmpVal2 then
        let s := { s with d7 := s16w (s.d7 + 51) }
        (s, s.d7.emod 256)
      else (s, 0)
    let s := si.1
    let index1 := si.2
    let amplitude := u8w s.d3
    let xScale : Int :=
      if s.d1 = 0 then
        -256 + Sin index2 amplitude + Sin index1 (cdiv amplitude 5 * 2)
      else
        256 - Sin index2 amplitude - Sin index1 (cdiv amplitude 5 * 2)
    let s := SetAffineData s xScale 256 0
    { st with sprite := { s with d5 := s16w (s.d5 + 1) } }

def Anim_HorizontalStretchFar_Slow (st : St) : St :=
  let st :=
    if st.sprite.d2 = 0 then
      let st := { st with sprite := { st.sprite with d2 := 1 } }
      let st := HandleStartAffineAnim st
      { st with sprite :=
          { st.sprite with d4 := 1, d6 := 40, d3 := 40, d5 := 0, d7 := 0 } }
    else st
  HorizontalStretchFar st

def VerticalShakeLowTwice (st : St) : St :=
  let s := st.sprite
  let var8 := u8w s.d2
  let var9 := u8w s.d6
  let row := sVerticalShakeData.getD s.d5.toNat (0, 0)
  let var5 := if row.1 ≠ 255 then u8w s.d7 else row.1
  let var6 := row.2
  let var7 := if row.1 ≠ 254 then u8w (cdiv ((var6 - var9) * var5) var6) else 0
  if var5 = 255 then
    { st with sprite := { s with callback := Cb.WaitAnimEnd, y2 := 0 } }
  else
    let s := { s with y2 := s16w (Sin (cmod (var8 + 192) 256) var7 + var7) }
    let s :=
      if var9 = var6 then { s with d5 := s16w (s.d5 + 1), d6 := 0 }
      else { s with d2 := s16w (s.d2 + s.d0), d6 := s16w (s.d6 + 1) }
    { st with sprite := s }

def Anim_VerticalShakeLowTwice (st : St) : St :=
  let st := { st with sprite := { st.sprite with d0 := 40, d7 := 6 } }
  let st := VerticalShakeLowTwice st
  { st with sprite := { st.sprite with callback := Cb.VerticalShakeLowTwice } }

def Anim_HorizontalShake_Fast (st : St) : St :=
  let st := { st with sprite := { st.sprite with d0 := 70, d7 := 6 } }
  let st := HorizontalShake st
  { st with sprite := { st.sprite with callback := Cb.HorizontalShake } }

def Anim_HorizontalSlide_Fast (st : St) : St :=
  let st := { st with sprite := { st.sprite with d0 := 20 } }
  let st := HorizontalSlide st
  { st with sprite := { st.sprite with callback := Cb.HorizontalSlide } }

def Anim_HorizontalVibrate_Fast (st : St) : St :=
  let s := st.sprite
  let s :=
    if s.d2 > 40 then { s with callback := Cb.WaitAnimEnd, x2 := 0 }
    else
      let sign : Int := if s.d2.emod 2 = 0 then 1 else -1
      { s with x2 := s16w (Sin (cmod (cdiv (s.d2 * 128) 40) 256) 9 * sign) }
  { st with sprite := { s with d2 := s16w (s.d2 + 1) } }

def Anim_HorizontalVibrate_Fastest (st : St) : St :=
  let s := st.sprite
  let s :=
    if s.d2 > 40 then { s with callback := Cb.WaitAnimEnd, x2 := 0 }
    else
      let sign : Int := if s.d2.emod 2 = 0 then 1 else -1
      { s with x2 := s16w (Sin (cmod (cdiv (s.d2 * 128) 40) 256) 12 * sign) }
  { st with sprite := { s with d2 := s16w (s.d2 + 1) } }

def Anim_VerticalShakeBack_Fast (st : St) : St :=
  let st := { st with sprite := { st.sprite with d0 := 70, d7 := 6 } }
  let st := VerticalShakeBack st
  { st with sprite := { st.sprite with callback := Cb.VerticalShakeBack } }

def Anim_VerticalShakeLowTwice_Slow (st : St) : St :=
  let st := { st with sprite := { st.sprite with d0 := 24, d7 := 6 } }
  let st := VerticalShakeLowTwice st
  { st with sprite := { st.sprite with callback := Cb.VerticalShakeLowTwice } }

def Anim_VerticalShakeLowTwice_Fast (st : St) : St :=
  let st := { st with sprite := { st.sprite with d0 := 56, d7 := 9 } }
  let st := VerticalShakeLowTwice st
  { st with sprite := { st.sprite with callback := Cb.VerticalShakeLowTwice } }

def Anim_CircleCounterclockwise_Long (st : St) : St :=
  let p := AddNewAnim st
  let id := p.1
  let st := { p.2 with sprite := { p.2.sprite with d0 := s16w id } }
  let st := setAnim st id
    { getAnim st id with rotation := 1024, data := 6, speed := 24 }
  let st := CircleCounterclockwise st
  { st with sprite := { st.sprite with callback := Cb.CircleCounterclockwise } }

def GrowStutter (st : St) : St :=
  let s := st.sprite
  if s.d5 > s.d6 then
    let s := { s with y2 := 0, d5 := 0 }
    let s := HandleSetAffineData s 256 256 0
    if s.d4 ≤ 1 then
      let st := ResetSpriteAfterAnim { st with sprite := s }
      { st with sprite := { st.sprite with callback := Cb.WaitAnimEnd } }
    else
      { st with sprite := { s with d4 := s16w (s.d4 - 1), d7 := 0 } }
  else
    let index2 := cdiv (s.d5 * 128) s.d6
    let cmpVal1 := u8w (cdiv s.d6 4)
    let cmpVal2 := u8w (cmpVal1 * 3)
    let si : Sprite × Int :=
      if s.d5 ≥ cmpVal1 ∧ s.d5 < cmpVal2 then
        let s := { s with d7 := s16w (s.d7 + 51) }
        (s, s.d7.emod 256)
      else (s, 0)
    let s := si.1
    let index1 := si.2
    let amplitude := u8w s.d3
    let xScale : Int :=
      if s.d1 = 0 then
        Sin index2 amplitude + (Sin index1 (cdiv amplitude 5 * 2) - 256)
      else
        256 - Sin index1 (cdiv amplitude 5 * 2) - Sin index2 amplitude
    let yScale := 256 - Sin index1 (cdiv amplitude 5) - Sin index2 amplitude
    let s := SetAffineData s xScale yScale 0
    { st with sprite := { s with d5 := s16w (s.d5 + 1) } }

def Anim_GrowStutter_Slow (st : St) : St :=
  let st :=
    if st.sprite.d2 = 0 then
      let st := { st with sprite := { st.sprite with d2 := 1 } }
      let st := HandleStartAffineAnim st
      { st with sprite :=
          { st.sprite with d4 := 1, d6 := 40, d3 := 40, d5 := 0, d7 := 0 } }
    else st
  GrowStutter st

def Anim_VerticalShakeHorizontalSlide (st : St) : St :=
  let s := TryFlipX st.sprite
  let s :=
    if s.d2 > 2048 then { s with callback := Cb.WaitAnimEnd, d6 := 0 }
    else
      let divCase := cmod (cdiv s.d2 512) 4
      let s : Sprite :=
        if divCase = 0 then
          { s with x2 := s16w (cdiv (cmod s.d2 512) 32) }
        else if divCase = 2 then
          { s with x2 := s16w (cdiv (-(cmod s.d2 512 * 16)) 512) }
        else if divCase = 1 then
          { s with x2 := s16w (cdiv (-(cmod s.d2 512 * 16)) 512 + 16) }
        else
          { s with x2 := s16w (cdiv (cmod s.d2 512) 32 - 16) }
      let s := { s with y2 := s16w (Sin (cmod s.d2 128) 4) }
      { s with d2 := s16w (s.d2 + 48) }
  { st with sprite := TryFlipX s }

def Anim_VerticalShakeHorizontalSlide_Fast (st : St) : St :=
  let s := TryFlipX st.sprite
  let s :=
    if s.d2 > 2048 then { s with callback := Cb.WaitAnimEnd, d6 := 0 }
    else
      let divCase := cmod (cdiv s.d2 512) 4
      let s : Sprite :=
        if divCase = 0 then
          { s with x2 := s16w (cdiv (cmod s.d2 512) 32) }
        else if divCase = 2 then
          { s with x2 := s16w (cdiv (-(cmod s.d2 512 * 16)) 512) }
        else if divCase = 1 then
          { s with x2 := s16w (cdiv (-(cmod s.d2 512 * 16)) 512 + 16) }
        else
          { s with x2 := s16w (cdiv (cmod s.d2 512) 32 - 16) }
      let s := { s with y2 := s16w (Sin (cmod s.d2 96) 4) }
      { s with d2 := s16w (s.d2 + 64) }
  { st with sprite := TryFlipX s }

/-- `sTriangleDownData`: (x delta, y delta, time) rows. -/
def sTriangleDownData : List (Int × Int × Int) :=
  [(1, 1, 12), (-2, 0, 12), (1, -1, 12), (0, 0, 0)]

def triangleAt (i : Int) : Int × Int × Int := sTriangleDownData.getD i.toNat (0, 0, 0)

def TriangleDown (st : St) : St :=
  let s := TryFlipX st.sprite
  let s := if s.d2 = 0 then { s with d3 := 0 } else s
  let s :=
    if cdiv (triangleAt s.d3).2.2 s.d5 = s.d2 then
      { s with d3 := s16w (s.d3 + 1), d2 := 0 }
    else s
  if cdiv (triangleAt s.d3).2.2 s.d5 = 0 then
    let s := { s with d6 := s16w (s.d6 - 1) }
    if s.d6 = 0 then
      { st with sprite := { s with callback := Cb.WaitAnimEnd } }
    else
      { st with sprite := { s with d2 := 0 } }
  else
    let amplitude := s.d5
    let s := { s with x2 := s16w (s.x2 + (triangleAt s.d3).1 * amplitude),
                      y2 := s16w (s.y2 + (triangleAt s.d3).2.1 * s.d5),
                      d2 := s16w (s.d2 + 1) }
    { st with sprite := TryFlipX s }

def Anim_TriangleDown_Slow (st : St) : St :=
  let st := { st with sprite := { st.sprite with d5 := 1, d6 := 1 } }
  let st := TriangleDown st
  { st with sprite := { st.sprite with callback := Cb.TriangleDown } }

def Anim_TriangleDown (st : St) : St :=
  let st := { st with sprite := { st.sprite with d5 := 2, d6 := 1 } }
  let st := TriangleDown st
  { st with sprite := { st.sprite with callback := Cb.TriangleDown } }

def Anim_TriangleDown_Fast (st : St) : St :=
  let st := { st with sprite := { st.sprite with d5 := 2, d6 := 2 } }
  let st := TriangleDown st
  { st with sprite := { st.sprite with callback := Cb.TriangleDown } }

def Grow (st : St) : St :=
  let s := st.sprite
  if s.d7 > 255 then
    if s.d5 ≤ 1 then
      let st := ResetSpriteAfterAnim { st with sprite := s }
      let s := { st.sprite with callback := Cb.WaitAnimEnd }
      { st with sprite := HandleSetAffineData s 256 256 0 }
    else
      { st with sprite := { s with d5 := s16w (s.d5 - 1), d7 := 0 } }
  else
    let s := { s with d7 := s16w (s.d7 + s.d6) }
    let s := if s.d7 > 256 then { s with d7 := 256 } else s
    let scale := Sin (cdiv s.d7 2) 64
    { st with sprite := HandleSetAffineData s (256 - scale) (256 - scale) 0 }

def Anim_Grow (st : St) : St :=
  let st := { st with sprite := TryFlipX st.sprite }
  let st :=
    if st.sprite.d2 = 0 then
      let st := HandleStartAffineAnim st
      { st with sprite :=
          { st.sprite with d2 := s16w (st.sprite.d2 + 1), d7 := 0, d6 := 4, d5 := 1 } }
    else st
  let st := Grow st
  { st with sprite := TryFlipX st.sprite }

def Anim_Grow_Twice (st : St) : St :=
  let st := { st with sprite := TryFlipX st.sprite }
  let st :=
    if st.sprite.d2 = 0 then
      let st := HandleStartAffineAnim st
      { st with sprite :=
          { st.sprite with d2 := s16w (st.sprite.d2 + 1), d7 := 0, d6 := 8, d5 := 2 } }
    else st
  let st := Grow st
  { st with sprite := TryFlipX st.sprite }

def Anim_HorizontalSpring_Fast (st : St) : St :=
  let st :=
    if st.sprite.d2 = 0 then
      let st := HandleStartAffineAnim st
      { st with sprite :=
          { st.sprite with d2 := s16w (st.sprite.d2 + 1),
                           d7 := 0, d6 := 8, d5 := 512, d4 := 16 } }
    else st
  HorizontalSpring st

def Anim_HorizontalSpring_Slow (st : St) : St :=
  let st :=
    if st.sprite.d2 = 0 then
      let st := HandleStartAffineAnim st
      { st with sprite :=
          { st.sprite with d2 := s16w (st.sprite.d2 + 1),
                           d7 := 0, d6 := 4, d5 := 256, d4 := 16 } }
    else st
  HorizontalSpring st

def Anim_HorizontalRepeatedSpring_Fast (st : St) : St :=
  let st :=
    if st.sprite.d2 = 0 then
      let st := HandleStartAffineAnim st
      { st with sprite :=
          { st.sprite with d2 := s16w (st.sprite.d2 + 1),
                           d7 := 0, d6 := 8, d5 := 512, d4 := 16 } }
    else st
  HorizontalRepeatedSpring st

def Anim_HorizontalRepeatedSpring (st : St) : St :=
  let st :=
    if st.sprite.d2 = 0 then
      let st := HandleStartAffineAnim st
      { st with sprite :=
          { st.sprite with d2 := s16w (st.sprite.d2 + 1),
                           d7 := 0, d6 := 8, d5 := 512, d4 := 8 } }
    else st
  HorizontalRepeatedSpring st

def Anim_ShrinkGrow_Fast (st : St) : St :=
  let st :=
    if st.sprite.d2 = 0 then
      let st := HandleStartAffineAnim st
      { st with sprite := { st.sprite with d7 := 5, d6 := 8 } }
    else st
  ShrinkGrow st

def Anim_ShrinkGrow_Slow (st : St) : St :=
  let st :=
    if st.sprite.d2 = 0 then
      let st := HandleStartAffineAnim st
      { st with sprite := { st.sprite with d7 := 3, d6 := 4 } }
    else st
  ShrinkGrow st

def Anim_VerticalStretchBothEnds (st : St) : St :=
  let st :=
    if st.sprite.d2 = 0 then
      let st := { st with sprite := { st.sprite with d2 := 1 } }
      let st := HandleStartAffineAnim st
      { st with sprite :=
          { st.sprite with d4 := 1, d6 := 30, d3 := 60, d7 := 0 } }
    else st
  VerticalStretchBothEnds st

def Anim_VerticalStretchBothEnds_Twice (st : St) : St :=
  let st :=
    if st.sprite.d2 = 0 then
      let st := { st with sprite := { st.sprite with d2 := 1 } }
      let st := HandleStartAffineAnim st
      { st with sprite :=
          { st.sprite with d4 := 2, d6 := 20, d3 := 70, d7 := 0 } }
    else st
  VerticalStretchBothEnds st

def Anim_HorizontalStretchFar_Twice (st : St) : St :=
  let st :=
    if st.sprite.d2 = 0 then
      let st := { st with sprite := { st.sprite with d2 := 1 } }
      let st := HandleStartAffineAnim st
      { st with sprite :=
          { st.sprite with d4 := 2, d6 := 20, d3 := 70, d5 := 0, d7 := 0 } }
    else st
  HorizontalStretchFar st

def Anim_HorizontalStretchFar (st : St) : St :=
  let st :=
    if st.sprite.d2 = 0 then
      let st := { st with sprite := { st.sprite with d2 := 1 } }
      let st := HandleStartAffineAnim st
      { st with sprite :=
          { st.sprite with d4 := 1, d6 := 30, d3 := 60, d5 := 0, d7 := 0 } }
    else st
  HorizontalStretchFar st

def Anim_GrowStutter_Twice (st : St) : St :=
  let st :=
    if st.sprite.d2 = 0 then
      let st := { st with sprite := { st.sprite with d2 := 1 } }
      let st := HandleStartAffineAnim st
      { st with sprite :=
          { st.sprite with d4 := 2, d6 := 20, d3 := 70, d5 := 0, d7 := 0 } }
    else st
  GrowStutter st

def Anim_GrowStutter (st : St) : St :=
  let st :=
    if st.sprite.d2 = 0 then
      let st := { st with sprite := { st.sprite with d2 := 1 } }
      let st := HandleStartAffineAnim st
      { st with sprite :=
          { st.sprite with d4 := 1, d6 := 30, d3 := 60, d5 := 0, d7 := 0 } }
    else st
  GrowStutter st

def ConcaveArc (st : St) : St :=
  let s := st.sprite
  if s.d7 > 255 then
    if s.d6 ≤ 1 then
      { st with sprite := { s with callback := Cb.WaitAnimEnd, x2 := 0, y2 := 0 } }
    else
      { st with sprite := { s with d7 := cmod s.d7 256, d6 := s16w (s.d6 - 1) } }
  else
    let s := { s with x2 := s16w (-(Sin s.d7 s.d5)) }
    let y := Sin (cmod (s.d7 + 192) 256) s.d4
    let y := if y > 0 then -y else y
    let s := { s with y2 := s16w (y + s.d4) }
    { st with sprite := { s with d7 := s16w (s.d7 + s.d3) } }

def Anim_ConcaveArcLarge_Slow (st : St) : St :=
  let st :=
    if st.sprite.d2 = 0 then
      { st with sprite :=
          { st.sprite with d2 := 1, d6 := 1, d7 := 0, d5 := 12, d4 := 12, d3 := 4 } }
    else st
  ConcaveArc st

def Anim_ConcaveArcLarge (st : St) : St :=
  let st :=
    if st.sprite.d2 = 0 then
      { st with sprite :=
          { st.sprite with d2 := 1, d6 := 1, d7 := 0, d5 := 12, d4 := 12, d3 := 6 } }
    else st
  ConcaveArc st

def Anim_ConcaveArcLarge_Twice (st : St) : St :=
  let st :=
    if st.sprite.d2 = 0 then
      { st with sprite :=
          { st.sprite with d2 := 1, d6 := 2, d7 := 0, d5 := 12, d4 := 12, d3 := 8 } }
    else st
  ConcaveArc st

def ConvexDoubleArc (st : St) : St :=
  let s := st.sprite
  if s.d7 > 256 then
    let s :=
      if s.d6 ≤ s.d4 then { s with callback := Cb.WaitAnimEnd }
      else { s with d4 := s16w (s.d4 + 1), d7 := 0 }
    { st with sprite := { s with x2 := 0, y2 := 0 } }
  else
    let s : Sprite :=
      if s.d7 > 159 then
        let s := if s.d7 > 256 then { s with d7 := 256 } else s
        { s with y2 := s16w (-(Sin (cmod s.d7 256) 8)) }
      else if s.d7 > 95 then
        { s with y2 := s16w (Sin 96 6 - Sin ((s.d7 - 96) * 2) 4) }
      else
        { s with y2 := s16w (Sin s.d7 6) }
    let posX := -(Sin (cdiv s.d7 2) s.d5)
    let posX := if cmod s.d4 2 = 0 then -posX else posX
    let s := { s with x2 := s16w posX }
    { st with sprite := { s with d7 := s16w (s.d7 + s.d3) } }

def Anim_ConvexDoubleArc_Slow (st : St) : St :=
  let st :=
    if st.sprite.d2 = 0 then
      { st with sprite :=
          { st.sprite with d2 := 1, d6 := 2, d7 := 0, d5 := 16, d4 := 1, d3 := 4 } }
    else st
  ConvexDoubleArc st

def Anim_ConvexDoubleArc (st : St) : St :=
  let st :=
    if st.sprite.d2 = 0 then
      { st with sprite :=
          { st.sprite with d2 := 1, d6 := 2, d7 := 0, d5 := 16, d4 := 1, d3 := 6 } }
    else st
  ConvexDoubleArc st

def Anim_ConvexDoubleArc_Twice (st : St) : St :=
  let st :=
    if st.sprite.d2 = 0 then
      { st with sprite :=
          { st.sprite with d2 := 1, d6 := 3, d7 := 0, d5 := 16, d4 := 1, d3 := 8 } }
    else st
  ConvexDoubleArc st

def Anim_ConcaveArcSmall_Slow (st : St) : St :=
  let st :=
    if st.sprite.d2 = 0 then
      { st with sprite :=
          { st.sprite with d2 := 1, d6 := 1, d7 := 0, d5 := 4, d4 := 6, d3 := 4 } }
    else st
  ConcaveArc st

def Anim_ConcaveArcSmall (st : St) : St :=
  let st :=
    if st.sprite.d2 = 0 then
      { st with sprite :=
          { st.sprite with d2 := 1, d6 := 1, d7 := 0, d5 := 4, d4 := 6, d3 := 6 } }
    else st
  ConcaveArc st

def Anim_ConcaveArcSmall_Twice (st : St) : St :=
  let st :=
    if st.sprite.d2 = 0 then
      { st with sprite :=
          { st.sprite with d2 := 1, d6 := 2, d7 := 0, d5 := 4, d4 := 6, d3 := 8 } }
    else st
  ConcaveArc st

def SetHorizontalDip (s : Sprite) : Sprite :=
  let index := u16w (Sin (cdiv (s.d2 * 128) s.d7) s.d5)
  let s := { s with d6 := s16w (-(index * 256)) }
  let s := SetPosForRotation s index s.d4 0
  HandleSetAffineData s 256 256 s.d6

def Anim_HorizontalDip (st : St) : St :=
  let st :=
    if st.sprite.d2 = 0 then
      let st := HandleStartAffineAnim st
      { st with sprite :=
          { st.sprite with d7 := 60, d5 := 8, d4 := -32, d3 := 1, d0 := 0 } }
    else st
  if st.sprite.d2 > st.sprite.d7 then
    let s := HandleSetAffineData st.sprite 256 256 0
    let s := { s with x2 := 0, y2 := 0, d0 := s16w (s.d0 + 1) }
    if s.d3 ≤ s.d0 then
      let st := ResetSpriteAfterAnim { st with sprite := s }
      { st with sprite := { st.sprite with callback := Cb.WaitAnimEnd } }
    else
      { st with sprite := { s with d2 := s16w (0 + 1) } }
  else
    let s := SetHorizontalDip st.sprite
    { st with sprite := { s with d2 := s16w (s.d2 + 1) } }

def Anim_HorizontalDip_Fast (st : St) : St :=
  let st :=
    if st.sprite.d2 = 0 then
      let st := HandleStartAffineAnim st
      { st with sprite :=
          { st.sprite with d7 := 90, d5 := 8, d4 := -32, d3 := 1, d0 := 0 } }
    else st
  if st.sprite.d2 > st.sprite.d7 then
    let s := HandleSetAffineData st.sprite 256 256 0
    let s := { s with x2 := 0, y2 := 0, d0 := s16w (s.d0 + 1) }
    if s.d3 ≤ s.d0 then
      let st := ResetSpriteAfterAnim { st with sprite := s }
      { st with sprite := { st.sprite with callback := Cb.WaitAnimEnd } }
    else
      { st with sprite := { s with d2 := s16w (0 + 1) } }
  else
    let s := SetHorizontalDip st.sprite
    { st with sprite := { s with d2 := s16w (s.d2 + 1) } }

def Anim_HorizontalDip_Twice (st : St) : St :=
  let st :=
    if st.sprite.d2 = 0 then
      let st := HandleStartAffineAnim st
      { st with sprite :=
          { st.sprite with d7 := 30, d5 := 8, d4 := -32, d3 := 2, d0 := 0 } }
    else st
  if st.sprite.d2 > st.sprite.d7 then
    let s := HandleSetAffineData st.sprite 256 256 0
    let s := { s with x2 := 0, y2 := 0, d0 := s16w (s.d0 + 1) }
    if s.d3 ≤ s.d0 then
      let st := ResetSpriteAfterAnim { st with sprite := s }
      { st with sprite := { st.sprite with callback := Cb.WaitAnimEnd } }
    else
      { st with sprite := { s with d2 := s16w (0 + 1) } }
  else
    let s := SetHorizontalDip st.sprite
    { st with sprite := { s with d2 := s16w (s.d2 + 1) } }

def ShrinkGrowVibrate (st : St) : St :=
  let s := st.sprite
  if s.d2 > s.d7 then
    let s := { s with y2 := 0 }
    let s := HandleSetAffineData s 256 256 0
    let st := ResetSpriteAfterAnim { st with sprite := s }
    { st with sprite := { st.sprite with callback := Cb.WaitAnimEnd } }
  else
    let index := s16w (cmod (cdiv (u16w (cmod s.d2 s.d6 * 256)) s.d6) 256)
    let sp : Sprite × Int :=
      if cmod s.d2 2 = 0 then
        ({ s with d4 := s16w (Sin index 32 + 256), d5 := s16w (Sin index 32 + 256) },
         u8w (Sin index 32))
      else
        ({ s with d4 := s16w (Sin index 8 + 256), d5 := s16w (Sin index 8 + 256) },
         u8w (Sin index 8))
    let s := sp.1
    let posY := s8w sp.2
    let posY := if posY < 0 then posY + 7 else posY
    let s := { s with y2 := s16w (cdiv (u32w posY) 8) }
    let s := HandleSetAffineData s s.d4 s.d5 0
    { st with sprite := { s with d2 := s16w (s.d2 + 1) } }

def Anim_ShrinkGrowVibrate_Fast (st : St) : St :=
  let st :=
    if st.sprite.d2 = 0 then
      let st := HandleStartAffineAnim st
      { st with sprite :=
          { st.sprite with y2 := s16w (st.sprite.y2 + 2), d6 := 40, d7 := 80 } }
    else st
  ShrinkGrowVibrate st

def Anim_ShrinkGrowVibrate (st : St) : St :=
  let st :=
    if st.sprite.d2 = 0 then
      let st := HandleStartAffineAnim st
      { st with sprite :=
          { st.sprite with y2 := s16w (st.sprite.y2 + 2), d6 := 40, d7 := 40 } }
    else st
  ShrinkGrowVibrate st

def Anim_ShrinkGrowVibrate_Slow (st : St) : St :=
  let st :=
    if st.sprite.d2 = 0 then
      let st := HandleStartAffineAnim st
      { st with sprite :=
          { st.sprite with y2 := s16w (st.sprite.y2 + 2), d6 := 80, d7 := 80 } }
    else st
  ShrinkGrowVibrate st

def JoltRight (st : St) : St :=
  let s := TryFlipX st.sprite
  let s := { s with x2 := s16w (s.x2 - s.d2) }
  let s :=
    if s.x2 ≤ -s.d6 then
      { s with x2 := s16w (-s.d6), d7 := 2, callback := Cb.JoltRight_0 }
    else s
  { st with sprite := TryFlipX s }

def JoltRight_0 (st : St) : St :=
  let s := TryFlipX st.sprite
  let s := { s with x2 := s16w (s.x2 + s.d7), d7 := s16w (s.d7 + 1) }
  let s := if s.x2 ≥ 0 then { s with callback := Cb.JoltRight_1 } else s
  { st with sprite := TryFlipX s }

def JoltRight_1 (st : St) : St :=
  let s := TryFlipX st.sprite
  let s := { s with x2 := s16w (s.x2 + s.d7), d7 := s16w (s.d7 + 1) }
  let s :=
    if s.x2 > s.d6 then { s with x2 := s.d6, callback := Cb.JoltRight_2 }
    else s
  { st with sprite := TryFlipX s }

def JoltRight_2 (st : St) : St :=
  let s := TryFlipX st.sprite
  let s :=
    if s.d3 ≥ s.d5 then { s with callback := Cb.JoltRight_3 }
    else
      { s with x2 := s16w (s.x2 + s.d4), d4 := s16w (-s.d4),
               d3 := s16w (s.d3 + 1) }
  { st with sprite := TryFlipX s }

def JoltRight_3 (st : St) : St :=
  let s := TryFlipX st.sprite
  let s := { s with x2 := s16w (s.x2 - 2) }
  if s.x2 ≤ 0 then
    let s := { s with x2 := 0 }
    let st := ResetSpriteAfterAnim { st with sprite := s }
    { st with sprite :=
        TryFlipX { st.sprite with callback := Cb.WaitAnimEnd } }
  else
    { st with sprite := TryFlipX s }

def Anim_JoltRight_Fast (st : St) : St :=
  let st := HandleStartAffineAnim st
  { st with sprite :=
      { st.sprite with d7 := 4, d6 := 12, d5 := 16, d4 := 4, d3 := 0, d2 := 2,
                       callback := Cb.JoltRight } }

def Anim_JoltRight (st : St) : St :=
  let st := HandleStartAffineAnim st
  { st with sprite :=
      { st.sprite with d7 := 2, d6 := 8, d5 := 12, d4 := 2, d3 := 0, d2 := 1,
                       callback := Cb.JoltRight } }

def Anim_JoltRight_Slow (st : St) : St :=
  let st := HandleStartAffineAnim st
  { st with sprite :=
      { st.sprite with d7 := 0, d6 := 6, d5 := 6, d4 := 2, d3 := 0, d2 := 1,
                       callback := Cb.JoltRight } }

def SetShakeFlashYellowPos (s : Sprite) : Sprite :=
  let s := { s with x2 := s.d1 }
  if s.d0 > 1 then { s with d1 := s16w (-s.d1), d0 := 0 }
  else { s with d0 := s16w (s.d0 + 1) }

/-- `sShakeYellowFlashData_Fast` (`(u8)-1` read as 255). -/
def sShakeYellowFlashData_Fast : List (Int × Int) :=
  [(0, 1), (1, 2), (0, 15), (1, 1), (0, 15), (1, 1), (0, 15), (1, 1),
   (0, 1), (1, 1), (0, 1), (1, 1), (0, 1), (1, 1), (0, 1), (1, 1),
   (0, 1), (1, 1), (0, 1), (0, 255)]

def sShakeYellowFlashData_Normal : List (Int × Int) :=
  [(0, 5), (1, 1), (0, 15), (1, 4), (0, 2), (1, 2), (0, 2),
   (1, 2), (0, 2), (1, 2), (0, 2), (1, 2), (0, 2), (0, 255)]

def sShakeYellowFlashData_Slow : List (Int × Int) :=
  [(0, 1), (1, 1), (0, 20), (1, 1), (0, 20), (1, 1), (0, 20), (1, 1),
   (0, 1), (0, 255)]

def sShakeYellowFlashData : List (List (Int × Int)) :=
  [sShakeYellowFlashData_Fast, sShakeYellowFlashData_Normal, sShakeYellowFlashData_Slow]

def ShakeFlashYellow (st : St) : St :=
  let arr := sShakeYellowFlashData.getD st.sprite.d3.toNat []
  let s := SetShakeFlashYellowPos st.sprite
  if (arr.getD s.d6.toNat (0, 0)).2 = 255 then
    { st with sprite := { s with x2 := 0, callback := Cb.WaitAnimEnd } }
  else
    let s := if s.d4 = 1 then { s with d4 := 0 } else s
    let s :=
      if (arr.getD s.d6.toNat (0, 0)).2 = s.d5 then
        { s with d4 := 1, d5 := 0, d6 := s16w (s.d6 + 1) }
      else { s with d5 := s16w (s.d5 + 1) }
    { st with sprite := s }

/-- Shared body of the three `Anim_ShakeFlashYellow*` entries (they differ
only in the table selector stored in register 3). -/
def ShakeFlashYellowVariant (tableId : Int) (st : St) : St :=
  let s := { st.sprite with d2 := s16w (st.sprite.d2 + 1) }
  let s :=
    if s.d2 = 1 then
      { s with d7 := s16w (s.paletteNum * 16 + 256), d6 := 0, d5 := 0, d4 := 0,
               d3 := tableId }
    else s
  ShakeFlashYellow { st with sprite := s }

def Anim_ShakeFlashYellow_Fast (st : St) : St := ShakeFlashYellowVariant 0 st

def Anim_ShakeFlashYellow (st : St) : St := ShakeFlashYellowVariant 1 st

def Anim_ShakeFlashYellow_Slow (st : St) : St := ShakeFlashYellowVariant 2 st

def ShakeGlow_Blend (st : St) : St :=
  let s := st.sprite
  if s.d2 > 127 then
    { st with sprite := { s with callback := Cb.WaitAnimEnd } }
  else
    { st with sprite := { s with d6 := s16w (Sin s.d2 12) } }

def ShakeGlow_Move (st : St) : St :=
  let s := st.sprite
  if s.d3 < s.d4 then
    let s := TryFlipX s
    let s :=
      if s.d5 > s.d0 then
        let s := { s with d3 := s16w (s.d3 + 1) }
        let s := if s.d3 < s.d4 then { s with d5 := 0 } else s
        { s with x2 := 0 }
      else
        let sign : Int := 1 - cmod s.d3 2 * 2
        let s := { s with x2 := s16w (sign * Sin (cmod (cdiv (s.d5 * 384) s.d0) 256) 6) }
        { s with d5 := s16w (s.d5 + 1) }
    { st with sprite := TryFlipX s }
  else st

/-- Shared body of the twelve `Anim_ShakeGlow*` entries (they differ only
in the duration, repeat count and blend color stored into the registers). -/
def ShakeGlowVariant (dur reps colorId : Int) (st : St) : St :=
  let st :=
    if st.sprite.d2 = 0 then
      { st with sprite :=
          { st.sprite with d7 := s16w (st.sprite.paletteNum * 16 + 256),
                           d0 := dur, d5 := 0, d4 := reps, d3 := 0, d1 := colorId } }
    else st
  let st := if cmod st.sprite.d2 2 = 0 then ShakeGlow_Blend st else st
  let st :=
    if st.sprite.d2 ≥ cdiv (128 - st.sprite.d0 * st.sprite.d4) 2 then
      ShakeGlow_Move st
    else st
  { st with sprite := { st.sprite with d2 := s16w (st.sprite.d2 + 1) } }

def Anim_ShakeGlowRed_Fast (st : St) : St := ShakeGlowVariant 10 2 0 st

def Anim_ShakeGlowRed (st : St) : St := ShakeGlowVariant 20 1 0 st

def Anim_ShakeGlowRed_Slow (st : St) : St := ShakeGlowVariant 80 1 0 st

def Anim_ShakeGlowGreen_Fast (st : St) : St := ShakeGlowVariant 10 2 1 st

def Anim_ShakeGlowGreen (st : St) : St := ShakeGlowVariant 20 1 1 st

def Anim_ShakeGlowGreen_Slow (st : St) : St := ShakeGlowVariant 80 1 1 st

def Anim_ShakeGlowBlue_Fast (st : St) : St := ShakeGlowVariant 10 2 2 st

def Anim_ShakeGlowBlue (st : St) : St := ShakeGlowVariant 20 1 2 st

def Anim_ShakeGlowBlue_Slow (st : St) : St := ShakeGlowVariant 80 1 2 st

def Anim_ShakeGlowBlack_Slow (st : St) : St := ShakeGlowVariant 80 1 3 st

def Anim_ShakeGlowWhite_Slow (st : St) : St := ShakeGlowVariant 80 1 4 st

def Anim_ShakeGlowPurple_Slow (st : St) : St := ShakeGlowVariant 80 1 5 st

def Anim_HorizontalJumpsVerticalStretch (st : St) : St :=
  let p := AddNewAnim st
  let id := p.1
  let st := { p.2 with sprite := { p.2.sprite with d0 := s16w id } }
  let st := setAnim st id { getAnim st id with data := -1 }
  let st := HandleStartAffineAnim st
  let st := { st with sprite := { st.sprite with d3 := 0 } }
  let st := HorizontalJumpsVerticalStretch_0 st
  { st with sprite :=
      { st.sprite with callback := Cb.HorizontalJumpsVerticalStretch_0 } }

/-- The per-frame dispatcher: execute the installed callback once (the
host frame driver invoking `sprite->callback(sprite)`).  The two external
dummy callbacks do nothing. -/
def stepCb : Cb → St → St
  | .Anim_VerticalSquishBounce => Anim_VerticalSquishBounce
  | .Anim_CircularStretchTwice => Anim_CircularStretchTwice
  | .Anim_HorizontalVibrate => Anim_HorizontalVibrate
  | .Anim_HorizontalSlide => Anim_HorizontalSlide
  | .Anim_VerticalSlide => Anim_VerticalSlide
  | .Anim_BounceRotateToSides => Anim_BounceRotateToSides
  | .Anim_VerticalJumpsHorizontalJumps => Anim_VerticalJumpsHorizontalJumps
  | .Anim_RotateToSides => Anim_RotateToSides
  | .Anim_RotateToSides_Twice => Anim_RotateToSides_Twice
  | .Anim_GrowVibrate => Anim_GrowVibrate
  | .Anim_ZigzagFast => Anim_ZigzagFast
  | .Anim_SwingConcave => Anim_SwingConcave
  | .Anim_SwingConcave_Fast => Anim_SwingConcave_Fast
  | .Anim_SwingConvex => Anim_SwingConvex
  | .Anim_SwingConvex_Fast => Anim_SwingConvex_Fast
  | .Anim_HorizontalShake => Anim_HorizontalShake
  | .Anim_VerticalShake => Anim_VerticalShake
  | .Anim_CircularVibrate => Anim_CircularVibrate
  | .Anim_Twist => Anim_Twist
  | .Anim_ShrinkGrow => Anim_ShrinkGrow
  | .Anim_CircleCounterclockwise => Anim_CircleCounterclockwise
  | .Anim_GlowBlack => Anim_GlowBlack
  | .Anim_HorizontalStretch => Anim_HorizontalStretch
  | .Anim_VerticalStretch => Anim_VerticalStretch
  | .Anim_RisingWobble => Anim_RisingWobble
  | .Anim_VerticalShakeTwice => Anim_VerticalShakeTwice
  | .Anim_TipMoveForward => Anim_TipMoveForward
  | .Anim_HorizontalPivot => Anim_HorizontalPivot
  | .Anim_VerticalSlideWobble => Anim_VerticalSlideWobble
  | .Anim_HorizontalSlideWobble => Anim_HorizontalSlideWobble
  | .Anim_VerticalJumps_Big => Anim_VerticalJumps_Big
  | .Anim_Spin_Long => Anim_Spin_Long
  | .Anim_GlowOrange => Anim_GlowOrange
  | .Anim_GlowRed => Anim_GlowRed
  | .Anim_GlowBlue => Anim_GlowBlue
  | .Anim_GlowYellow => Anim_GlowYellow
  | .Anim_GlowPurple => Anim_GlowPurple
  | .Anim_BackAndLunge => Anim_BackAndLunge
  | .Anim_BackFlip => Anim_BackFlip
  | .Anim_Flicker => Anim_Flicker
  | .Anim_BackFlipBig => Anim_BackFlipBig
  | .Anim_FrontFlip => Anim_FrontFlip
  | .Anim_TumblingFrontFlip => Anim_TumblingFrontFlip
  | .Anim_Figure8 => Anim_Figure8
  | .Anim_FlashYellow => Anim_FlashYellow
  | .Anim_SwingConcave_FastShort => Anim_SwingConcave_FastShort
  | .Anim_SwingConvex_FastShort => Anim_SwingConvex_FastShort
  | .Anim_RotateUpSlamDown => Anim_RotateUpSlamDown
  | .Anim_DeepVerticalSquishBounce => Anim_DeepVerticalSquishBounce
  | .Anim_HorizontalJumps => Anim_HorizontalJumps
  | .Anim_HorizontalJumpsVerticalStretch => Anim_HorizontalJumpsVerticalStretch
  | .Anim_RotateToSides_Fast => Anim_RotateToSides_Fast
  | .Anim_RotateUpToSides => Anim_RotateUpToSides
  | .Anim_FlickerIncreasing => Anim_FlickerIncreasing
  | .Anim_TipHopForward => Anim_TipHopForward
  | .Anim_PivotShake => Anim_PivotShake
  | .Anim_TipAndShake => Anim_TipAndShake
  | .Anim_VibrateToCorners => Anim_VibrateToCorners
  | .Anim_GrowInStages => Anim_GrowInStages
  | .Anim_VerticalSpring => Anim_VerticalSpring
  | .Anim_VerticalRepeatedSpring => Anim_VerticalRepeatedSpring
  | .Anim_SpringRising => Anim_SpringRising
  | .Anim_HorizontalSpring => Anim_HorizontalSpring
  | .Anim_HorizontalRepeatedSpring_Slow => Anim_HorizontalRepeatedSpring_Slow
  | .Anim_HorizontalSlideShrink => Anim_HorizontalSlideShrink
  | .Anim_LungeGrow => Anim_LungeGrow
  | .Anim_CircleIntoBackground => Anim_CircleIntoBackground
  | .Anim_RapidHorizontalHops => Anim_RapidHorizontalHops
  | .Anim_FourPetal => Anim_FourPetal
  | .Anim_VerticalSquishBounce_Slow => Anim_VerticalSquishBounce_Slow
  | .Anim_HorizontalSlide_Slow => Anim_HorizontalSlide_Slow
  | .Anim_VerticalSlide_Slow => Anim_VerticalSlide_Slow
  | .Anim_BounceRotateToSides_Small => Anim_BounceRotateToSides_Small
  | .Anim_BounceRotateToSides_Slow => Anim_BounceRotateToSides_Slow
  | .Anim_BounceRotateToSides_SmallSlow => Anim_BounceRotateToSides_SmallSlow
  | .Anim_ZigzagSlow => Anim_ZigzagSlow
  | .Anim_HorizontalShake_Slow => Anim_HorizontalShake_Slow
  | .Anim_VertialShake_Slow => Anim_VertialShake_Slow
  | .Anim_Twist_Twice => Anim_Twist_Twice
  | .Anim_CircleCounterclockwise_Slow => Anim_CircleCounterclockwise_Slow
  | .Anim_VerticalShakeTwice_Slow => Anim_VerticalShakeTwice_Slow
  | .Anim_VerticalSlideWobble_Small => Anim_VerticalSlideWobble_Small
  | .Anim_VerticalJumps_Small => Anim_VerticalJumps_Small
  | .Anim_Spin => Anim_Spin
  | .Anim_TumblingFrontFlip_Twice => Anim_TumblingFrontFlip_Twice
  | .Anim_DeepVerticalSquishBounce_Twice => Anim_DeepVerticalSquishBounce_Twice
  | .Anim_HorizontalJumpsVerticalStretch_Twice => Anim_HorizontalJumpsVerticalStretch_Twice
  | .Anim_VerticalShakeBack => Anim_VerticalShakeBack
  | .Anim_VerticalShakeBack_Slow => Anim_VerticalShakeBack_Slow
  | .Anim_VerticalShakeHorizontalSlide_Slow => Anim_VerticalShakeHorizontalSlide_Slow
  | .Anim_VerticalStretchBothEnds_Slow => Anim_VerticalStretchBothEnds_Slow
  | .Anim_HorizontalStretchFar_Slow => Anim_HorizontalStretchFar_Slow
  | .Anim_VerticalShakeLowTwice => Anim_VerticalShakeLowTwice
  | .Anim_HorizontalShake_Fast => Anim_HorizontalShake_Fast
  | .Anim_HorizontalSlide_Fast => Anim_HorizontalSlide_Fast
  | .Anim_HorizontalVibrate_Fast => Anim_HorizontalVibrate_Fast
  | .Anim_HorizontalVibrate_Fastest => Anim_HorizontalVibrate_Fastest
  | .Anim_VerticalShakeBack_Fast => Anim_VerticalShakeBack_Fast
  | .Anim_VerticalShakeLowTwice_Slow => Anim_VerticalShakeLowTwice_Slow
  | .Anim_VerticalShakeLowTwice_Fast => Anim_VerticalShakeLowTwice_Fast
  | .Anim_CircleCounterclockwise_Long => Anim_CircleCounterclockwise_Long
  | .Anim_GrowStutter_Slow => Anim_GrowStutter_Slow
  | .Anim_VerticalShakeHorizontalSlide => Anim_VerticalShakeHorizontalSlide
  | .Anim_VerticalShakeHorizontalSlide_Fast => Anim_VerticalShakeHorizontalSlide_Fast
  | .Anim_TriangleDown_Slow => Anim_TriangleDown_Slow
  | .Anim_TriangleDown => Anim_TriangleDown
  | .Anim_TriangleDown_Fast => Anim_TriangleDown_Fast
  | .Anim_Grow => Anim_Grow
  | .Anim_Grow_Twice => Anim_Grow_Twice
  | .Anim_HorizontalSpring_Fast => Anim_HorizontalSpring_Fast
  | .Anim_HorizontalSpring_Slow => Anim_HorizontalSpring_Slow
  | .Anim_HorizontalRepeatedSpring_Fast => Anim_HorizontalRepeatedSpring_Fast
  | .Anim_HorizontalRepeatedSpring => Anim_HorizontalRepeatedSpring
  | .Anim_ShrinkGrow_Fast => Anim_ShrinkGrow_Fast
  | .Anim_ShrinkGrow_Slow => Anim_ShrinkGrow_Slow
  | .Anim_VerticalStretchBothEnds => Anim_VerticalStretchBothEnds
  | .Anim_VerticalStretchBothEnds_Twice => Anim_VerticalStretchBothEnds_Twice
  | .Anim_HorizontalStretchFar_Twice => Anim_HorizontalStretchFar_Twice
  | .Anim_HorizontalStretchFar => Anim_HorizontalStretchFar
  | .Anim_GrowStutter_Twice => Anim_GrowStutter_Twice
  | .Anim_GrowStutter => Anim_GrowStutter
  | .Anim_ConcaveArcLarge_Slow => Anim_ConcaveArcLarge_Slow
  | .Anim_ConcaveArcLarge => Anim_ConcaveArcLarge
  | .Anim_ConcaveArcLarge_Twice => Anim_ConcaveArcLarge_Twice
  | .Anim_ConvexDoubleArc_Slow => Anim_ConvexDoubleArc_Slow
  | .Anim_ConvexDoubleArc => Anim_ConvexDoubleArc
  | .Anim_ConvexDoubleArc_Twice => Anim_ConvexDoubleArc_Twice
  | .Anim_ConcaveArcSmall_Slow => Anim_ConcaveArcSmall_Slow
  | .Anim_ConcaveArcSmall => Anim_ConcaveArcSmall
  | .Anim_ConcaveArcSmall_Twice => Anim_ConcaveArcSmall_Twice
  | .Anim_HorizontalDip => Anim_HorizontalDip
  | .Anim_HorizontalDip_Fast => Anim_HorizontalDip_Fast
  | .Anim_HorizontalDip_Twice => Anim_HorizontalDip_Twice
  | .Anim_ShrinkGrowVibrate_Fast => Anim_ShrinkGrowVibrate_Fast
  | .Anim_ShrinkGrowVibrate => Anim_ShrinkGrowVibrate
  | .Anim_ShrinkGrowVibrate_Slow => Anim_ShrinkGrowVibrate_Slow
  | .Anim_JoltRight_Fast => Anim_JoltRight_Fast
  | .Anim_JoltRight => Anim_JoltRight
  | .Anim_JoltRight_Slow => Anim_JoltRight_Slow
  | .Anim_ShakeFlashYellow_Fast => Anim_ShakeFlashYellow_Fast
  | .Anim_ShakeFlashYellow => Anim_ShakeFlashYellow
  | .Anim_ShakeFlashYellow_Slow => Anim_ShakeFlashYellow_Slow
  | .Anim_ShakeGlowRed_Fast => Anim_ShakeGlowRed_Fast
  | .Anim_ShakeGlowRed => Anim_ShakeGlowRed
  | .Anim_ShakeGlowRed_Slow => Anim_ShakeGlowRed_Slow
  | .Anim_ShakeGlowGreen_Fast => Anim_ShakeGlowGreen_Fast
  | .Anim_ShakeGlowGreen => Anim_ShakeGlowGreen
  | .Anim_ShakeGlowGreen_Slow => Anim_ShakeGlowGreen_Slow
  | .Anim_ShakeGlowBlue_Fast => Anim_ShakeGlowBlue_Fast
  | .Anim_ShakeGlowBlue => Anim_ShakeGlowBlue
  | .Anim_ShakeGlowBlue_Slow => Anim_ShakeGlowBlue_Slow
  | .Anim_ShakeGlowBlack_Slow => Anim_ShakeGlowBlack_Slow
  | .Anim_ShakeGlowWhite_Slow => Anim_ShakeGlowWhite_Slow
  | .Anim_ShakeGlowPurple_Slow => Anim_ShakeGlowPurple_Slow
  | .HorizontalSlide => HorizontalSlide
  | .VerticalSlide => VerticalSlide
  | .VerticalJumps => VerticalJumps
  | .Zigzag => Zigzag
  | .HorizontalShake => HorizontalShake
  | .VerticalShake => VerticalShake
  | .Twist => Twist
  | .Spin => Spin
  | .CircleCounterclockwise => CircleCounterclockwise
  | .VerticalShakeTwice => VerticalShakeTwice
  | .VerticalSlideWobble => VerticalSlideWobble
  | .RisingWobble => RisingWobble
  | .VerticalSquishBounce => VerticalSquishBounce
  | .BounceRotateToSides => BounceRotateToSides
  | .BackAndLunge_0 => BackAndLunge_0
  | .BackAndLunge_1 => BackAndLunge_1
  | .BackAndLunge_2 => BackAndLunge_2
  | .BackAndLunge_3 => BackAndLunge_3
  | .BackAndLunge_4 => BackAndLunge_4
  | .BackFlip_0 => BackFlip_0
  | .BackFlip_1 => BackFlip_1
  | .BackFlip_2 => BackFlip_2
  | .BackFlipBig_0 => BackFlipBig_0
  | .BackFlipBig_1 => BackFlipBig_1
  | .BackFlipBig_2 => BackFlipBig_2
  | .FrontFlip_0 => FrontFlip_0
  | .FrontFlip_1 => FrontFlip_1
  | .FrontFlip_2 => FrontFlip_2
  | .TumblingFrontFlip => TumblingFrontFlip
  | .Figure8 => Figure8
  | .SwingConcave => SwingConcave
  | .SwingConvex => SwingConvex
  | .RotateUpSlamDown_0 => RotateUpSlamDown_0
  | .RotateUpSlamDown_1 => RotateUpSlamDown_1
  | .RotateUpSlamDown_2 => RotateUpSlamDown_2
  | .DeepVerticalSquishBounce => DeepVerticalSquishBounce
  | .HorizontalJumpsVerticalStretch_0 => HorizontalJumpsVerticalStretch_0
  | .HorizontalJumpsVerticalStretch_1 => HorizontalJumpsVerticalStretch_1
  | .HorizontalJumpsVerticalStretch_2 => HorizontalJumpsVerticalStretch_2
  | .RotateToSides => RotateToSides
  | .TipHopForward_0 => TipHopForward_0
  | .TipHopForward_1 => TipHopForward_1
  | .TipHopForward_2 => TipHopForward_2
  | .TipAndShake_0 => TipAndShake_0
  | .TipAndShake_1 => TipAndShake_1
  | .TipAndShake_2 => TipAndShake_2
  | .TipAndShake_3 => TipAndShake_3
  | .SpringRising_0 => SpringRising_0
  | .SpringRising_1 => SpringRising_1
  | .SpringRising_2 => SpringRising_2
  | .TriangleDown => TriangleDown
  | .VerticalShakeBack => VerticalShakeBack
  | .VerticalShakeLowTwice => VerticalShakeLowTwice
  | .JoltRight => JoltRight
  | .JoltRight_0 => JoltRight_0
  | .JoltRight_1 => JoltRight_1
  | .JoltRight_2 => JoltRight_2
  | .JoltRight_3 => JoltRight_3
  | .WaitAnimEnd => WaitAnimEnd
  | .SpriteCallbackDummy => fun st => st
  | .MonAnimDummySpriteCallback => fun st => st

/-- One simulated frame: the host frame driver invokes the currently
installed callback once. -/
def step (st : St) : St := stepCb st.sprite.callback st

/-- `n` simulated frames. -/
def run : Nat → St → St
  | 0, st => st
  | n + 1, st => run n (step st)

set_option maxHeartbeats 2000000 in
/-- `sMonAnimFunctions`: the animation-function catalog, in table order;
the position of each entry is its `ANIM_*` id. -/
def sMonAnimFunctions : List Cb :=
  [Cb.Anim_VerticalSquishBounce, Cb.Anim_CircularStretchTwice, Cb.Anim_HorizontalVibrate,
   Cb.Anim_HorizontalSlide, Cb.Anim_VerticalSlide, Cb.Anim_BounceRotateToSides,
   Cb.Anim_VerticalJumpsHorizontalJumps, Cb.Anim_RotateToSides, Cb.Anim_RotateToSides_Twice,
   Cb.Anim_GrowVibrate, Cb.Anim_ZigzagFast, Cb.Anim_SwingConcave, Cb.Anim_SwingConcave_Fast,
   Cb.Anim_SwingConvex, Cb.Anim_SwingConvex_Fast, Cb.Anim_HorizontalShake, Cb.Anim_VerticalShake,
   Cb.Anim_CircularVibrate, Cb.Anim_Twist, Cb.Anim_ShrinkGrow, Cb.Anim_CircleCounterclockwise,
   Cb.Anim_GlowBlack, Cb.Anim_HorizontalStretch, Cb.Anim_VerticalStretch, Cb.Anim_RisingWobble,
   Cb.Anim_VerticalShakeTwice, Cb.Anim_TipMoveForward, Cb.Anim_HorizontalPivot,
   Cb.Anim_VerticalSlideWobble, Cb.Anim_HorizontalSlideWobble, Cb.Anim_VerticalJumps_Big,
   Cb.Anim_Spin_Long, Cb.Anim_GlowOrange, Cb.Anim_GlowRed, Cb.Anim_GlowBlue, Cb.Anim_GlowYellow,
   Cb.Anim_GlowPurple, Cb.Anim_BackAndLunge, Cb.Anim_BackFlip, Cb.Anim_Flicker, Cb.Anim_BackFlipBig,
   Cb.Anim_FrontFlip, Cb.Anim_TumblingFrontFlip, Cb.Anim_Figure8, Cb.Anim_FlashYellow,
   Cb.Anim_SwingConcave_FastShort, Cb.Anim_SwingConvex_FastShort, Cb.Anim_RotateUpSlamDown,
   Cb.Anim_DeepVerticalSquishBounce, Cb.Anim_HorizontalJumps,
   Cb.Anim_HorizontalJumpsVerticalStretch, Cb.Anim_RotateToSides_Fast, Cb.Anim_RotateUpToSides,
   Cb.Anim_FlickerIncreasing, Cb.Anim_TipHopForward, Cb.Anim_PivotShake, Cb.Anim_TipAndShake,
   Cb.Anim_VibrateToCorners, Cb.Anim_GrowInStages, Cb.Anim_VerticalSpring,
   Cb.Anim_VerticalRepeatedSpring, Cb.Anim_SpringRising, Cb.Anim_HorizontalSpring,
   Cb.Anim_HorizontalRepeatedSpring_Slow, Cb.Anim_HorizontalSlideShrink, Cb.Anim_LungeGrow,
   Cb.Anim_CircleIntoBackground, Cb.Anim_RapidHorizontalHops, Cb.Anim_FourPetal,
   Cb.Anim_VerticalSquishBounce_Slow, Cb.Anim_HorizontalSlide_Slow, Cb.Anim_VerticalSlide_Slow,
   Cb.Anim_BounceRotateToSides_Small, Cb.Anim_BounceRotateToSides_Slow,
   Cb.Anim_BounceRotateToSides_SmallSlow, Cb.Anim_ZigzagSlow, Cb.Anim_HorizontalShake_Slow,
   Cb.Anim_VertialShake_Slow, Cb.Anim_Twist_Twice, Cb.Anim_CircleCounterclockwise_Slow,
   Cb.Anim_VerticalShakeTwice_Slow, Cb.Anim_VerticalSlideWobble_Small,
   Cb.Anim_VerticalJumps_Small, Cb.Anim_Spin, Cb.Anim_TumblingFrontFlip_Twice,
   Cb.Anim_DeepVerticalSquishBounce_Twice, Cb.Anim_HorizontalJumpsVerticalStretch_Twice,
   Cb.Anim_VerticalShakeBack, Cb.Anim_VerticalShakeBack_Slow,
   Cb.Anim_VerticalShakeHorizontalSlide_Slow, Cb.Anim_VerticalStretchBothEnds_Slow,
   Cb.Anim_HorizontalStretchFar_Slow, Cb.Anim_VerticalShakeLowTwice,
   Cb.Anim_HorizontalShake_Fast, Cb.Anim_HorizontalSlide_Fast, Cb.Anim_HorizontalVibrate_Fast,
   Cb.Anim_HorizontalVibrate_Fastest, Cb.Anim_VerticalShakeBack_Fast,
   Cb.Anim_VerticalShakeLowTwice_Slow, Cb.Anim_VerticalShakeLowTwice_Fast,
   Cb.Anim_CircleCounterclockwise_Long, Cb.Anim_GrowStutter_Slow,
   Cb.Anim_VerticalShakeHorizontalSlide, Cb.Anim_VerticalShakeHorizontalSlide_Fast,
   Cb.Anim_TriangleDown_Slow, Cb.Anim_TriangleDown, Cb.Anim_TriangleDown_Fast, Cb.Anim_Grow,
   Cb.Anim_Grow_Twice, Cb.Anim_HorizontalSpring_Fast, Cb.Anim_HorizontalSpring_Slow,
   Cb.Anim_HorizontalRepeatedSpring_Fast, Cb.Anim_HorizontalRepeatedSpring,
   Cb.Anim_ShrinkGrow_Fast, Cb.Anim_ShrinkGrow_Slow, Cb.Anim_VerticalStretchBothEnds,
   Cb.Anim_VerticalStretchBothEnds_Twice, Cb.Anim_HorizontalStretchFar_Twice,
   Cb.Anim_HorizontalStretchFar, Cb.Anim_GrowStutter_Twice, Cb.Anim_GrowStutter,
   Cb.Anim_ConcaveArcLarge_Slow, Cb.Anim_ConcaveArcLarge, Cb.Anim_ConcaveArcLarge_Twice,
   Cb.Anim_ConvexDoubleArc_Slow, Cb.Anim_ConvexDoubleArc, Cb.Anim_ConvexDoubleArc_Twice,
   Cb.Anim_ConcaveArcSmall_Slow, Cb.Anim_ConcaveArcSmall, Cb.Anim_ConcaveArcSmall_Twice,
   Cb.Anim_HorizontalDip, Cb.Anim_HorizontalDip_Fast, Cb.Anim_HorizontalDip_Twice,
   Cb.Anim_ShrinkGrowVibrate_Fast, Cb.Anim_ShrinkGrowVibrate, Cb.Anim_ShrinkGrowVibrate_Slow,
   Cb.Anim_JoltRight_Fast, Cb.Anim_JoltRight, Cb.Anim_JoltRight_Slow,
   Cb.Anim_ShakeFlashYellow_Fast, Cb.Anim_ShakeFlashYellow, Cb.Anim_ShakeFlashYellow_Slow,
   Cb.Anim_ShakeGlowRed_Fast, Cb.Anim_ShakeGlowRed, Cb.Anim_ShakeGlowRed_Slow,
   Cb.Anim_ShakeGlowGreen_Fast, Cb.Anim_ShakeGlowGreen, Cb.Anim_ShakeGlowGreen_Slow,
   Cb.Anim_ShakeGlowBlue_Fast, Cb.Anim_ShakeGlowBlue, Cb.Anim_ShakeGlowBlue_Slow,
   Cb.Anim_ShakeGlowBlack_Slow, Cb.Anim_ShakeGlowWhite_Slow, Cb.Anim_ShakeGlowPurple_Slow]

/-- Number of catalog entries. -/
def numAnims : Nat := sMonAnimFunctions.length

/-- A zeroed context-pool slot (C static storage is zero-initialized). -/
def zeroAnim : AnimData := ⟨0, 0, 0, 0, 0⟩

def initPool : Pool := ⟨zeroAnim, zeroAnim, zeroAnim, zeroAnim⟩

/-- The sprite state right after `Task_HandleMonAnimation` has initialized
a front-sprite launch and installed the catalog callback: registers 2..7
and register 0 zeroed, register 1 (`sDontFlip`) set to TRUE, offsets 0.
`centerToCornerVecX = -32` is the value for a standard 64x64 battler
sheet. -/
def initSprite (cb : Cb) : Sprite :=
  { d0 := 0, d1 := 1, d2 := 0, d3 := 0, d4 := 0, d5 := 0, d6 := 0, d7 := 0,
    x2 := 0, y2 := 0, callback := cb,
    affineMode := ST_OAM_AFFINE_OFF, matrixNum := 0, paletteNum := 0,
    hFlip := false, invisible := false, animEnded := false,
    affineAnimPaused := false, affineAnimsTag := 0, affineAnimNum := 0,
    centerToCornerVecX := -32, centerVecMode := 0,
    lastXScale := 256, lastYScale := 256, lastRotation := 0 }

/-- Full machine state for a fresh front-sprite launch of one callback. -/
def initSt (cb : Cb) : St :=
  { sprite := initSprite cb, anims := initPool, animIdx := 0,
    isSummaryAnim := false }

/-- Run catalog entry `id` for `n` frames from the correct initial state. -/
def runAnim (id n : Nat) : St :=
  run n (initSt (sMonAnimFunctions.getD id Cb.WaitAnimEnd))

/-- The same initial state with the mirrored flag set: `sDontFlip`
(register 1) zero, i.e. a summary-screen-facing sprite. -/
def mirrorSt (st : St) : St :=
  { st with sprite := { st.sprite with d1 := 0 } }

/-- The fields of the task record `Task_HandleMonAnimation` uses
(`tState`, `tAnimId`, `tBattlerId`, `tSpeciesId`); the sprite pointer
halves (`tPtrHi`/`tPtrLo`) are replaced by passing the sprite state
directly, and `DestroyTask` by clearing `active`.  `CreateTask` zeroes
the data fields. -/
structure Task where
  tState : Int
  tAnimId : Nat
  tBattlerId : Int
  tSpeciesId : Int
  active : Bool
  deriving DecidableEq, Repr

/-- `LaunchAnimationTaskForFrontSprite`: creates the hosting task with the
requested animation id stored verbatim — the source performs no range
check on `frontAnimId`. -/
def LaunchAnimationTaskForFrontSprite (frontAnimId : Nat) : Task :=
  { tState := 0, tAnimId := frontAnimId, tBattlerId := 0, tSpeciesId := 0,
    active := true }

/-- One invocation of `Task_HandleMonAnimation`.  In state 0 it saves
registers 0 and 2 into the task, forces register 1 (`sDontFlip`) to TRUE,
zeroes register 0 and registers 2..7, and installs
`sMonAnimFunctions[tAnimId]` — a raw array read, modelled as `none`
(undefined behavior) when the id is out of catalog range.  Afterwards,
when the installed callback has become the external dummy callback, it
restores registers 0 and 2, clears register 1 and destroys itself. -/
def Task_HandleMonAnimation (t : Task) (st : St) : Option (Task × St) :=
  let p : Option (Task × St) :=
    if t.tState = 0 then
      match sMonAnimFunctions.get? t.tAnimId with
      | none => none
      | some cb =>
        let t := { t with tBattlerId := st.sprite.d0, tSpeciesId := st.sprite.d2 }
        let s := { st.sprite with d1 := 1, d0 := 0,
                                  d2 := 0, d3 := 0, d4 := 0, d5 := 0, d6 := 0, d7 := 0,
                                  callback := cb }
        some ({ t with tState := s16w (t.tState + 1) },
              { st with sprite := s, isSummaryAnim := false })
    else some (t, st)
  match p with
  | none => none
  | some (t, st) =>
    if st.sprite.callback = Cb.SpriteCallbackDummy then
      some ({ t with active := false },
            { st with sprite :=
                { st.sprite with d0 := t.tBattlerId, d2 := t.tSpeciesId, d1 := 0 } })
    else some (t, st)

/-- `StartMonSummaryAnimation`: no hosting task; set the summary flag and
install the catalog callback directly (again a raw array read). -/
def StartMonSummaryAnimation (frontAnimId : Nat) (st : St) : Option St :=
  match sMonAnimFunctions.get? frontAnimId with
  | none => none
  | some cb =>
    some { st with isSummaryAnim := true,
                   sprite := { st.sprite with callback := cb } }

/-- `BACK_ANIM_NONE`: modelled from the spec — the first value of the
external `BACK_ANIM_*` enumeration (the "no back animation" id), which C
zero-initialization also gives to species without a table entry. -/
def BACK_ANIM_NONE : Nat := 0

/-- `GetSpeciesBackAnimSet`, abstracted over the per-species static table
`sSpeciesToBackAnimSet` (pure external data): a non-`BACK_ANIM_NONE` entry
is returned minus one, everything else becomes set 0. -/
def GetSpeciesBackAnimSet (table : Nat → Nat) (species : Nat) : Nat :=
  if table species ≠ BACK_ANIM_NONE then table species - 1 else 0

/-- `sBackAnimationIds`: 25 families × 3 nature variants, flattened in
`(BACK_ANIM_* - 1) * 3` order; entries are `ANIM_*` catalog indices
(positions in `sMonAnimFunctions`). -/
def sBackAnimationIds : List Nat :=
  [96, 95, 2,      -- BACK_ANIM_H_VIBRATE
   94, 3, 70,      -- BACK_ANIM_H_SLIDE
   109, 62, 110,   -- BACK_ANIM_H_SPRING
   111, 112, 63,   -- BACK_ANIM_H_SPRING_REPEATED
   113, 19, 114,   -- BACK_ANIM_SHRINK_GROW
   108, 107, 58,   -- BACK_ANIM_GROW
   100, 20, 79,    -- BACK_ANIM_CIRCLE_COUNTERCLOCKWISE
   93, 15, 76,     -- BACK_ANIM_H_SHAKE
   97, 87, 88,     -- BACK_ANIM_V_SHAKE
   103, 102, 89,   -- BACK_ANIM_V_SHAKE_H_SLIDE
   116, 115, 90,   -- BACK_ANIM_V_STRETCH
   117, 118, 91,   -- BACK_ANIM_H_STRETCH
   119, 120, 101,  -- BACK_ANIM_GROW_STUTTER
   99, 92, 98,     -- BACK_ANIM_V_SHAKE_LOW
   106, 105, 104,  -- BACK_ANIM_TRIANGLE_DOWN
   123, 122, 121,  -- BACK_ANIM_CONCAVE_ARC_LARGE
   126, 125, 124,  -- BACK_ANIM_CONVEX_DOUBLE_ARC
   129, 128, 127,  -- BACK_ANIM_CONCAVE_ARC_SMALL
   132, 130, 131,  -- BACK_ANIM_DIP_RIGHT_SIDE
   133, 134, 135,  -- BACK_ANIM_SHRINK_GROW_VIBRATE
   136, 137, 138,  -- BACK_ANIM_JOLT_RIGHT
   139, 140, 141,  -- BACK_ANIM_SHAKE_FLASH_YELLOW
   142, 143, 144,  -- BACK_ANIM_SHAKE_GLOW_RED
   145, 146, 147,  -- BACK_ANIM_SHAKE_GLOW_GREEN
   148, 149, 150]  -- BACK_ANIM_SHAKE_GLOW_BLUE

/-- `sBackAnimNatureModTable`, in `NATURE_*` order (Hardy .. Quirky). -/
def sBackAnimNatureModTable : List Nat :=
  [0, 2, 0, 0, 0, 1, 1, 1, 0, 1, 2, 0, 1, 0, 0, 2, 2, 2, 2, 1, 1, 2, 1, 2, 1]

/-- The back-animation resolution step of `LaunchAnimationTaskForBackSprite`:
`animId = 3 * backAnimSet + modifier`, then look that up in
`sBackAnimationIds` (the spec's `Resolve(setId, modifier)`). -/
def ResolveBackAnim (backAnimSet modifier : Nat) : Nat :=
  sBackAnimationIds.getD (3 * backAnimSet + modifier) 0

/-- `LaunchAnimationTaskForBackSprite`, with the creature's nature already
looked up from the party slot: stores the resolved concrete animation id
in the hosting task. -/
def LaunchAnimationTaskForBackSprite (backAnimSet nature : Nat) : Task :=
  { tState := 0,
    tAnimId := ResolveBackAnim backAnimSet (sBackAnimNatureModTable.getD nature 0),
    tBattlerId := 0, tSpeciesId := 0, active := true }

/-- Some named `ANIM_*` catalog indices (table positions of the
corresponding entries of `sMonAnimFunctions`). -/
def ANIM_H_VIBRATE : Nat := 2

def ANIM_H_SLIDE : Nat := 3

def ANIM_H_VIBRATE_FAST : Nat := 95

def ANIM_H_VIBRATE_FASTEST : Nat := 96

/-- Splitting a simulation: running `a + b` frames is running `a` frames
and then `b` more. -/
theorem run_add (a b : Nat) (st : St) : run (a + b) st = run b (run a st) := by
  induction a generalizing st with
  | zero => rw [Nat.zero_add]; rfl
  | succ n ih =>
      rw [Nat.succ_add]
      exact ih (step st)

/-- A state fixed by one frame is fixed by any number of frames. -/
theorem run_fix {st : St} (h : step st = st) : ∀ k, run k st = st := by
  intro k
  induction k with
  | zero => rfl
  | succ n ih =>
      show run n (step st) = st
      rw [h]
      exact ih

/-- Reduce an unbounded frame index to a bounded one once a fixed point is
reached at frame `m`. -/
theorem run_stable {st : St} {m : Nat} (h : step (run m st) = run m st) :
    ∀ n, m ≤ n → run n st = run m st := by
  intro n hmn
  have : n = m + (n - m) := by omega
  rw [this, run_add]
  exact run_fix h (n - m)

/-- The frame on which each catalog entry, run from the correct initial
state, first has the terminal `WaitAnimEnd` callback installed (one entry
per `ANIM_*` id, in catalog order). -/
def termFrames : List Nat :=
  [50, 42, 42, 42, 42, 88, 66, 129, 130, 42, 55, 102, 103, 102, 103, 40, 40, 58, 34, 50,
   23, 130, 42, 42, 102, 79, 37, 102, 102, 102, 34, 62, 66, 66, 66, 66, 66, 34, 60, 58,
   64, 50, 32, 65, 57, 52, 52, 74, 65, 44,
   74, 65, 33, 66, 71, 17, 70, 42, 115, 66, 66, 89, 66, 66, 66, 66, 66, 87, 64, 98,
   82, 82, 88, 168, 168, 109, 78, 78, 141, 44, 79, 102, 34, 62, 138, 139, 157, 40, 78, 87,
   42, 42, 79, 34, 22, 42, 42, 34, 79, 79, 44, 42, 44, 34, 37, 19, 38, 65, 66, 66,
   66, 66, 66, 82, 98, 32, 44, 44, 32, 44, 32, 65, 44, 66, 132, 88, 102, 65, 44, 66,
   62, 92, 63, 82, 42, 82, 36, 31, 21, 82, 57, 76, 129, 129, 129, 129, 129, 129, 129, 129,
   129, 129, 129, 129]

set_option maxHeartbeats 8000000 in
/-- C1: every entry of the animation-function catalog (`sMonAnimFunctions`),
started from the correct initial state (scratch registers zeroed from
index 2 on, `sDontFlip` set, freshly zero pool), reaches the terminal
`WaitAnimEnd` callback within its per-variant frame bound, each bound
lying within the largest documented bound (513 frames); no variant
re-arms itself forever. -/
theorem c1_catalog_termination : ∀ id, id < numAnims →
    (runAnim id (termFrames.getD id 0)).sprite.callback = Cb.WaitAnimEnd ∧
    termFrames.getD id 0 ≤ 513 := by decide

theorem c1_catalog_termination_witness :
    (runAnim ANIM_H_SLIDE (termFrames.getD ANIM_H_SLIDE 0)).sprite.callback =
      Cb.WaitAnimEnd ∧
    termFrames.getD ANIM_H_SLIDE 0 ≤ 513 :=
  c1_catalog_termination ANIM_H_SLIDE (by decide)

theorem setAnim_animIdx (st : St) (i : Int) (a : AnimData) :
    (setAnim st i a).animIdx = st.animIdx := by
  unfold setAnim
  split <;> rfl

theorem initAnimData_animIdx (st : St) (id : Nat) :
    (InitAnimData st id).animIdx = st.animIdx := by
  unfold InitAnimData
  split
  · rfl
  · exact setAnim_animIdx ..

theorem getAnim_initAnimData (st : St) (id : Nat) (h : id < 4) :
    getAnim (InitAnimData st id) (id : Int) = ⟨0, 0, 1, 0, 0⟩ := by
  interval_cases id <;> rfl

theorem addNewAnim_snd_animIdx (st : St) :
    (AddNewAnim st).2.animIdx = (st.animIdx + 1) % MAX_BATTLERS_COUNT := by
  show (InitAnimData { st with animIdx := (st.animIdx + 1) % MAX_BATTLERS_COUNT }
      ((st.animIdx + 1) % MAX_BATTLERS_COUNT)).animIdx = _
  rw [initAnimData_animIdx]

/-- C4: claiming pool slots `MAX_BATTLERS_COUNT + 1` times in a row wraps
the round-robin cursor back to the first claimed slot id, and every claim
leaves the claimed slot freshly reset (`rotation = 0`, `delay = 0`,
`runs = 1`, `speed = 0`, `data = 0`), regardless of what any earlier
claimant had written. -/
theorem c4_pool_round_robin : ∀ st : St,
    (AddNewAnim (AddNewAnim (AddNewAnim (AddNewAnim (AddNewAnim st).2).2).2).2).1 =
      (AddNewAnim st).1 ∧
    getAnim (AddNewAnim st).2 ((AddNewAnim st).1 : Int) = ⟨0, 0, 1, 0, 0⟩ := by
  intro st
  refine ⟨?_, ?_⟩
  · have h1 := addNewAnim_snd_animIdx st
    have h2 := addNewAnim_snd_animIdx (AddNewAnim st).2
    have h3 := addNewAnim_snd_animIdx (AddNewAnim (AddNewAnim st).2).2
    have h4 := addNewAnim_snd_animIdx (AddNewAnim (AddNewAnim (AddNewAnim st).2).2).2
    show ((AddNewAnim (AddNewAnim (AddNewAnim (AddNewAnim st).2).2).2).2.animIdx + 1) %
        MAX_BATTLERS_COUNT = (st.animIdx + 1) % MAX_BATTLERS_COUNT
    rw [h4, h3, h2, h1]
    unfold MAX_BATTLERS_COUNT
    omega
  · have hlt : (st.animIdx + 1) % MAX_BATTLERS_COUNT < 4 :=
      Nat.mod_lt _ (by decide)
    exact getAnim_initAnimData { st with animIdx := (st.animIdx + 1) % MAX_BATTLERS_COUNT }
      ((st.animIdx + 1) % MAX_BATTLERS_COUNT) hlt

/-- C7: resolving the back-animation family of a species whose table entry
is `BACK_ANIM_NONE` (or absent, which reads as `BACK_ANIM_NONE` from
zeroed static storage) yields set 0 — the horizontal-vibrate family, whose
three variants are all valid catalog ids — while a species with a non-zero
entry resolves to that entry minus one. -/
theorem c7_back_anim_set_default :
    (∀ table : Nat → Nat, ∀ species : Nat,
      (table species = BACK_ANIM_NONE → GetSpeciesBackAnimSet table species = 0) ∧
      (table species ≠ BACK_ANIM_NONE →
        GetSpeciesBackAnimSet table species = table species - 1)) ∧
    ResolveBackAnim 0 0 = ANIM_H_VIBRATE_FASTEST ∧
    ResolveBackAnim 0 1 = ANIM_H_VIBRATE_FAST ∧
    ResolveBackAnim 0 2 = ANIM_H_VIBRATE ∧
    (∀ m, m < 3 → ResolveBackAnim 0 m < numAnims) := by
  refine ⟨fun table species => ⟨fun h => ?_, fun h => ?_⟩, by decide, by decide,
    by decide, by decide⟩
  · simp [GetSpeciesBackAnimSet, h]
  · simp [GetSpeciesBackAnimSet, h]

theorem c7_back_anim_set_default_witness :
    GetSpeciesBackAnimSet (fun _ => 0) 7 = 0 ∧
    GetSpeciesBackAnimSet (fun _ => 19) 7 = 18 ∧
    ResolveBackAnim 0 0 < numAnims :=
  ⟨(c7_back_anim_set_default.1 (fun _ => 0) 7).1 rfl,
   (c7_back_anim_set_default.1 (fun _ => 19) 7).2 (by decide),
   c7_back_anim_set_default.2.2.2.2 0 (by decide)⟩

/-- C8: the back-animation resolver computes
`animId = 3 * familyIndex + natureModifier` into `sBackAnimationIds`; for
the horizontal-vibrate family modifier 0 gives `ANIM_H_VIBRATE_FASTEST`
(the fastest variant) and modifier 2 gives `ANIM_H_VIBRATE` (the normal
variant); the result is a deterministic function of (setId, modifier) and
is a valid catalog id on the whole 25 × 3 domain. -/
theorem c8_back_anim_resolution :
    (∀ s m : Nat, ResolveBackAnim s m = sBackAnimationIds.getD (3 * s + m) 0) ∧
    ResolveBackAnim 0 0 = ANIM_H_VIBRATE_FASTEST ∧
    sMonAnimFunctions.getD (ResolveBackAnim 0 0) Cb.WaitAnimEnd =
      Cb.Anim_HorizontalVibrate_Fastest ∧
    ResolveBackAnim 0 2 = ANIM_H_VIBRATE ∧
    sMonAnimFunctions.getD (ResolveBackAnim 0 2) Cb.WaitAnimEnd =
      Cb.Anim_HorizontalVibrate ∧
    (∀ s, s < 25 → ∀ m, m < 3 → ResolveBackAnim s m < numAnims) := by
  exact ⟨fun s m => rfl, by decide, by decide, by decide, by decide, by decide⟩

theorem c8_back_anim_resolution_witness :
    ResolveBackAnim 20 1 = sBackAnimationIds.getD 61 0 ∧
    ResolveBackAnim 20 1 < numAnims :=
  ⟨c8_back_anim_resolution.1 20 1, c8_back_anim_resolution.2.2.2.2.2 20 (by decide) 1 (by decide)⟩

/-- C10: once `WaitAnimEnd` is the installed callback, a frame changes
nothing at all unless the sprite's frame animation has ended
(`animEnded`), in which case the only change is that the callback becomes
the external dummy callback — the state the supervisor task polls for; so
host-visible completion never precedes `animEnded`. -/
theorem c10_wait_anim_end_step : ∀ st : St,
    st.sprite.callback = Cb.WaitAnimEnd →
    step st =
      if st.sprite.animEnded then
        { st with sprite := { st.sprite with callback := Cb.SpriteCallbackDummy } }
      else st := by
  intro st h
  show stepCb st.sprite.callback st = _
  rw [h]
  rfl

theorem c10_wait_anim_end_step_witness :
    step (initSt Cb.WaitAnimEnd) = initSt Cb.WaitAnimEnd :=
  (c10_wait_anim_end_step (initSt Cb.WaitAnimEnd) rfl).trans (by decide)

/-- C2: launching the horizontal-slide variant (bound 40 ticks, amplitude
6) on an unmirrored sprite with offsets (0,0) yields, on every tick
`t ≤ 40`, `positionOffsetX = Sin((t*384/40) mod 256, 6)`; tick 41 zeroes
the offset and installs the terminal callback, and the offset stays 0 on
every later frame. -/
theorem c2_horizontal_slide_curve :
    (∀ t : Nat, t ≤ 40 →
      (run (t + 1) (initSt Cb.Anim_HorizontalSlide)).sprite.x2 =
        Sin (cmod (cdiv ((t : Int) * 384) 40) 256) 6) ∧
    (run 42 (initSt Cb.Anim_HorizontalSlide)).sprite.callback = Cb.WaitAnimEnd ∧
    (run 42 (initSt Cb.Anim_HorizontalSlide)).sprite.x2 = 0 ∧
    (∀ n, 42 ≤ n → (run n (initSt Cb.Anim_HorizontalSlide)).sprite.x2 = 0) := by
  refine ⟨by decide, by decide, by decide, ?_⟩
  intro n hn
  have hfix : step (run 42 (initSt Cb.Anim_HorizontalSlide)) =
      run 42 (initSt Cb.Anim_HorizontalSlide) := by decide
  rw [run_stable hfix n hn]
  decide

theorem c2_horizontal_slide_curve_witness :
    (run 21 (initSt Cb.Anim_HorizontalSlide)).sprite.x2 =
      Sin (cmod (cdiv ((20 : Int) * 384) 40) 256) 6 ∧
    (run 100 (initSt Cb.Anim_HorizontalSlide)).sprite.x2 = 0 :=
  ⟨c2_horizontal_slide_curve.1 20 (by decide),
   c2_horizontal_slide_curve.2.2.2 100 (by decide)⟩

/-- C3 counterexample: `Anim_HorizontalVibrate` (the `ANIM_H_VIBRATE`
catalog entry) produces a horizontal offset curve but never consults the
mirrored flag: on tick 20 the unmirrored and the mirrored run both show
offset +6, which is not the negation of +6 — so not every
horizontal-curve variant mirrors into an exact per-frame negation. -/
theorem c3_mirror_counterexample :
    (run 21 (initSt Cb.Anim_HorizontalVibrate)).sprite.x2 = 6 ∧
    (run 21 (mirrorSt (initSt Cb.Anim_HorizontalVibrate))).sprite.x2 = 6 ∧
    (run 21 (mirrorSt (initSt Cb.Anim_HorizontalVibrate))).sprite.x2 ≠
      -(run 21 (initSt Cb.Anim_HorizontalVibrate)).sprite.x2 := by
  decide

/-- C3 (amended): variants that wrap their per-frame computation in
`TryFlipX` play, under mirroring, the exact per-frame negation of the
unmirrored horizontal offsets — shown for the cited `Zigzag` variant —
whereas a horizontal-curve variant without the wrap
(`Anim_HorizontalVibrate`) plays the identical offsets instead. -/
theorem c3_mirror_negation :
    (∀ n : Nat,
      (run n (mirrorSt (initSt Cb.Anim_ZigzagFast))).sprite.x2 =
        -((run n (initSt Cb.Anim_ZigzagFast)).sprite.x2)) ∧
    (∀ n : Nat,
      (run n (mirrorSt (initSt Cb.Anim_HorizontalVibrate))).sprite.x2 =
        (run n (initSt Cb.Anim_HorizontalVibrate)).sprite.x2) := by
  constructor
  · have hz : ∀ n, n ≤ 60 →
        (run n (mirrorSt (initSt Cb.Anim_ZigzagFast))).sprite.x2 =
          -((run n (initSt Cb.Anim_ZigzagFast)).sprite.x2) := by decide
    have fixA : step (run 60 (mirrorSt (initSt Cb.Anim_ZigzagFast))) =
        run 60 (mirrorSt (initSt Cb.Anim_ZigzagFast)) := by decide
    have fixB : step (run 60 (initSt Cb.Anim_ZigzagFast)) =
        run 60 (initSt Cb.Anim_ZigzagFast) := by decide
    intro n
    rcases le_or_lt n 60 with h | h
    · exact hz n h
    · rw [run_stable fixA n (by omega), run_stable fixB n (by omega)]
      exact hz 60 (Nat.le_refl _)
  · have hv : ∀ n, n ≤ 45 →
        (run n (mirrorSt (initSt Cb.Anim_HorizontalVibrate))).sprite.x2 =
          (run n (initSt Cb.Anim_HorizontalVibrate)).sprite.x2 := by decide
    have fixA : step (run 45 (mirrorSt (initSt Cb.Anim_HorizontalVibrate))) =
        run 45 (mirrorSt (initSt Cb.Anim_HorizontalVibrate)) := by decide
    have fixB : step (run 45 (initSt Cb.Anim_HorizontalVibrate)) =
        run 45 (initSt Cb.Anim_HorizontalVibrate) := by decide
    intro n
    rcases le_or_lt n 45 with h | h
    · exact hv n h
    · rw [run_stable fixA n (by omega), run_stable fixB n (by omega)]
      exact hv 45 (Nat.le_refl _)

/-- A sprite right before a front-sprite launch whose registers 0 and 2
still hold battler and species identity (5 and 9 here). -/
def c5Sprite : St :=
  { initSt Cb.MonAnimDummySpriteCallback with
      sprite := { (initSt Cb.MonAnimDummySpriteCallback).sprite with d0 := 5, d2 := 9 } }

/-- C5 counterexample: the launch frame does not leave registers 0 and 1
untouched — register 0 (battler id, 5 here) is zeroed and register 1 is
forced to TRUE; the identity is parked in the task instead. -/
theorem c5_register_counterexample :
    c5Sprite.sprite.d0 = 5 ∧
    (Task_HandleMonAnimation (LaunchAnimationTaskForFrontSprite 3) c5Sprite).map
      (fun r => (r.2.sprite.d0, r.2.sprite.d1, r.1.tBattlerId, r.1.tSpeciesId)) =
      some (0, 1, 5, 9) := by
  decide

/-- C5 (amended): the launch frame saves registers 0 and 2 (battler and
species identity) into the hosting task, zeroes register 0, forces
register 1 (`sDontFlip`) to TRUE and zeroes registers 2..7, installing the
catalog callback; on completion (installed callback equal to the dummy
callback) the task restores registers 0 and 2 from the saved copies,
clears register 1 and removes itself from the scheduler. -/
theorem c5_task_register_handling :
    (∀ t : Task, ∀ st : St, ∀ cb : Cb,
      t.tState = 0 → sMonAnimFunctions.get? t.tAnimId = some cb →
      Task_HandleMonAnimation t st =
        some ({ t with tState := s16w (t.tState + 1),
                       tBattlerId := st.sprite.d0, tSpeciesId := st.sprite.d2 },
              { st with isSummaryAnim := false,
                        sprite := { st.sprite with
                                      d1 := 1, d0 := 0, d2 := 0, d3 := 0,
                                      d4 := 0, d5 := 0, d6 := 0, d7 := 0,
                                      callback := cb } })) ∧
    (∀ t : Task, ∀ st : St,
      t.tState ≠ 0 → st.sprite.callback = Cb.SpriteCallbackDummy →
      Task_HandleMonAnimation t st =
        some ({ t with active := false },
              { st with sprite := { st.sprite with
                                      d0 := t.tBattlerId,
                                      d2 := t.tSpeciesId, d1 := 0 } })) := by
  constructor
  · intro t st cb ht hcb
    have hne : cb ≠ Cb.SpriteCallbackDummy := by
      have hmem : cb ∈ sMonAnimFunctions := List.get?_mem hcb
      have hall : ∀ x ∈ sMonAnimFunctions, x ≠ Cb.SpriteCallbackDummy := by decide
      exact hall cb hmem
    unfold Task_HandleMonAnimation
    rw [if_pos ht, hcb]
    simp only []
    rw [if_neg hne]
  · intro t st ht hcb
    unfold Task_HandleMonAnimation
    rw [if_neg ht]
    simp only []
    rw [if_pos hcb]

theorem c5_task_register_handling_witness :
    Task_HandleMonAnimation (LaunchAnimationTaskForFrontSprite 3)
        (initSt Cb.MonAnimDummySpriteCallback) =
      some ({ LaunchAnimationTaskForFrontSprite 3 with
                tState := s16w ((LaunchAnimationTaskForFrontSprite 3).tState + 1),
                tBattlerId := (initSt Cb.MonAnimDummySpriteCallback).sprite.d0,
                tSpeciesId := (initSt Cb.MonAnimDummySpriteCallback).sprite.d2 },
            { initSt Cb.MonAnimDummySpriteCallback with
                isSummaryAnim := false,
                sprite := { (initSt Cb.MonAnimDummySpriteCallback).sprite with
                              d1 := 1, d0 := 0, d2 := 0, d3 := 0, d4 := 0, d5 := 0,
                              d6 := 0, d7 := 0,
                              callback := Cb.Anim_HorizontalSlide } }) :=
  c5_task_register_handling.1 (LaunchAnimationTaskForFrontSprite 3)
    (initSt Cb.MonAnimDummySpriteCallback) Cb.Anim_HorizontalSlide rfl (by decide)

/-- C6 counterexample: `LaunchAnimationTaskForFrontSprite` performs no
catalog-range validation — an out-of-range id (200 ≥ 154) is stored
verbatim in the task and does reach the raw `sMonAnimFunctions` index
(modelled as the out-of-bounds lookup `none`). -/
theorem c6_no_range_validation :
    (LaunchAnimationTaskForFrontSprite 200).tAnimId = 200 ∧
    numAnims ≤ 200 ∧
    sMonAnimFunctions.get? 200 = none ∧
    Task_HandleMonAnimation (LaunchAnimationTaskForFrontSprite 200)
      (initSt Cb.MonAnimDummySpriteCallback) = none := by
  decide

/-- C6 (amended): the front-sprite launch stores any requested id
unchanged (no clamp, no range check), so the raw catalog index succeeds
exactly for ids inside the catalog and is undefined behavior outside. -/
theorem c6_launch_no_validation :
    ∀ frontAnimId : Nat,
      (LaunchAnimationTaskForFrontSprite frontAnimId).tAnimId = frontAnimId ∧
      ((Task_HandleMonAnimation (LaunchAnimationTaskForFrontSprite frontAnimId)
          (initSt Cb.MonAnimDummySpriteCallback)).isSome ↔ frontAnimId < numAnims) := by
  intro id
  refine ⟨rfl, ?_⟩
  show (Task_HandleMonAnimation ⟨0, id, 0, 0, true⟩
      (initSt Cb.MonAnimDummySpriteCallback)).isSome ↔ id < numAnims
  unfold Task_HandleMonAnimation
  rw [if_pos rfl]
  cases hg : sMonAnimFunctions.get? id with
  | none =>
      have hlen : sMonAnimFunctions.length ≤ id := List.get?_eq_none.mp hg
      simp [numAnims]
      omega
  | some cb =>
      have hlt : id < sMonAnimFunctions.length := by
        by_contra hge
        rw [List.get?_eq_none.mpr (by omega)] at hg
        exact Option.noConfusion hg
      simp only [numAnims]
      constructor
      · intro _
        exact hlt
      · intro _
        split <;> rfl

theorem c6_launch_no_validation_witness :
    (LaunchAnimationTaskForFrontSprite 153).tAnimId = 153 ∧
    ((Task_HandleMonAnimation (LaunchAnimationTaskForFrontSprite 153)
        (initSt Cb.MonAnimDummySpriteCallback)).isSome ↔ 153 < numAnims) :=
  c6_launch_no_validation 153

/-- The state of a scale/rotate variant right after its affine start. -/
def c9Base : St := HandleStartAffineAnim (initSt Cb.Anim_CircularStretchTwice)

/-- C9 counterexample: after the terminal-frame reset, a summary-screen
sprite has its affine mode switched OFF (with the horizontal flip baked
into the matrix number), while a non-summary sprite is left in
`ST_OAM_AFFINE_NORMAL` — the exact opposite of the claimed "switch out of
affine mode except for summary playback, where affine is left enabled". -/
theorem c9_affine_mode_counterexample :
    (ResetSpriteAfterAnim { c9Base with
        isSummaryAnim := true,
        sprite := { c9Base.sprite with d1 := 0 } }).sprite.affineMode =
      ST_OAM_AFFINE_OFF ∧
    (ResetSpriteAfterAnim c9Base).sprite.affineMode = ST_OAM_AFFINE_NORMAL ∧
    ST_OAM_AFFINE_NORMAL ≠ ST_OAM_AFFINE_OFF := by
  decide

/-- C9 (amended): on the terminal frame the engine restores the affine
parameters to (mirror-aware) identity and recomputes the center-to-corner
metadata with mode `ST_OAM_AFFINE_NORMAL`; a non-summary sprite is left in
`ST_OAM_AFFINE_NORMAL` with its matrix number and flip untouched, while a
summary-screen sprite gets the horizontal flip baked into its matrix
number and its affine mode switched OFF. -/
theorem c9_terminal_affine_handling :
    (∀ st : St,
      (ResetSpriteAfterAnim st).sprite.centerVecMode = ST_OAM_AFFINE_NORMAL ∧
      (st.isSummaryAnim = false →
        (ResetSpriteAfterAnim st).sprite.affineMode = ST_OAM_AFFINE_NORMAL ∧
        (ResetSpriteAfterAnim st).sprite.matrixNum = st.sprite.matrixNum ∧
        (ResetSpriteAfterAnim st).sprite.hFlip = st.sprite.hFlip) ∧
      (st.isSummaryAnim = true →
        (ResetSpriteAfterAnim st).sprite.affineMode = ST_OAM_AFFINE_OFF ∧
        (ResetSpriteAfterAnim st).sprite.hFlip = decide (st.sprite.d1 = 0) ∧
        (ResetSpriteAfterAnim st).sprite.matrixNum =
          st.sprite.matrixNum ||| (if st.sprite.d1 = 0 then 8 else 0))) ∧
    ((runAnim 1 42).sprite.lastXScale = 256 ∧
     (runAnim 1 42).sprite.lastYScale = 256 ∧
     (runAnim 1 42).sprite.lastRotation = 0 ∧
     (runAnim 1 42).sprite.affineMode = ST_OAM_AFFINE_NORMAL ∧
     (runAnim 1 42).sprite.callback = Cb.WaitAnimEnd) := by
  constructor
  · intro st
    unfold ResetSpriteAfterAnim
    rcases hs : st.isSummaryAnim with _ | _ <;>
      simp [hs, ST_OAM_AFFINE_NORMAL, ST_OAM_AFFINE_OFF]
  · decide

theorem c9_terminal_affine_handling_witness :
    (ResetSpriteAfterAnim c9Base).sprite.centerVecMode = ST_OAM_AFFINE_NORMAL ∧
    (c9Base.isSummaryAnim = false →
      (ResetSpriteAfterAnim c9Base).sprite.affineMode = ST_OAM_AFFINE_NORMAL ∧
      (ResetSpriteAfterAnim c9Base).sprite.matrixNum = c9Base.sprite.matrixNum ∧
      (ResetSpriteAfterAnim c9Base).sprite.hFlip = c9Base.sprite.hFlip) ∧
    (c9Base.isSummaryAnim = true →
      (ResetSpriteAfterAnim c9Base).sprite.affineMode = ST_OAM_AFFINE_OFF ∧
      (ResetSpriteAfterAnim c9Base).sprite.hFlip = decide (c9Base.sprite.d1 = 0) ∧
      (ResetSpriteAfterAnim c9Base).sprite.matrixNum =
        c9Base.sprite.matrixNum ||| (if c9Base.sprite.d1 = 0 then 8 else 0)) :=
  c9_terminal_affine_handling.1 c9Base

end PokeAnim
